import Mathlib

/-!
# Verification of the Intercept/LCC compiler middle end

A shallow embedding of the parts of the compiler relevant to the inliner
(`src/codegen/opt/inline.c`), the glint type-equality predicate
(`lib/glint/ast.cc`), and the AST-to-IR emission driver (`src/codegen.c`),
together with proofs and refutations of the specification claims about them.

Machine pointers of the C sources are modelled as natural-number ids:
fresh allocations (`calloc`) draw ids from a monotone counter, so distinct
allocations have distinct ids exactly like distinct live pointers.  The
explicit use/def ("users") sets of the C IR are represented in derived form:
the users of a value are the instructions that mention it as an operand, and
the bookkeeping helpers (`mark_used`, `ir_unmark_usees`, `ir_remove_use`)
that only maintain this invariant have no separate state here.
-/

set_option maxRecDepth 4000

namespace Intercept

/-! ## IR data model (from `struct IRInstruction` usage in inline.c, spec §3/§4.3) -/

/-- Single-operand opcodes (the `copy->operand = MAP(inst->operand)` group). -/
inductive UnOp where
  | LOAD | COPY | ZERO_EXTEND | SIGN_EXTEND | TRUNCATE | BITCAST | NOT
deriving DecidableEq, Repr

/-- Two-operand opcodes (the `lhs`/`rhs` group of the inliner's switch). -/
inductive BinOp where
  | ADD | SUB | MUL | DIV | MOD | SHL | SAR | SHR | AND | OR
  | LT | LE | GT | GE | EQ | NE
deriving DecidableEq, Repr

/-- The call payload of `IR_CALL`/`IR_INTRINSIC` instructions.
`callee_function` is an index into the context's function vector (a direct
callee pointer in C); `callee_instruction` is an instruction id (indirect). -/
structure CallData where
  is_indirect : Bool
  callee_function : Nat
  callee_instruction : Nat
  arguments : List Nat
  tail_call : Bool
deriving DecidableEq, Repr

/-- Instruction payloads, one constructor per opcode group handled by the
inliner's copy switch.  Operands are instruction ids, block references are
block ids. -/
inductive InstData where
  | IMMEDIATE (imm : Int)
  | STATIC_REF (ref : Nat)
  | FUNC_REF (ref : Nat)
  | UNREACHABLE
  | ALLOCA (size : Nat)
  | INTRINSIC (intrinsic : Nat) (call : CallData)
  | CALL (call : CallData)
  | UN (op : UnOp) (operand : Nat)
  | BIN (op : BinOp) (lhs rhs : Nat)
  | STORE (value addr : Nat)
  | BRANCH (destination : Nat)
  | BRANCH_CONDITIONAL (condition then_ else_ : Nat)
  | PHI (args : List (Nat × Nat))
  | RETURN (operand : Option Nat)
  | PARAMETER (idx : Nat)
deriving DecidableEq, Repr

/-- An IR instruction: identity (= C pointer), type and backend flags
(opaque here, copied by the inliner), and the payload. -/
structure IRInstruction where
  id : Nat
  type : Nat
  backend_flags : Nat
  data : InstData
deriving DecidableEq, Repr

/-- A basic block: identity (= C pointer) and its instruction list. -/
structure IRBlock where
  id : Nat
  insts : List IRInstruction
deriving DecidableEq, Repr

/-- An IR function.  `blocks` is the forward traversal of the doubly linked
block list. `parameters` holds the ids of the function's PARAMETER
instructions, in parameter order (the C `f->parameters` vector).
`is_ext` renders the C field `f->is_extern`. -/
structure IRFunction where
  name : String
  parameters : List Nat
  blocks : List IRBlock
  is_ext : Bool
  attr_forceinline : Bool
deriving DecidableEq, Repr

/-- The codegen context restricted to what the inliner touches: the module's
functions.  Function "pointers" are indices into this list. -/
structure CodegenContext where
  functions : List IRFunction
deriving DecidableEq, Repr

/-- The empty function used as the (never hit in well-formed runs) default
of function lookups. -/
def dummyFunction : IRFunction := ⟨"", [], [], false, false⟩

def getFunction (ctx : CodegenContext) (i : Nat) : IRFunction :=
  ctx.functions.getD i dummyFunction

def IRInstruction.isParam (i : IRInstruction) : Bool :=
  match i.data with
  | .PARAMETER _ => true
  | _ => false

def IRInstruction.isRet (i : IRInstruction) : Bool :=
  match i.data with
  | .RETURN _ => true
  | _ => false

/-- All instructions of a function in block order
(`FOREACH_INSTRUCTION_IN_FUNCTION`). -/
def allInsts (f : IRFunction) : List IRInstruction :=
  f.blocks.foldr (fun b acc => b.insts ++ acc) []

/-- The value operands an instruction mentions; the derived users of `v`
are the instructions whose `valueOperands` contain `v`. -/
def InstData.valueOperands : InstData → List Nat
  | .IMMEDIATE _ | .STATIC_REF _ | .FUNC_REF _ | .UNREACHABLE
  | .ALLOCA _ | .PARAMETER _ | .BRANCH _ => []
  | .INTRINSIC _ c | .CALL c =>
      (if c.is_indirect then [c.callee_instruction] else []) ++ c.arguments
  | .UN _ o => [o]
  | .BIN _ l r => [l, r]
  | .STORE v a => [v, a]
  | .BRANCH_CONDITIONAL c _ _ => [c]
  | .PHI args => args.map (·.2)
  | .RETURN o => o.toList

/-- Substitute value operand `old` by `new` (the structural content of
`ir_replace_uses`, i.e. RAUW). Block references and direct callees are not
value operands and are untouched. -/
def InstData.substVal (old new : Nat) : InstData → InstData
  | .INTRINSIC i c => .INTRINSIC i
      { c with
        callee_instruction :=
          if c.is_indirect && c.callee_instruction = old then new
          else c.callee_instruction,
        arguments := c.arguments.map (fun a => if a = old then new else a) }
  | .CALL c => .CALL
      { c with
        callee_instruction :=
          if c.is_indirect && c.callee_instruction = old then new
          else c.callee_instruction,
        arguments := c.arguments.map (fun a => if a = old then new else a) }
  | .UN op o => .UN op (if o = old then new else o)
  | .BIN op l r =>
      .BIN op (if l = old then new else l) (if r = old then new else r)
  | .STORE v a =>
      .STORE (if v = old then new else v) (if a = old then new else a)
  | .BRANCH_CONDITIONAL c t e =>
      .BRANCH_CONDITIONAL (if c = old then new else c) t e
  | .PHI args => .PHI (args.map (fun p => (p.1, if p.2 = old then new else p.2)))
  | .RETURN o => .RETURN (o.map (fun v => if v = old then new else v))
  | d => d

def IRInstruction.substVal (old new : Nat) (i : IRInstruction) : IRInstruction :=
  { i with data := i.data.substVal old new }

def IRBlock.substVal (old new : Nat) (b : IRBlock) : IRBlock :=
  { b with insts := b.insts.map (IRInstruction.substVal old new) }

/-! ## `instruction_count` (inline.c lines 16–23) -/

/-- Translation of `instruction_count`: the number of instructions in `f`,
counting `PARAMETER` instructions only when `include_parameters` holds. -/
def instruction_count (f : IRFunction) (include_parameters : Bool) : Int :=
  f.blocks.foldl
    (fun i b =>
      b.insts.foldl
        (fun i inst =>
          if include_parameters || !inst.isParam then i + 1 else i)
        i)
    0

/-! ## Inline history (inline.c lines 3–14 and 60–114) -/

/-- One entry of the per-pass inline history.  `inlined_via = none` models
`ROOT_INLINE_ENTRY`; `callee = none` models the `NULL` callee recorded for
copied indirect calls. -/
structure HistoryEntry where
  call : Nat
  callee : Option Nat
  inlined_via : Option Nat
deriving DecidableEq, Repr

/-- Diagnostics issued by the inliner (modelling `issue_diagnostic`). -/
inductive Diag where
  | infinite_loop (callee caller : String)
  | non_tail_recursive
deriving DecidableEq, Repr

/-- The forward scan of the history for an entry whose `call` is the given
call; like the C loop, the last matching index wins. -/
def find_history_entry (history : List HistoryEntry) (callId : Nat) : Option Nat :=
  (List.range history.length).foldl
    (fun acc i =>
      match history.get? i with
      | some e => if e.call = callId then some i else acc
      | none => acc)
    none

/-- Walk the `inlined_via` ancestry starting at entry index `i`, returning
true iff some visited entry's callee is function `calleeIdx`.  The fuel
bounds the walk; `history.length` suffices for the well-formed histories the
pass builds (parent indices are strictly smaller). -/
def ancestry_has_callee (history : List HistoryEntry) :
    Nat → Nat → Nat → Bool
  | 0, _, _ => false
  | fuel+1, i, calleeIdx =>
    match history.get? i with
    | none => false
    | some e =>
      if e.callee = some calleeIdx then true
      else
        match e.inlined_via with
        | none => false
        | some p => ancestry_has_callee history fuel p calleeIdx


/-- The cycle test of `ir_inline_call`: the call already has a history entry
and some ancestor of that entry has the same callee. -/
def inline_cycle_detected (history : List HistoryEntry)
    (callId calleeIdx : Nat) : Bool :=
  match find_history_entry history callId with
  | none => false
  | some i =>
    match (history.get? i).bind (·.inlined_via) with
    | none => false
    | some p => ancestry_has_callee history history.length p calleeIdx

/-! ## Locating a call instruction in its function -/

/-- The decomposition of a caller around a call instruction: the blocks
before the call block, the call block's id, the instructions before and
after the call in that block, and the blocks after. -/
structure CallSite where
  blocksBefore : List IRBlock
  blockId : Nat
  before : List IRInstruction
  call : IRInstruction
  after : List IRInstruction
  blocksAfter : List IRBlock
deriving DecidableEq, Repr

def splitAtInst : List IRInstruction → Nat →
    Option (List IRInstruction × IRInstruction × List IRInstruction)
  | [], _ => none
  | i :: rest, callId =>
    if i.id = callId then some ([], i, rest)
    else (splitAtInst rest callId).map (fun p => (i :: p.1, p.2.1, p.2.2))

def locate_call : List IRBlock → Nat → Option CallSite
  | [], _ => none
  | b :: rest, callId =>
    match splitAtInst b.insts callId with
    | some p => some ⟨[], b.id, p.1, p.2.1, p.2.2, rest⟩
    | none =>
      (locate_call rest callId).map
        (fun cs => { cs with blocksBefore := b :: cs.blocksBefore })

/-! ## The inline mapping (inline.c lines 140–185)

The C code enumerates the callee's non-parameter instructions with
sequential ids, allocates one fresh instruction per slot, and overwrites the
parameter slots (`count - nparams + p`) with the call's argument pointers.
Fresh "allocations" here take ids `nextId`, `nextId+1`, … . -/

def nonParamInsts (f : IRFunction) : List IRInstruction :=
  (allInsts f).filter (fun i => !i.isParam)

/-- The mapping-table contents: slot index → value id. -/
def inline_slots (callee : IRFunction) (args : List Nat) (nextId : Nat) :
    List Nat :=
  let total := (allInsts callee).length
  let nparams := callee.parameters.length
  (List.range nparams).foldl
    (fun l p => l.set (total - nparams + p) (args.getD p 0))
    ((List.range total).map (nextId + ·))

/-- Slot index of a callee instruction id (the scratch `inst->id` the C code
assigns); parameter entries take precedence, mirroring the overwrite. -/
def inline_slot_of (callee : IRFunction) (instId : Nat) : Nat :=
  let total := (allInsts callee).length
  let nparams := callee.parameters.length
  ((callee.parameters.enum.map (fun p => (p.2, total - nparams + p.1))) ++
    ((nonParamInsts callee).enum.map (fun p => (p.2.id, p.1)))).lookup instId
    |>.getD 0

/-- `MAP`: translate a callee value id to the corresponding caller value id
(a fresh copy, or the call argument for parameters). -/
def inline_map_value (callee : IRFunction) (args : List Nat) (nextId : Nat)
    (instId : Nat) : Nat :=
  (inline_slots callee args nextId).getD (inline_slot_of callee instId) 0

/-- Ids of the target blocks, indexed by callee block position: the callee's
first block maps to the block containing the call, the rest to fresh
blocks. -/
def inline_block_ids (callee : IRFunction) (callBlockId blockIdBase : Nat) :
    List Nat :=
  callBlockId :: (List.range (callee.blocks.length - 1)).map (blockIdBase + ·)

/-- `MAP_BLOCK`: translate a callee block id. -/
def inline_map_block (callee : IRFunction) (callBlockId blockIdBase : Nat)
    (bid : Nat) : Nat :=
  (inline_block_ids callee callBlockId blockIdBase).getD
    (callee.blocks.findIdx (fun b => b.id = bid)) 0

/-! ## The copy phase (inline.c lines 187–348) -/

/-- Static data of one copy run. `ret_block_id`/`ret_phi_id` are the ids the
return block and its PHI receive if they are created. -/
structure CopyEnv where
  is_tail_call : Bool
  call_history_index : Nat
  mapv : Nat → Nat
  mapb : Nat → Nat
  ret_block_id : Nat
  ret_phi_id : Nat

/-- Accumulator of the copy loop.  `contents i` collects the copies inserted
into the target block of callee block `i` (`ir_force_insert_into_block`
appends). `return_value` is the C local of the same name: the mapped value
of a dropped single return, or the id of the return-value PHI. `crashed`
records that the loop executed a null-pointer dereference (see the
tail-call return case of `inline_copy_one`); the C program never returns
from that point, so nothing after a crash is observable. -/
structure CopyState where
  contents : List (List IRInstruction)
  ret_block : Option Nat
  ret_phi : Option Nat
  phi_args : List (Nat × Nat)
  return_value : Option Nat
  history : List HistoryEntry
  crashed : Bool
deriving Repr

def CopyState.insert (st : CopyState) (blockIdx : Nat) (i : IRInstruction) :
    CopyState :=
  { st with contents := st.contents.set blockIdx (st.contents.getD blockIdx [] ++ [i]) }

/-- Map the call payload of a copied `IR_CALL`/`IR_INTRINSIC`. -/
def mapCallData (mapv : Nat → Nat) (c : CallData) : CallData :=
  { is_indirect := c.is_indirect,
    callee_function := c.callee_function,
    callee_instruction :=
      if c.is_indirect then mapv c.callee_instruction else c.callee_instruction,
    arguments := c.arguments.map mapv,
    tail_call := c.tail_call }

/-- Copy one callee instruction (the big switch of the copy loop).
`origBlockId` is the id of the callee block being copied, `isLastBlock` and
`isLastInst` identify `callee->blocks.last` / `block->instructions.last`.
Note that in the return-conversion case the PHI incoming block recorded is
the ORIGINAL callee block (`new->block = block` in the C code), not its
mapped copy. -/
def inline_copy_one (env : CopyEnv) (blockIdx origBlockId : Nat)
    (isLastBlock isLastInst : Bool) (st : CopyState) (inst : IRInstruction) :
    CopyState :=
  match inst.data with
  | .PARAMETER _ => st
  | .RETURN op =>
    if env.is_tail_call then
      -- inline.c:301 `copy->operand = MAP(inst->operand);` expands to
      -- `instructions.data[(inst->operand)->id]` with no null check
      -- (unlike the guarded sites at lines 310, 322 and 332), so a return
      -- with no operand (void `ir_return(ctx, NULL)`) is dereferenced.
      match op with
      | some o =>
        st.insert blockIdx
          ⟨env.mapv inst.id, inst.type, inst.backend_flags,
            .RETURN (some (env.mapv o))⟩
      | none => { st with crashed := true }
    else if st.ret_block.isNone && isLastBlock && isLastInst then
      { st with
        return_value :=
          match op with
          | some o => some (env.mapv o)
          | none => st.return_value }
    else
      let st1 :=
        match st.ret_block with
        | some _ => st
        | none =>
          { st with
            ret_block := some env.ret_block_id,
            ret_phi := if op.isSome then some env.ret_phi_id else none,
            return_value :=
              if op.isSome then some env.ret_phi_id else st.return_value }
      let st2 := st1.insert blockIdx
        ⟨env.mapv inst.id, inst.type, inst.backend_flags,
          .BRANCH (st1.ret_block.getD env.ret_block_id)⟩
      match op with
      | some o =>
        { st2 with phi_args := st2.phi_args ++ [(origBlockId, env.mapv o)] }
      | none => st2
  | .CALL c =>
    let st1 := st.insert blockIdx
      ⟨env.mapv inst.id, inst.type, inst.backend_flags,
        .CALL (mapCallData env.mapv c)⟩
    { st1 with
      history := st1.history ++
        [⟨env.mapv inst.id,
          (if c.is_indirect then none else some c.callee_function),
          some env.call_history_index⟩] }
  | .INTRINSIC n c =>
    st.insert blockIdx
      ⟨env.mapv inst.id, inst.type, inst.backend_flags,
        .INTRINSIC n (mapCallData env.mapv c)⟩
  | .PHI args =>
    st.insert blockIdx
      ⟨env.mapv inst.id, inst.type, inst.backend_flags,
        .PHI (args.map (fun p => (env.mapb p.1, env.mapv p.2)))⟩
  | .BRANCH d =>
    st.insert blockIdx
      ⟨env.mapv inst.id, inst.type, inst.backend_flags, .BRANCH (env.mapb d)⟩
  | .BRANCH_CONDITIONAL c t e =>
    st.insert blockIdx
      ⟨env.mapv inst.id, inst.type, inst.backend_flags,
        .BRANCH_CONDITIONAL (env.mapv c) (env.mapb t) (env.mapb e)⟩
  | .UN op o =>
    st.insert blockIdx
      ⟨env.mapv inst.id, inst.type, inst.backend_flags, .UN op (env.mapv o)⟩
  | .BIN op l r =>
    st.insert blockIdx
      ⟨env.mapv inst.id, inst.type, inst.backend_flags,
        .BIN op (env.mapv l) (env.mapv r)⟩
  | .STORE v a =>
    st.insert blockIdx
      ⟨env.mapv inst.id, inst.type, inst.backend_flags,
        .STORE (env.mapv v) (env.mapv a)⟩
  | d =>
    st.insert blockIdx ⟨env.mapv inst.id, inst.type, inst.backend_flags, d⟩

/-- Copy a whole callee block, tracking which instruction is last. -/
def inline_copy_insts (env : CopyEnv) (blockIdx origBlockId : Nat)
    (isLastBlock : Bool) : CopyState → List IRInstruction → CopyState
  | st, [] => st
  | st, i :: rest =>
    inline_copy_insts env blockIdx origBlockId isLastBlock
      (inline_copy_one env blockIdx origBlockId isLastBlock rest.isEmpty st i)
      rest

/-- Copy all callee blocks in order. -/
def inline_copy_blocks (env : CopyEnv) (blockCount : Nat) :
    CopyState → List (Nat × IRBlock) → CopyState
  | st, [] => st
  | st, (idx, b) :: rest =>
    inline_copy_blocks env blockCount
      (inline_copy_insts env idx b.id (idx + 1 = blockCount) st b.insts) rest

/-! ## `ir_inline_call` (inline.c lines 39–428) -/

/-- Result of one inlining attempt.  `fn` is the updated caller (its
`blocks` are the forward traversal of the block chain); `ret_block` is the
dedicated return block if one was created (the C code never links it into
the forward chain — see the splice notes below — so it is returned
separately for observation). -/
structure InlineCallResult where
  ok : Bool
  fn : IRFunction
  history : List HistoryEntry
  nextId : Nat
  diags : List Diag
  ret_block : Option IRBlock
  return_value : Option Nat
deriving Repr

/-! The body transplantation (staged below, final assembly in
`inline_transplant`): split the call block, copy the callee into the
skeleton, convert returns, reattach the instructions after the call,
splice the block chain, and RAUW the call.

Splice notes (faithful to inline.c lines 367–415): the `blocks` vector is
`[call_block, fresh…, return_block?]`; the tail `call_next…` is appended to
`vector_back(blocks)` when that block is nonempty and the call is not a tail
call; the final connect loop runs only over the first `block_count` entries
and `last->next` was set to `call_block->next` beforehand, so with a return
block present the return block and the caller's subsequent blocks drop out
of the forward chain. -/

/-- Total number of callee instructions (`count` in `ir_inline_call`). -/
def inline_total (callee : IRFunction) : Nat := (allInsts callee).length

/-- First fresh block id (the instruction slots take `nextId … nextId +
total − 1`). -/
def inline_blockIdBase (callee : IRFunction) (nextId : Nat) : Nat :=
  nextId + inline_total callee

/-- Id reserved for the dedicated return block. -/
def inline_ret_block_id (callee : IRFunction) (nextId : Nat) : Nat :=
  inline_blockIdBase callee nextId + (callee.blocks.length - 1)

/-- Id reserved for the return-value PHI. -/
def inline_ret_phi_id (callee : IRFunction) (nextId : Nat) : Nat :=
  inline_ret_block_id callee nextId + 1

/-- The copy environment of one transplant. -/
def inline_env (callee : IRFunction) (cs : CallSite) (c : CallData)
    (chi nextId : Nat) : CopyEnv :=
  ⟨c.tail_call, chi, inline_map_value callee c.arguments nextId,
    inline_map_block callee cs.blockId (inline_blockIdBase callee nextId),
    inline_ret_block_id callee nextId, inline_ret_phi_id callee nextId⟩

/-- The final state of the copy loop. -/
def inline_stF (callee : IRFunction) (cs : CallSite) (c : CallData)
    (history : List HistoryEntry) (chi nextId : Nat) : CopyState :=
  inline_copy_blocks (inline_env callee cs c chi nextId)
    callee.blocks.length
    ⟨List.replicate callee.blocks.length [], none, none, [], none, history,
      false⟩
    callee.blocks.enum

/-- The block containing the call after the copies of the callee's first
block are appended. -/
def inline_call_block1 (callee : IRFunction) (cs : CallSite) (c : CallData)
    (history : List HistoryEntry) (chi nextId : Nat) : IRBlock :=
  ⟨cs.blockId,
    cs.before ++ (inline_stF callee cs c history chi nextId).contents.getD 0 []⟩

/-- The freshly allocated blocks holding the copies of the callee's
second and later blocks. -/
def inline_fresh (callee : IRFunction) (cs : CallSite) (c : CallData)
    (history : List HistoryEntry) (chi nextId : Nat) : List IRBlock :=
  (List.range (callee.blocks.length - 1)).map
    (fun i => ⟨inline_blockIdBase callee nextId + i,
      (inline_stF callee cs c history chi nextId).contents.getD (i + 1) []⟩)

/-- The dedicated return block with its PHI, if one was created. -/
def inline_retB (callee : IRFunction) (cs : CallSite) (c : CallData)
    (history : List HistoryEntry) (chi nextId : Nat) : Option IRBlock :=
  match (inline_stF callee cs c history chi nextId).ret_block with
  | none => none
  | some rbid =>
    some ⟨rbid,
      match (inline_stF callee cs c history chi nextId).ret_phi with
      | some pid =>
        [⟨pid, 0, 0, .PHI (inline_stF callee cs c history chi nextId).phi_args⟩]
      | none => []⟩

/-- The `blocks` vector of `ir_inline_call`:
`[call_block, fresh…, return_block?]`. -/
def inline_blocksVec (callee : IRFunction) (cs : CallSite) (c : CallData)
    (history : List HistoryEntry) (chi nextId : Nat) : List IRBlock :=
  [inline_call_block1 callee cs c history chi nextId] ++
    inline_fresh callee cs c history chi nextId ++
    (inline_retB callee cs c history chi nextId).toList

/-- The blocks vector after the instructions following the call are
reattached to `vector_back(blocks)` (only when that block is nonempty and
the call is not a tail call). -/
def inline_blocksVec1 (callee : IRFunction) (cs : CallSite) (c : CallData)
    (history : List HistoryEntry) (chi nextId : Nat) : List IRBlock :=
  if !c.tail_call &&
      !((inline_blocksVec callee cs c history chi nextId).getLastD
          (inline_call_block1 callee cs c history chi nextId)).insts.isEmpty
  then
    (inline_blocksVec callee cs c history chi nextId).dropLast ++
      [⟨((inline_blocksVec callee cs c history chi nextId).getLastD
            (inline_call_block1 callee cs c history chi nextId)).id,
        ((inline_blocksVec callee cs c history chi nextId).getLastD
            (inline_call_block1 callee cs c history chi nextId)).insts ++
          cs.after⟩]
  else inline_blocksVec callee cs c history chi nextId

/-- The forward block chain of the caller after the splice (see the
splice notes on `inline_transplant`). -/
def inline_chain (callee : IRFunction) (cs : CallSite) (c : CallData)
    (history : List HistoryEntry) (chi nextId : Nat) : List IRBlock :=
  if callee.blocks.length = 1 then
    cs.blocksBefore ++
      [(inline_blocksVec1 callee cs c history chi nextId).headD
        (inline_call_block1 callee cs c history chi nextId)] ++
      cs.blocksAfter
  else if (inline_stF callee cs c history chi nextId).ret_block.isSome then
    cs.blocksBefore ++
      [(inline_blocksVec1 callee cs c history chi nextId).headD
        (inline_call_block1 callee cs c history chi nextId)] ++
      ((inline_blocksVec1 callee cs c history chi nextId).drop 1).take
        (callee.blocks.length - 1)
  else
    cs.blocksBefore ++
      [(inline_blocksVec1 callee cs c history chi nextId).headD
        (inline_call_block1 callee cs c history chi nextId)] ++
      ((inline_blocksVec1 callee cs c history chi nextId).drop 1).take
        (callee.blocks.length - 1) ++
      cs.blocksAfter

/-- RAUW applied to the chain. -/
def inline_chain1 (callee : IRFunction) (cs : CallSite) (c : CallData)
    (history : List HistoryEntry) (chi nextId : Nat) : List IRBlock :=
  match (inline_stF callee cs c history chi nextId).return_value with
  | some rv =>
    (inline_chain callee cs c history chi nextId).map
      (IRBlock.substVal cs.call.id rv)
  | none => inline_chain callee cs c history chi nextId

/-- The return block as observed in the result (after the reattachment
and RAUW). -/
def inline_retB3 (callee : IRFunction) (cs : CallSite) (c : CallData)
    (history : List HistoryEntry) (chi nextId : Nat) : Option IRBlock :=
  match (inline_stF callee cs c history chi nextId).return_value with
  | some rv =>
    (if (inline_stF callee cs c history chi nextId).ret_block.isSome then
      ((inline_blocksVec1 callee cs c history chi nextId).drop
        callee.blocks.length).head?
    else none).map (IRBlock.substVal cs.call.id rv)
  | none =>
    if (inline_stF callee cs c history chi nextId).ret_block.isSome then
      ((inline_blocksVec1 callee cs c history chi nextId).drop
        callee.blocks.length).head?
    else none

def inline_transplant (callee : IRFunction) (caller : IRFunction)
    (cs : CallSite) (c : CallData) (history : List HistoryEntry)
    (call_history_index : Nat) (nextId : Nat) : InlineCallResult :=
  ⟨true,
    { caller with
      blocks := inline_chain1 callee cs c history call_history_index nextId },
    (inline_stF callee cs c history call_history_index nextId).history,
    inline_ret_phi_id callee nextId + 1, [],
    inline_retB3 callee cs c history call_history_index nextId,
    (inline_stF callee cs c history call_history_index nextId).return_value⟩

/-- Translation of `ir_inline_call`.  Returns the updated caller, history
and diagnostics; refusals (cycle detection) leave everything unchanged. -/
def ir_inline_call (ctx : CodegenContext) (history : List HistoryEntry)
    (may_fail : Bool) (caller : IRFunction) (callId : Nat) (nextId : Nat) :
    InlineCallResult :=
  match locate_call caller.blocks callId with
  | none => ⟨false, caller, history, nextId, [], none, none⟩
  | some cs =>
    match cs.call.data with
    | .CALL c =>
      let callee := getFunction ctx c.callee_function
      if instruction_count callee true = 0 then
        -- Degenerate case: empty callee.  ASSERT(no users); remove the call.
        ⟨true,
          { caller with
            blocks :=
              cs.blocksBefore ++ [⟨cs.blockId, cs.before ++ cs.after⟩] ++
                cs.blocksAfter },
          history, nextId, [], none, none⟩
      else
        match find_history_entry history callId with
        | some i =>
          match (history.get? i).bind (·.inlined_via) with
          | some p =>
            if ancestry_has_callee history history.length p c.callee_function then
              ⟨false, caller, history, nextId,
                (if may_fail then []
                 else [.infinite_loop callee.name caller.name]), none, none⟩
            else
              inline_transplant callee caller cs c history i nextId
          | none =>
            -- C asserts a found entry is never a root; proceed as non-cycle.
            inline_transplant callee caller cs c history i nextId
        | none =>
          inline_transplant callee caller cs c
            (history ++ [⟨callId, some c.callee_function, none⟩])
            history.length nextId
    | _ => ⟨false, caller, history, nextId, [], none, none⟩

/-! ## The driving pass (inline.c lines 432–537) -/

/-- Derived users of value `v` in `f`: the instructions naming `v` as an
operand (the C users sets maintain exactly this). -/
def derivedUsers (f : IRFunction) (v : Nat) : List IRInstruction :=
  (allInsts f).filter (fun i => v ∈ i.data.valueOperands)

/-- The instruction immediately after the given call in its block. -/
def instAfter (f : IRFunction) (callId : Nat) : Option IRInstruction :=
  match locate_call f.blocks callId with
  | some cs => cs.after.head?
  | none => none

/-- Set the `tail_call` flag of the given call instruction. -/
def markTailCall (f : IRFunction) (callId : Nat) : IRFunction :=
  { f with
    blocks := f.blocks.map (fun b =>
      { b with
        insts := b.insts.map (fun i =>
          if i.id = callId then
            match i.data with
            | .CALL c => { i with data := .CALL { c with tail_call := true } }
            | _ => i
          else i) }) }

/-- Modelled from the spec: `opt_try_convert_to_tail_call` is declared in
`opt-internal.h` but defined outside the given sources.  Per §4.6.2
(TailCallConvert), it marks a call whose only user is a `Return` of the
same value — or which immediately precedes a `Return` in a void context —
as `tail_call`; it fails otherwise. -/
def opt_try_convert_to_tail_call (f : IRFunction) (callId : Nat) :
    Option IRFunction :=
  let convertible : Bool :=
    match derivedUsers f callId with
    | [r] => decide (r.data = .RETURN (some callId))
    | [] =>
      match instAfter f callId with
      | some nxt => decide (nxt.data = .RETURN none)
      | none => false
    | _ => false
  if convertible then some (markTailCall f callId) else none

/-- State of one inliner run: the module, the `InlineContext` fields
(history, not-inlinable set, threshold, may_fail), the accumulated
`inline_result` flags, fresh-id counter, diagnostics, and two ghost
observation logs (`attempts` records every call id passed to
`ir_inline_call`, `converts` every call converted to a tail call); the logs
feed no decision.  `aborted` marks fuel exhaustion of the model. -/
structure PassState where
  ctx : CodegenContext
  history : List HistoryEntry
  not_inlinable : List Nat
  threshold : Int
  may_fail : Bool
  changed : Bool
  failed : Bool
  diags : List Diag
  attempts : List Nat
  converts : List Nat
  nextId : Nat
  aborted : Bool
deriving Repr

def setFunction (ctx : CodegenContext) (i : Nat) (f : IRFunction) :
    CodegenContext :=
  ⟨ctx.functions.set i f⟩

/-- `must_inline` of the scan loop: callee marked `forceinline` or the
threshold is 0. -/
def pass_must_inline (st : PassState) (c : CallData) : Bool :=
  (getFunction st.ctx c.callee_function).attr_forceinline ||
    decide (st.threshold = 0)

/-- The whole inlining condition of the scan loop:
`must_inline || threshold >= instruction_count(callee, false)`. -/
def pass_should_inline (st : PassState) (c : CallData) : Bool :=
  pass_must_inline st c ||
    decide (st.threshold ≥
      instruction_count (getFunction st.ctx c.callee_function) false)

/-- Perform one `ir_inline_call` attempt and record its outcome in the
pass state (success sets `changed`; failure sets `failed` and records the
call as not inlinable).  Either way the loop restarts (`goto again`). -/
def attempt_inline (st : PassState) (fIdx : Nat) (inst : IRInstruction) :
    PassState × Bool :=
  if (ir_inline_call st.ctx st.history st.may_fail
        (getFunction st.ctx fIdx) inst.id st.nextId).ok then
    ({ st with
        ctx := setFunction st.ctx fIdx
          (ir_inline_call st.ctx st.history st.may_fail
            (getFunction st.ctx fIdx) inst.id st.nextId).fn,
        history := (ir_inline_call st.ctx st.history st.may_fail
          (getFunction st.ctx fIdx) inst.id st.nextId).history,
        nextId := (ir_inline_call st.ctx st.history st.may_fail
          (getFunction st.ctx fIdx) inst.id st.nextId).nextId,
        changed := true,
        attempts := st.attempts ++ [inst.id],
        diags := st.diags ++ (ir_inline_call st.ctx st.history st.may_fail
          (getFunction st.ctx fIdx) inst.id st.nextId).diags }, true)
  else
    ({ st with
        history := (ir_inline_call st.ctx st.history st.may_fail
          (getFunction st.ctx fIdx) inst.id st.nextId).history,
        failed := true,
        not_inlinable := st.not_inlinable ++ [inst.id],
        attempts := st.attempts ++ [inst.id],
        diags := st.diags ++ (ir_inline_call st.ctx st.history st.may_fail
          (getFunction st.ctx fIdx) inst.id st.nextId).diags }, true)

/-- The self-recursion handling of the scan loop (`f == callee`): leave
tail calls alone; if inlining is mandatory, try to convert the call to a
tail call, and reject it (diagnostic when the pass may not fail) if that
is impossible. -/
def handle_self_recursion (st : PassState) (fIdx : Nat)
    (inst : IRInstruction) (c : CallData) : PassState × Bool :=
  if !c.tail_call then
    if pass_must_inline st c then
      match opt_try_convert_to_tail_call (getFunction st.ctx fIdx) inst.id with
      | some f1 =>
        ({ st with
            ctx := setFunction st.ctx fIdx f1,
            converts := st.converts ++ [inst.id] }, false)
      | none =>
        ({ st with
            diags := st.diags ++
              (if st.may_fail then [] else [.non_tail_recursive]),
            failed := true,
            not_inlinable := st.not_inlinable ++ [inst.id] }, false)
    else (st, false)
  else (st, false)

/-- The body of the scan loop of `inline_calls_in_function` for one
instruction.  Returns the updated state and whether the loop restarts at
the current block (`goto again`). -/
def process_inst (st : PassState) (fIdx : Nat) (inst : IRInstruction) :
    PassState × Bool :=
  match inst.data with
  | .CALL c =>
    if c.is_indirect then (st, false)
    else if (getFunction st.ctx c.callee_function).is_ext then (st, false)
    else if inst.id ∈ st.not_inlinable then (st, false)
    else if pass_should_inline st c then
      if c.callee_function = fIdx then handle_self_recursion st fIdx inst c
      else attempt_inline st fIdx inst
    else (st, false)
  | _ => (st, false)

/-- Scan a block's instructions until one triggers `goto again`. -/
def scan_insts (fIdx : Nat) : PassState → List IRInstruction →
    PassState × Bool
  | st, [] => (st, false)
  | st, i :: rest =>
    let p := process_inst st fIdx i
    if p.2 then (p.1, true) else scan_insts fIdx p.1 rest

/-- Scan blocks in order until some instruction triggers `goto again`;
returns the id of the block to restart at, if any. -/
def scan_blocks (fIdx : Nat) : PassState → List IRBlock →
    PassState × Option Nat
  | st, [] => (st, none)
  | st, b :: rest =>
    let p := scan_insts fIdx st b.insts
    if p.2 then (p.1, some b.id) else scan_blocks fIdx p.1 rest

/-- The `again:` loop: rescan from the block holding the cursor id.  Fuel
bounds the number of restarts. -/
def inline_fn_loop (fIdx : Nat) : Nat → PassState → Nat → PassState
  | 0, st, _ => { st with aborted := true }
  | fuel+1, st, cursor =>
    let f := getFunction st.ctx fIdx
    let startIdx := f.blocks.findIdx (fun b => b.id = cursor)
    let p := scan_blocks fIdx st (f.blocks.drop startIdx)
    match p.2 with
    | some bid => inline_fn_loop fIdx fuel p.1 bid
    | none => p.1

/-- Translation of `inline_calls_in_function`: clear the history, then scan
from the function's first block. -/
def inline_calls_in_function (fuel : Nat) (st : PassState) (fIdx : Nat) :
    PassState :=
  let st1 := { st with history := ([] : List HistoryEntry) }
  match (getFunction st1.ctx fIdx).blocks.head? with
  | none => st1
  | some b => inline_fn_loop fIdx fuel st1 b.id

/-- Largest id used by any block or instruction of the module; fresh ids
start above it (models the freshness of `calloc` results). -/
def maxUsedId (ctx : CodegenContext) : Nat :=
  ctx.functions.foldl
    (fun m f =>
      f.blocks.foldl
        (fun m b => b.insts.foldl (fun m i => max m i.id) (max m b.id)) m)
    0

/-- Translation of `run_inliner`: one pass over every function of the
module with a shared `InlineContext`. -/
def run_inliner (ctx : CodegenContext) (threshold : Int) (may_fail : Bool)
    (fuel : Nat) : PassState :=
  let st0 : PassState :=
    ⟨ctx, [], [], threshold, may_fail, false, false, [], [], [],
      maxUsedId ctx + 1, false⟩
  (List.range ctx.functions.length).foldl
    (fun st fIdx => inline_calls_in_function fuel st fIdx) st0

/-- Translation of `opt_inline`: run and report whether anything changed. -/
def opt_inline (ctx : CodegenContext) (threshold : Int) (fuel : Nat) : Bool :=
  (run_inliner ctx threshold true fuel).changed

/-- Translation of `codegen_process_inline_calls`: mandatory inlining only
(threshold −1), failure is fatal. -/
def codegen_process_inline_calls (ctx : CodegenContext) (fuel : Nat) : Bool :=
  !(run_inliner ctx (-1) false fuel).failed

/-! ## Concrete modules used as test inputs -/

/-- A function whose body is a single tail-marked self-recursive call:
`f() { tail call f(); return }`. -/
def fSelfTail : IRFunction :=
  ⟨"f", [],
    [⟨400, [⟨401, 0, 0, .CALL ⟨false, 0, 0, [], true⟩⟩,
            ⟨402, 0, 0, .RETURN none⟩]⟩], false, false⟩

def ctxSelfTail : CodegenContext := ⟨[fSelfTail]⟩

/-- Callee with two returns in distinct blocks:
`f(x) { if x then return 1 else return 2 }` (blocks 20, 30, 40). -/
def fTwoRet : IRFunction :=
  ⟨"f", [21],
    [⟨20, [⟨21, 0, 0, .PARAMETER 0⟩, ⟨22, 0, 0, .BRANCH_CONDITIONAL 21 30 40⟩]⟩,
     ⟨30, [⟨31, 0, 0, .IMMEDIATE 1⟩, ⟨32, 0, 0, .RETURN (some 31)⟩]⟩,
     ⟨40, [⟨41, 0, 0, .IMMEDIATE 2⟩, ⟨42, 0, 0, .RETURN (some 41)⟩]⟩],
    false, false⟩

/-- `g() { %2 = imm 0; %3 = call f(%2); return %3 }`. -/
def gTwoRet : IRFunction :=
  ⟨"g", [],
    [⟨1, [⟨2, 0, 0, .IMMEDIATE 0⟩,
          ⟨3, 0, 0, .CALL ⟨false, 1, 0, [2], false⟩⟩,
          ⟨4, 0, 0, .RETURN (some 3)⟩]⟩], false, false⟩

def ctxTwoRet : CodegenContext := ⟨[gTwoRet, fTwoRet]⟩

/-- Three functions with an inline cycle reachable from `f`:
`f` calls `g`, `g` calls `h`, `h` calls `g` (mutual recursion `g`/`h`). -/
def fChain : IRFunction :=
  ⟨"f", [], [⟨100, [⟨101, 0, 0, .CALL ⟨false, 1, 0, [], false⟩⟩,
                    ⟨102, 0, 0, .RETURN none⟩]⟩], false, false⟩
def gChain : IRFunction :=
  ⟨"g", [], [⟨200, [⟨201, 0, 0, .CALL ⟨false, 2, 0, [], false⟩⟩,
                    ⟨202, 0, 0, .RETURN none⟩]⟩], false, false⟩
def hChain : IRFunction :=
  ⟨"h", [], [⟨300, [⟨301, 0, 0, .CALL ⟨false, 1, 0, [], false⟩⟩,
                    ⟨302, 0, 0, .RETURN none⟩]⟩], false, false⟩

def ctxChain : CodegenContext := ⟨[fChain, gChain, hChain]⟩

/-- Single-return-at-end callee `f() { return 42 }` and its caller
`g() { %2 = call f(); return %2 }` (spec scenario 2). -/
def fSingleRet : IRFunction :=
  ⟨"f", [], [⟨10, [⟨11, 0, 0, .IMMEDIATE 42⟩,
                   ⟨12, 0, 0, .RETURN (some 11)⟩]⟩], false, false⟩
def gSingleRet : IRFunction :=
  ⟨"g", [], [⟨1, [⟨2, 0, 0, .CALL ⟨false, 1, 0, [], false⟩⟩,
                  ⟨3, 0, 0, .RETURN (some 2)⟩]⟩], false, false⟩

def ctxSingleRet : CodegenContext := ⟨[gSingleRet, fSingleRet]⟩

/-- A tail call to `fSingleRet` followed by two further instructions:
`g() { %2 = tail call f(); %5 = copy %2; return %5 }`. -/
def gTailCall : IRFunction :=
  ⟨"g", [], [⟨1, [⟨2, 0, 0, .CALL ⟨false, 1, 0, [], true⟩⟩,
                  ⟨5, 0, 0, .UN .COPY 2⟩,
                  ⟨6, 0, 0, .RETURN (some 5)⟩]⟩], false, false⟩

def ctxTailCall : CodegenContext := ⟨[gTailCall, fSingleRet]⟩

/-- `f() { return }` — a void callee: its single `Return` carries no value
(such returns are built by `ir_return(ctx, NULL)`, codegen.c line 733). -/
def fVoidRet : IRFunction :=
  ⟨"f", [], [⟨10, [⟨11, 0, 0, .RETURN none⟩]⟩], false, false⟩

/-- `g() { tail call f(); return }` — the call `%2` is marked
`tail_call` and its result is unused. -/
def gVoidTail : IRFunction :=
  ⟨"g", [], [⟨1, [⟨2, 0, 0, .CALL ⟨false, 1, 0, [], true⟩⟩,
                  ⟨3, 0, 0, .RETURN none⟩]⟩], false, false⟩

def ctxVoidTail : CodegenContext := ⟨[gVoidTail, fVoidRet]⟩

/-- A history in which call `9`'s entry was inlined via an entry whose
callee is function `1`, so inlining `9 → 1` is an inline cycle. -/
def histCycle : List HistoryEntry := [⟨7, some 1, none⟩, ⟨9, some 1, some 0⟩]

/-- `g() { %9 = call f(); return }` with callee index 1. -/
def gCycle : IRFunction :=
  ⟨"g", [], [⟨1, [⟨9, 0, 0, .CALL ⟨false, 1, 0, [], false⟩⟩,
                  ⟨6, 0, 0, .RETURN none⟩]⟩], false, false⟩

def ctxCycle : CodegenContext := ⟨[gCycle, fSingleRet]⟩

/-- The module produced by one inliner run on `ctxChain` with threshold 0
(computed by evaluation; certified below by `rfl`): `f` is left with a
fresh not-inlinable call to `g`, and the self-recursive copies inside `g`
and `h` have been converted to tail calls. -/
def ctxChainAfter : CodegenContext :=
  ⟨[⟨"f", [], [⟨100, [⟨307, 0, 0, .CALL ⟨false, 1, 0, [], false⟩⟩,
                      ⟨102, 0, 0, .RETURN none⟩]⟩], false, false⟩,
    ⟨"g", [], [⟨200, [⟨311, 0, 0, .CALL ⟨false, 1, 0, [], true⟩⟩,
                      ⟨202, 0, 0, .RETURN none⟩]⟩], false, false⟩,
    ⟨"h", [], [⟨300, [⟨315, 0, 0, .CALL ⟨false, 1, 0, [], true⟩⟩,
                      ⟨302, 0, 0, .RETURN none⟩]⟩], false, false⟩]⟩

end Intercept

namespace Glint

/-!
## Glint type equality (`lcc::glint::Type::Equal`, lib/glint/ast.cc 312–385)

Types are modelled as trees.  C++ object identity is modelled by a `uid`
tag on the kinds for which two structurally identical but distinct objects
exist and behave differently under `Equal` (`Named`, `Enum`, `Struct`);
for all other kinds a pointer-equality shortcut and the structural
comparison agree, so collapsing identity to structural equality of the
tree is faithful.  The pointer-equality test `a == b` of the C++ source
becomes equality of the trees. -/

inductive GlintType where
  | builtin (kind : Nat)
  | ffi (kind : Nat)
  | named (uid : Nat)
  | enum_t (uid : Nat)
  | pointer (elem : GlintType)
  | reference (elem : GlintType)
  | array (elem : GlintType) (dimension : Nat)
  | dynamic_array (elem : GlintType)
  | func (ret : GlintType) (params : List GlintType)
  | struct_t (decl : Option Nat) (uid : Nat) (members : List GlintType)
  | integer (bit_width : Nat) (is_signed : Bool)
deriving Repr

mutual

/-- Structural equality of type trees, used to model the C++ pointer
comparison `a == b` (under the uid-as-address convention, two type objects
are the same object iff their trees are equal). -/
def glintEq : GlintType → GlintType → Bool
  | .builtin a, .builtin b => a == b
  | .ffi a, .ffi b => a == b
  | .named a, .named b => a == b
  | .enum_t a, .enum_t b => a == b
  | .pointer a, .pointer b => glintEq a b
  | .reference a, .reference b => glintEq a b
  | .array a da, .array b db => glintEq a b && da == db
  | .dynamic_array a, .dynamic_array b => glintEq a b
  | .func ra pa, .func rb pb => glintEq ra rb && glintEqList pa pb
  | .struct_t da ua ma, .struct_t db ub mb =>
    da == db && ua == ub && glintEqList ma mb
  | .integer wa sa, .integer wb sb => wa == wb && sa == sb
  | _, _ => false

def glintEqList : List GlintType → List GlintType → Bool
  | [], [] => true
  | a :: as_, b :: bs => glintEq a b && glintEqList as_ bs
  | _, _ => false

end

mutual

/-- Translation of `Type::Equal`. -/
def TypeEqual (a b : GlintType) : Bool :=
  if glintEq a b then true
  else
    match a, b with
    | .builtin ka, .builtin kb => ka == kb
    | .ffi ka, .ffi kb => ka == kb
    | .named _, .named _ => false
    | .enum_t _, .enum_t _ => false
    | .pointer ea, .pointer eb => TypeEqual ea eb
    | .reference ea, .reference eb => TypeEqual ea eb
    | .array ea da, .array eb db => da == db && TypeEqual ea eb
    | .dynamic_array ea, .dynamic_array eb => TypeEqual ea eb
    | .func ra pa, .func rb pb =>
      pa.length == pb.length && TypeEqualList pa pb && TypeEqual ra rb
    | .struct_t da _ ma, .struct_t db _ mb =>
      if da.isSome || db.isSome then false
      else ma.length == mb.length && TypeEqualList ma mb
    | .integer wa sa, .integer wb sb => wa == wb && sa == sb
    | _, _ => false

/-- Positional comparison of type lists via `TypeEqual` (the member and
parameter loops of `Type::Equal`). -/
def TypeEqualList : List GlintType → List GlintType → Bool
  | [], [] => true
  | a :: as_, b :: bs => TypeEqual a b && TypeEqualList as_ bs
  | _, _ => false

end

end Glint

namespace Codegen

/-! # IR emission of `src/codegen.c` (`codegen_expr` / `codegen_lvalue`)

AST nodes live in a store indexed by `Nat` ids (C pointers); the mutable
node fields (`emitted`, `ir`, `address`) live in the store.  The `ir_*`
builders are declared in `codegen/intermediate_representation.h` but
defined outside the given sources; they are modelled as fresh-id
instruction emissions into a trace, with side tables for the instruction
`kind` and `type` fields the pass reads back.  `bodies` is a ghost log of
the nodes whose `codegen_expr` body ran (i.e. whose IR was emitted); it
feeds no decision.  Fatal compiler exits (`ICE`, `ERR`, `TODO`, failed
`ASSERT`, sorry-diagnostics) set the `aborted` flag. -/

/-- AST types as far as the pass branches on them (`ast.h`). -/
inductive CType where
  | void
  | primitive (size : Nat) (is_signed : Bool)
  | pointer (target : CType)
  | array (of_elem : CType) (n : Nat)
  | function
deriving Repr, DecidableEq

def type_sizeof : CType → Nat
  | .void => 0
  | .primitive s _ => s
  | .pointer _ => 8
  | .array t n => n * type_sizeof t
  | .function => 8

def type_is_void : CType → Bool
  | .void => true
  | _ => false

def type_is_pointer : CType → Bool
  | .pointer _ => true
  | _ => false

def type_is_array : CType → Bool
  | .array _ _ => true
  | _ => false

def CType.pointee : CType → CType
  | .pointer t => t
  | _ => .void

def CType.elem : CType → CType
  | .array t _ => t
  | _ => .void

def t_integer : CType := .primitive 8 true

/-- The token kinds the pass branches on. -/
inductive Tok where
  | COLON_EQ
  | LBRACK
  | LT
  | LE
  | GT
  | GE
  | EQ
  | NE
  | PLUS
  | MINUS
  | STAR
  | SLASH
  | PERCENT
  | SHL
  | SHR
  | AMPERSAND
  | PIPE
  | AT
  | TILDE
  | NUMBER
  | STRING
deriving Repr, DecidableEq

/-- Node payloads (the `NODE_*` kinds with the fields the pass reads). -/
inductive NodeData where
  | FUNCTION (func_ir : Nat) (body : Nat)
  | ROOT (children : List Nat)
  | DECLARATION (static_decl : Bool) (init : Option Nat)
  | MEMBER_ACCESS (struct_node : Nat) (byte_offset : Nat) (member_type : CType)
  | VARIABLE_REFERENCE (decl : Nat)
  | STRUCTURE_DECLARATION
  | IF (condition then_branch : Nat) (else_branch : Option Nat)
  | WHILE (condition body : Nat)
  | BLOCK (children : List Nat)
  | CALL (callee : Nat) (arguments : List Nat)
  | CAST (value : Nat)
  | BINARY (op : Tok) (lhs rhs : Nat)
  | UNARY (op : Tok) (postfix_flag : Bool) (value : Nat)
  | LITERAL (lit : Tok) (integer : Nat) (string_index : Nat)
      (compound : List Nat)
  | FOR (init condition iterator body : Nat)
  | FUNCTION_REFERENCE
deriving Repr, DecidableEq

/-- An AST node with its mutable emission fields. -/
structure Node where
  data : NodeData
  type : CType
  emitted : Bool
  ir : Option Nat
  address : Option Nat
deriving Repr, DecidableEq

def defaultNode : Node := ⟨.STRUCTURE_DECLARATION, .void, false, none, none⟩

/-- Modelled from the spec: the IR builder calls the pass makes; operands
are instruction ids, `none` standing for a null `IRInstruction*`. -/
inductive IRK where
  | funcref (f : Nat)
  | load (a : Option Nat)
  | store (v a : Option Nat)
  | phi
  | phi_arg (p blk : Nat) (v : Option Nat)
  | branch (b : Nat)
  | branch_conditional (c : Option Nat) (t e : Nat)
  | ret (v : Option Nat)
  | direct_call (f : Nat)
  | indirect_call (v : Option Nat)
  | call_arg (call : Nat) (v : Option Nat)
  | insert_inst (i : Nat)
  | bitcast (v : Option Nat)
  | sign_extend (v : Option Nat)
  | zero_extend (v : Option Nat)
  | truncate (v : Option Nat)
  | binop (op : Tok) (l r : Option Nat)
  | not_inst (v : Option Nat)
  | imm (val : Nat)
  | static_ref
  | alloca
  | copy (v : Option Nat)
  | lit_integer (n : Nat)
  | lit_string (idx : Nat)
  | add (l r : Option Nat)
  | mul (l r : Option Nat)
deriving Repr, DecidableEq

/-- One trace event: a created instruction (with id and type), or a
side effect on an existing one (phi/call argument, block insertion). -/
inductive TraceEv where
  | inst (id : Nat) (k : IRK) (ty : CType)
  | note (k : IRK)
deriving Repr, DecidableEq

/-- The emission state: node store, string-table sizes, fresh counters,
current block (`ctx->block`) and whether it is closed, the emission
trace, the ghost body log, and the fatal-exit flag. -/
structure EmitState where
  nodes : Nat → Node
  strings : List Nat
  nextInst : Nat
  nextBlock : Nat
  block : Nat
  closed : Bool
  trace : List TraceEv
  bodies : List Nat
  aborted : Bool

def getNode (st : EmitState) (i : Nat) : Node := st.nodes i

def updNode (st : EmitState) (i : Nat) (f : Node → Node) : EmitState :=
  { st with nodes := fun j => if j = i then f (st.nodes i) else st.nodes j }

def freshInst (st : EmitState) : Nat := st.nextInst

/-- Create one instruction (a fresh id, recorded with kind and type). -/
def emitI (st : EmitState) (k : IRK) (ty : CType) : EmitState :=
  { st with
    nextInst := st.nextInst + 1
    trace := st.trace ++ [.inst st.nextInst k ty] }

def noteEv (st : EmitState) (k : IRK) : EmitState :=
  { st with trace := st.trace ++ [.note k] }

/-- `inst->kind` of an already-created instruction. -/
def instKind (st : EmitState) (i : Nat) : Option IRK :=
  (st.trace.filterMap fun ev =>
    match ev with
    | .inst j k _ => if j = i then some k else none
    | .note _ => none).getLast?

/-- `inst->type` of an already-created instruction. -/
def instType (st : EmitState) (i : Nat) : CType :=
  ((st.trace.filterMap fun ev =>
    match ev with
    | .inst j _ t => if j = i then some t else none
    | .note _ => none).getLast?).getD .void

/-- In-place instruction type overwrite (`inst->type = ...`). -/
def setInstType (st : EmitState) (i : Nat) (t : CType) : EmitState :=
  { st with
    trace := st.trace.map fun ev =>
      match ev with
      | .inst j k t0 => if j = i then .inst j k t else .inst j k t0
      | .note k => .note k }

def freshBlock (st : EmitState) : Nat := st.nextBlock

def allocBlocks (st : EmitState) (n : Nat) : EmitState :=
  { st with nextBlock := st.nextBlock + n }

/-- `ir_block_attach`: the attached block becomes current and is open. -/
def attach (st : EmitState) (b : Nat) : EmitState :=
  { st with block := b, closed := false }

def ir_branch (st : EmitState) (b : Nat) : EmitState :=
  { emitI st (.branch b) .void with closed := true }

def ir_branch_conditional (st : EmitState) (c : Option Nat) (t e : Nat) :
    EmitState :=
  { emitI st (.branch_conditional c t e) .void with closed := true }

def ir_return (st : EmitState) (v : Option Nat) : EmitState :=
  { emitI st (.ret v) .void with closed := true }

/-- A fatal exit. -/
def fail (st : EmitState) : EmitState := { st with aborted := true }

def markEmitted (st : EmitState) (i : Nat) : EmitState :=
  updNode st i fun n => { n with emitted := true }

def setIr (st : EmitState) (i : Nat) (r : Option Nat) : EmitState :=
  updNode st i fun n => { n with ir := r }

def setAddress (st : EmitState) (i : Nat) (a : Option Nat) : EmitState :=
  updNode st i fun n => { n with address := a }

def logBody (st : EmitState) (i : Nat) : EmitState :=
  { st with bodies := st.bodies ++ [i] }

def isFunctionNode (n : Node) : Bool :=
  match n.data with
  | .FUNCTION _ _ => true
  | _ => false

/-- Modelled from the spec: `is_lvalue` holds of the node kinds
`codegen_lvalue` can emit. -/
def is_lvalue (n : Node) : Bool :=
  match n.data with
  | .DECLARATION _ _ => true
  | .MEMBER_ACCESS _ _ _ => true
  | .VARIABLE_REFERENCE _ => true
  | .UNARY op pf _ => !pf && decide (op = Tok.AT)
  | _ => false

end Codegen

namespace Codegen

mutual

/-- `codegen_lvalue` (codegen.c:143–214): guarded by `lval->address`.
The model adds a fuel argument; exhaustion sets `aborted`. -/
def codegen_lvalue : Nat → EmitState → Nat → EmitState
  | 0, st, lvalId =>
    if (getNode st lvalId).address.isSome then st else fail st
  | fuel + 1, st, lvalId =>
    if (getNode st lvalId).address.isSome then st
    else
      match (getNode st lvalId).data with
      | .DECLARATION static_decl init =>
        let a := freshInst st
        let st1 := emitI st (if static_decl then .static_ref else .alloca)
          (CType.pointer (getNode st lvalId).type)
        let st2 := setAddress st1 lvalId (some a)
        (match init with
         | none => st2
         | some initId =>
           if static_decl &&
               (match (getNode st2 initId).data with
                | .LITERAL lit _ _ _ => decide (lit ≠ Tok.LBRACK)
                | _ => false) then
             match (getNode st2 initId).data with
             | .LITERAL .NUMBER k _ _ => emitI st2 (.lit_integer k) .void
             | .LITERAL .STRING _ si _ => emitI st2 (.lit_string si) .void
             | _ => fail st2
           else
             let st3 := codegen_expr fuel st2 initId
             emitI st3 (.store (getNode st3 initId).ir
               (getNode st3 lvalId).address) .void)
      | .MEMBER_ACCESS structId off mty =>
        let st1 := codegen_lvalue fuel st structId
        let immId := freshInst st1
        let st2 := emitI st1 (.imm off) t_integer
        let addId := freshInst st2
        let st3 := emitI st2
          (.add (getNode st2 structId).address (some immId)) t_integer
        let st4 := setAddress st3 lvalId (some addId)
        setInstType st4 addId (CType.pointer mty)
      | .IF _ _ _ => fail st
      | .UNARY op pf v =>
        if !pf && decide (op = Tok.AT) then
          let st1 := codegen_expr fuel st v
          setAddress st1 lvalId (getNode st1 v).ir
        else fail st
      | .VARIABLE_REFERENCE decl =>
        (match (getNode st decl).address with
         | some a => setAddress st lvalId (some a)
         | none => fail st)
      | _ => fail st

/-- `codegen_expr` (codegen.c:216–693): guarded by `expr->emitted`, which
is set before the body runs.  The ghost `bodies` log records each body
run. -/
def codegen_expr : Nat → EmitState → Nat → EmitState
  | 0, st0, exprId =>
    if (getNode st0 exprId).emitted then st0 else fail st0
  | fuel + 1, st0, exprId =>
    if (getNode st0 exprId).emitted then st0
    else
      let st := logBody (markEmitted st0 exprId) exprId
      match (getNode st0 exprId).data with
      | .FUNCTION fir _ =>
        let r := freshInst st
        setIr (emitI st (.funcref fir) .function) exprId (some r)
      | .ROOT children =>
        let st1 := children.foldl
          (fun s c =>
            if isFunctionNode (getNode s c) then s else codegen_expr fuel s c)
          st
        if !st1.closed then
          match children.getLast? with
          | some l => ir_return st1 (getNode st1 l).ir
          | none => fail st1
        else st1
      | .DECLARATION _ _ => codegen_lvalue fuel st exprId
      | .MEMBER_ACCESS _ _ _ =>
        let st1 := codegen_lvalue fuel st exprId
        let r := freshInst st1
        setIr (emitI st1 (.load (getNode st1 exprId).address)
          (getNode st1 exprId).type) exprId (some r)
      | .VARIABLE_REFERENCE _ =>
        let st1 := codegen_lvalue fuel st exprId
        let r := freshInst st1
        setIr (emitI st1 (.load (getNode st1 exprId).address)
          (getNode st1 exprId).type) exprId (some r)
      | .STRUCTURE_DECLARATION => st
      | .IF cond thenId elseOpt =>
        let st1 := codegen_expr fuel st cond
        let thenB := freshBlock st1
        let elseB := freshBlock st1 + 1
        let joinB := freshBlock st1 + 2
        let st2 := allocBlocks st1 3
        let st3 := ir_branch_conditional st2 (getNode st2 cond).ir thenB elseB
        let st4 := attach st3 thenB
        let st5 := codegen_expr fuel st4 thenId
        let lastThen := st5.block
        let st6 := if !st5.closed then ir_branch st5 joinB else st5
        let st7 := attach st6 elseB
        let st8 :=
          match elseOpt with
          | some e => codegen_expr fuel st7 e
          | none => st7
        let lastElse :=
          match elseOpt with
          | some _ => st8.block
          | none => elseB
        let st9 := if !st8.closed then ir_branch st8 joinB else st8
        let st10 := attach st9 joinB
        if !(type_is_void (getNode st10 exprId).type) then
          let p := freshInst st10
          let st11 := emitI st10 .phi (getNode st10 exprId).type
          let st12 := noteEv st11
            (.phi_arg p lastThen (getNode st11 thenId).ir)
          let st13 := noteEv st12
            (.phi_arg p lastElse
              (match elseOpt with
               | some e => (getNode st12 e).ir
               | none => none))
          setIr st13 exprId (some p)
        else st10
      | .WHILE cond bodyId =>
        let condB := freshBlock st
        let joinB := freshBlock st + 1
        let st1 := allocBlocks st 2
        let st2 := ir_branch st1 condB
        let st3 := attach st2 condB
        let st4 := codegen_expr fuel st3 cond
        if (match (getNode st4 bodyId).data with
            | .BLOCK cs => cs.isEmpty
            | _ => false) then
          let st5 :=
            ir_branch_conditional st4 (getNode st4 cond).ir condB joinB
          attach st5 joinB
        else
          let bodyB := freshBlock st4
          let st5 := allocBlocks st4 1
          let st6 :=
            ir_branch_conditional st5 (getNode st5 cond).ir bodyB joinB
          let st7 := attach st6 bodyB
          let st8 := codegen_expr fuel st7 bodyId
          let st9 := if !st8.closed then ir_branch st8 condB else st8
          attach st9 joinB
      | .BLOCK children =>
        let p := children.foldl
          (fun (q : EmitState × Option Nat) c =>
            if isFunctionNode (getNode q.1 c) then q
            else (codegen_expr fuel q.1 c, some c))
          (st, none)
        if !(type_is_void (getNode p.1 exprId).type) then
          match p.2 with
          | some l =>
            (match (getNode p.1 l).ir with
             | some r => setIr p.1 exprId (some r)
             | none => fail p.1)
          | none => fail p.1
        else p.1
      | .CALL calleeId args =>
        match (getNode st calleeId).data with
        | .FUNCTION fir _ =>
          let call := freshInst st
          let stc := emitI st (.direct_call fir) (getNode st exprId).type
          let st1 := args.foldl
            (fun s a =>
              let s1 := codegen_expr fuel s a
              noteEv s1 (.call_arg call (getNode s1 a).ir))
            stc
          setIr (noteEv st1 (.insert_inst call)) exprId (some call)
        | _ =>
          let s1 := codegen_expr fuel st calleeId
          let call := freshInst s1
          let stc := emitI s1 (.indirect_call (getNode s1 calleeId).ir)
            (getNode s1 exprId).type
          let st1 := args.foldl
            (fun s a =>
              let s2 := codegen_expr fuel s a
              noteEv s2 (.call_arg call (getNode s2 a).ir))
            stc
          setIr (noteEv st1 (.insert_inst call)) exprId (some call)
      | .CAST v =>
        let t_to := (getNode st exprId).type
        let t_from := (getNode st v).type
        let from_signed :=
          match t_from with
          | .primitive _ s => s
          | _ => false
        let st1 := codegen_expr fuel st v
        let r := freshInst st1
        if type_sizeof t_from = type_sizeof t_to then
          setIr (emitI st1 (.bitcast (getNode st1 v).ir) t_to) exprId (some r)
        else if type_sizeof t_from < type_sizeof t_to then
          if from_signed then
            setIr (emitI st1 (.sign_extend (getNode st1 v).ir) t_to) exprId
              (some r)
          else
            setIr (emitI st1 (.zero_extend (getNode st1 v).ir) t_to) exprId
              (some r)
        else
          setIr (emitI st1 (.truncate (getNode st1 v).ir) t_to) exprId
            (some r)
      | .BINARY op lhs rhs =>
        if decide (op = Tok.COLON_EQ) then
          let st1 := codegen_expr fuel st rhs
          let st2 := codegen_lvalue fuel st1 lhs
          let r := freshInst st2
          setIr (emitI st2 (.store (getNode st2 rhs).ir
            (getNode st2 lhs).address) .void) exprId (some r)
        else if decide (op = Tok.LBRACK) then
          -- subscript: the C code computes `subs_lhs` in one of several
          -- ways (with early returns) and falls through to shared code;
          -- the shared tail is inlined at each continue-site here.
          if !(type_is_array (getNode st lhs).type) &&
              !(type_is_pointer (getNode st lhs).type) then
            fail st
          else
            match (getNode st lhs).data with
            | .VARIABLE_REFERENCE decl =>
              (match (getNode st decl).address with
               | some vd =>
                 if (match instKind st vd with
                     | some .static_ref => true
                     | some .alloca => true
                     | _ => false) then
                   let p0 : EmitState × Nat :=
                     if type_is_pointer (instType st vd) &&
                         type_is_pointer (CType.pointee (instType st vd))
                     then
                       (emitI st (.load (some vd))
                         (CType.pointee (instType st vd)), freshInst st)
                     else (st, vd)
                   let q : EmitState × Nat :=
                                   if type_is_pointer (instType p0.1 p0.2) &&
                                       type_is_array (CType.pointee (instType p0.1 p0.2)) then
                                     let cp := freshInst p0.1
                                     let sa := emitI p0.1 (.copy (some p0.2))
                                       (instType p0.1 p0.2)
                                     let sb := setInstType sa cp
                                       (CType.pointer (CType.elem (CType.pointee
                                         (instType p0.1 p0.2))))
                                     (noteEv sb (.insert_inst cp), cp)
                                   else (p0.1, p0.2)
                                 if (match (getNode q.1 rhs).data with
                                     | .LITERAL .NUMBER k _ _ => decide (k = 0)
                                     | _ => false) then
                                   setIr q.1 exprId (some q.2)
                                 else
                                   let s3 := codegen_expr fuel q.1 rhs
                                   let q2 : EmitState × Nat :=
                                     if type_is_array (getNode s3 lhs).type then
                                       let im := freshInst s3
                                       let sa := emitI s3
                                         (.imm (type_sizeof (CType.elem
                                           (getNode s3 lhs).type))) t_integer
                                       (emitI sa (.mul (getNode sa rhs).ir (some im))
                                         t_integer, freshInst sa)
                                     else
                                       let im := freshInst s3
                                       let sa := emitI s3
                                         (.imm (type_sizeof (CType.pointee
                                           (getNode s3 lhs).type))) t_integer
                                       (emitI sa (.mul (getNode sa rhs).ir (some im))
                                         t_integer, freshInst sa)
                                   let r2 := freshInst q2.1
                                   setIr (emitI q2.1 (.add (some q.2) (some q2.2)) t_integer)
                                     exprId (some r2)
                 else fail st
               | none => fail st)
            | _ =>
              if is_lvalue (getNode st lhs) then
                let s1 := codegen_lvalue fuel st lhs
                match (getNode s1 lhs).address with
                | some a =>
                  let q : EmitState × Nat :=
                                  if type_is_pointer (instType s1 a) &&
                                      type_is_array (CType.pointee (instType s1 a)) then
                                    let cp := freshInst s1
                                    let sa := emitI s1 (.copy (some a))
                                      (instType s1 a)
                                    let sb := setInstType sa cp
                                      (CType.pointer (CType.elem (CType.pointee
                                        (instType s1 a))))
                                    (noteEv sb (.insert_inst cp), cp)
                                  else (s1, a)
                                if (match (getNode q.1 rhs).data with
                                    | .LITERAL .NUMBER k _ _ => decide (k = 0)
                                    | _ => false) then
                                  setIr q.1 exprId (some q.2)
                                else
                                  let s3 := codegen_expr fuel q.1 rhs
                                  let q2 : EmitState × Nat :=
                                    if type_is_array (getNode s3 lhs).type then
                                      let im := freshInst s3
                                      let sa := emitI s3
                                        (.imm (type_sizeof (CType.elem
                                          (getNode s3 lhs).type))) t_integer
                                      (emitI sa (.mul (getNode sa rhs).ir (some im))
                                        t_integer, freshInst sa)
                                    else
                                      let im := freshInst s3
                                      let sa := emitI s3
                                        (.imm (type_sizeof (CType.pointee
                                          (getNode s3 lhs).type))) t_integer
                                      (emitI sa (.mul (getNode sa rhs).ir (some im))
                                        t_integer, freshInst sa)
                                  let r2 := freshInst q2.1
                                  setIr (emitI q2.1 (.add (some q.2) (some q2.2)) t_integer)
                                    exprId (some r2)
                | none => fail s1
              else
                match (getNode st lhs).data with
                | .LITERAL .STRING _ si _ =>
                  let s1 := codegen_expr fuel st lhs
                  (match (getNode s1 rhs).data with
                   | .LITERAL .NUMBER k _ _ =>
                     if s1.strings.getD si 0 ≤ k then fail s1
                     else if k ≠ 0 then
                       let im := freshInst s1
                       let s2 := emitI s1 (.imm k) t_integer
                       let r := freshInst s2
                       let s3 := emitI s2
                         (.add (getNode s2 lhs).ir (some im)) t_integer
                       setIr s3 exprId (some r)
                     else setIr s1 exprId (getNode s1 lhs).ir
                   | _ =>
                     match (getNode s1 lhs).ir with
                     | some a =>
                       let q : EmitState × Nat :=
                                       if type_is_pointer (instType s1 a) &&
                                           type_is_array (CType.pointee (instType s1 a)) then
                                         let cp := freshInst s1
                                         let sa := emitI s1 (.copy (some a))
                                           (instType s1 a)
                                         let sb := setInstType sa cp
                                           (CType.pointer (CType.elem (CType.pointee
                                             (instType s1 a))))
                                         (noteEv sb (.insert_inst cp), cp)
                                       else (s1, a)
                                     if (match (getNode q.1 rhs).data with
                                         | .LITERAL .NUMBER k _ _ => decide (k = 0)
                                         | _ => false) then
                                       setIr q.1 exprId (some q.2)
                                     else
                                       let s3 := codegen_expr fuel q.1 rhs
                                       let q2 : EmitState × Nat :=
                                         if type_is_array (getNode s3 lhs).type then
                                           let im := freshInst s3
                                           let sa := emitI s3
                                             (.imm (type_sizeof (CType.elem
                                               (getNode s3 lhs).type))) t_integer
                                           (emitI sa (.mul (getNode sa rhs).ir (some im))
                                             t_integer, freshInst sa)
                                         else
                                           let im := freshInst s3
                                           let sa := emitI s3
                                             (.imm (type_sizeof (CType.pointee
                                               (getNode s3 lhs).type))) t_integer
                                           (emitI sa (.mul (getNode sa rhs).ir (some im))
                                             t_integer, freshInst sa)
                                       let r2 := freshInst q2.1
                                       setIr (emitI q2.1 (.add (some q.2) (some q2.2)) t_integer)
                                         exprId (some r2)
                     | none => fail s1)
                | _ => fail st
        else
          let st1 := codegen_expr fuel st lhs
          let st2 := codegen_expr fuel st1 rhs
          match op with
          | .LT | .LE | .GT | .GE | .EQ | .NE | .PLUS | .MINUS | .STAR
          | .SLASH | .PERCENT | .SHL | .SHR | .AMPERSAND | .PIPE =>
            let r := freshInst st2
            setIr (emitI st2 (.binop op (getNode st2 lhs).ir
              (getNode st2 rhs).ir) (getNode st2 exprId).type) exprId (some r)
          | _ => fail st2
      | .UNARY op pf v =>
        if decide (op = Tok.AMPERSAND) && !pf then
          let st1 := codegen_lvalue fuel st v
          setIr st1 exprId (getNode st1 v).address
        else
          let st1 := codegen_expr fuel st v
          if !pf then
            match op with
            | .AT =>
              if type_is_pointer (getNode st1 v).type &&
                  (match CType.pointee (getNode st1 v).type with
                   | .function => true
                   | _ => false) then
                setIr st1 exprId (getNode st1 v).ir
              else
                let r := freshInst st1
                setIr (emitI st1 (.load (getNode st1 v).ir)
                  (getNode st1 exprId).type) exprId (some r)
            | .TILDE =>
              let r := freshInst st1
              setIr (emitI st1 (.not_inst (getNode st1 v).ir)
                (getNode st1 exprId).type) exprId (some r)
            | _ => fail st1
          else fail st1
      | .LITERAL lit k si compound =>
        (match lit with
         | .NUMBER =>
           let r := freshInst st
           setIr (emitI st (.imm k) (getNode st exprId).type) exprId (some r)
         | .STRING =>
           let r := freshInst st
           let st1 := emitI st .static_ref
             (CType.pointer (getNode st exprId).type)
           setIr (emitI st1 (.lit_string si) .void) exprId (some r)
         | .LBRACK =>
           let r := freshInst st
           let st1 := emitI st .alloca
             (CType.pointer (getNode st exprId).type)
           let st2 := setIr st1 exprId (some r)
           let addr0 := freshInst st2
           let st3 := emitI st2 (.copy (some r))
             (CType.pointer (getNode st2 exprId).type)
           let st3b := setInstType st3 addr0
             (CType.pointer (CType.elem (getNode st2 exprId).type))
           let st4 := noteEv st3b (.insert_inst addr0)
           let q := compound.enum.foldl
             (fun (pr : EmitState × Nat) ic =>
               let s1 := codegen_expr fuel pr.1 ic.2
               let s2 := emitI s1
                 (.store (getNode s1 ic.2).ir (some pr.2)) .void
               if ic.1 = compound.length - 1 then (s2, pr.2)
               else
                 let im := freshInst s2
                 let s3 := emitI s2
                   (.imm (type_sizeof (CType.elem (getNode s2 exprId).type)))
                   t_integer
                 let a2 := freshInst s3
                 (emitI s3 (.add (some pr.2) (some im)) t_integer, a2))
             (st4, addr0)
           let r2 := freshInst q.1
           setIr (emitI q.1 (.load (getNode q.1 exprId).ir)
             (getNode q.1 exprId).type) exprId (some r2)
         | _ => fail st)
      | .FOR initId cond iter bodyId =>
        let condB := freshBlock st
        let bodyB := freshBlock st + 1
        let joinB := freshBlock st + 2
        let st1 := allocBlocks st 3
        let st2 := codegen_expr fuel st1 initId
        let st3 := ir_branch st2 condB
        let st4 := attach st3 condB
        let st5 := codegen_expr fuel st4 cond
        let st6 := ir_branch_conditional st5 (getNode st5 cond).ir bodyB joinB
        let st7 := attach st6 bodyB
        let st8 := codegen_expr fuel st7 bodyId
        let st9 := codegen_expr fuel st8 iter
        let st10 := ir_branch st9 condB
        attach st10 joinB
      | .FUNCTION_REFERENCE => fail st

end


/-- A number-literal node (`42`), for exercising the emission guard. -/
def nodeLit42 : Node := ⟨.LITERAL .NUMBER 42 0 [], t_integer, false, none, none⟩

/-- A concrete store: node 0 is the literal `42`, every other id the
default node. -/
def stW : EmitState :=
  ⟨fun n => if n = 0 then nodeLit42 else defaultNode,
    [], 100, 0, 0, false, [], [], false⟩

end Codegen



namespace Glint

/-! ### Basic facts about the modelled pointer comparison -/

theorem glintEq_sound : ∀ (a b : GlintType), glintEq a b = true → a = b := by
  apply glintEq.induct
    (motive_1 := fun a b => glintEq a b = true → a = b)
    (motive_2 := fun l1 l2 => glintEqList l1 l2 = true → l1 = l2)
  · intro a b h; simp [glintEq] at h; simp [h]
  · intro a b h; simp [glintEq] at h; simp [h]
  · intro a b h; simp [glintEq] at h; simp [h]
  · intro a b h; simp [glintEq] at h; simp [h]
  · intro a b ih h; simp [glintEq] at h; simp [ih h]
  · intro a b ih h; simp [glintEq] at h; simp [ih h]
  · intro a da b db ih h; simp [glintEq] at h; simp [ih h.1, h.2]
  · intro a b ih h; simp [glintEq] at h; simp [ih h]
  · intro ra pa rb pb ih1 ih2 h; simp [glintEq] at h
    simp [ih1 h.1, ih2 h.2]
  · intro da ua ma db ub mb ih h; simp [glintEq] at h
    simp [h.1.1, h.1.2, ih h.2]
  · intro wa sa wb sb h; simp [glintEq] at h; simp [h.1, h.2]
  · intro t x hmm1 hmm2 hmm3 hmm4 hmm5 hmm6 hmm7 hmm8 hmm9 hmm10 hmm11 h
    exfalso
    cases t <;> cases x <;> simp [glintEq] at h <;>
      first
        | exact hmm1 _ _ rfl rfl | exact hmm2 _ _ rfl rfl
        | exact hmm3 _ _ rfl rfl | exact hmm4 _ _ rfl rfl
        | exact hmm5 _ _ rfl rfl | exact hmm6 _ _ rfl rfl
        | exact hmm7 _ _ _ _ rfl rfl | exact hmm8 _ _ rfl rfl
        | exact hmm9 _ _ _ _ rfl rfl | exact hmm10 _ _ _ _ _ _ rfl rfl
        | exact hmm11 _ _ _ _ rfl rfl
  · intro _; rfl
  · intro a as_ b bs ih1 ih2 h; simp [glintEqList] at h
    simp [ih1 h.1, ih2 h.2]
  · intro t x hn1 hn2 h
    exfalso
    cases t <;> cases x <;> simp [glintEqList] at h
    · exact hn1 rfl rfl
    · exact hn2 _ _ _ _ rfl rfl

theorem glintEq_refl : ∀ (a : GlintType), glintEq a a = true := by
  have main : ∀ (a b : GlintType), a = b → glintEq a b = true := by
    apply glintEq.induct
      (motive_1 := fun a b => a = b → glintEq a b = true)
      (motive_2 := fun l1 l2 => l1 = l2 → glintEqList l1 l2 = true)
    · intro a b h; simp at h; simp [glintEq, h]
    · intro a b h; simp at h; simp [glintEq, h]
    · intro a b h; simp at h; simp [glintEq, h]
    · intro a b h; simp at h; simp [glintEq, h]
    · intro a b ih h; simp at h; simp [glintEq, ih h]
    · intro a b ih h; simp at h; simp [glintEq, ih h]
    · intro a da b db ih h; simp at h; simp [glintEq, ih h.1, h.2]
    · intro a b ih h; simp at h; simp [glintEq, ih h]
    · intro ra pa rb pb ih1 ih2 h; simp at h
      simp [glintEq, ih1 h.1, ih2 h.2]
    · intro da ua ma db ub mb ih h; simp at h
      simp [glintEq, h.1, h.2.1, ih h.2.2]
    · intro wa sa wb sb h; simp at h; simp [glintEq, h.1, h.2]
    · intro t x hmm1 hmm2 hmm3 hmm4 hmm5 hmm6 hmm7 hmm8 hmm9 hmm10 hmm11 h
      exfalso; subst h
      cases t with
      | builtin a => exact hmm1 a a rfl rfl
      | ffi a => exact hmm2 a a rfl rfl
      | named a => exact hmm3 a a rfl rfl
      | enum_t a => exact hmm4 a a rfl rfl
      | pointer a => exact hmm5 a a rfl rfl
      | reference a => exact hmm6 a a rfl rfl
      | array a d => exact hmm7 a d a d rfl rfl
      | dynamic_array a => exact hmm8 a a rfl rfl
      | func r p => exact hmm9 r p r p rfl rfl
      | struct_t d u m => exact hmm10 d u m d u m rfl rfl
      | integer w s => exact hmm11 w s w s rfl rfl
    · intro _; rfl
    · intro a as_ b bs ih1 ih2 h; simp at h
      simp [glintEqList, ih1 h.1, ih2 h.2]
    · intro t x hn1 hn2 h
      exfalso; subst h
      cases t with
      | nil => exact hn1 rfl rfl
      | cons a as_ => exact hn2 a as_ a as_ rfl rfl
  exact fun a => main a a rfl

theorem glintEq_iff_eq (a b : GlintType) : glintEq a b = true ↔ a = b :=
  ⟨glintEq_sound a b, fun h => h ▸ glintEq_refl a⟩

theorem TypeEqual_refl (a : GlintType) : TypeEqual a a = true := by
  rw [TypeEqual.eq_def, glintEq_refl]
  simp

theorem TypeEqualList_iff_forall (l1 l2 : List GlintType) :
    TypeEqualList l1 l2 = true ↔
      List.Forall₂ (fun x y => TypeEqual x y = true) l1 l2 := by
  induction l1 generalizing l2 with
  | nil => cases l2 <;> simp [TypeEqualList]
  | cons a as_ ih =>
    cases l2 with
    | nil => simp [TypeEqualList]
    | cons b bs => simp [TypeEqualList, ih]

/-- C9: `Type::Equal` satisfies: two anonymous struct types are equal iff
they have the same number of members with positionally equal member types;
a struct type with a declaration is equal only to the identical instance;
two integer types are equal iff bit width and signedness both agree;
pointer equality is structural on the element type; array equality is
structural on the element type together with equal dimensions. -/
theorem C9_type_equal :
    (∀ (ua ub : Nat) (ma mb : List GlintType),
      TypeEqual (.struct_t none ua ma) (.struct_t none ub mb) = true ↔
        List.Forall₂ (fun x y => TypeEqual x y = true) ma mb) ∧
    (∀ (d ua : Nat) (ma : List GlintType) (b : GlintType),
      TypeEqual (.struct_t (some d) ua ma) b = true ↔
        b = .struct_t (some d) ua ma) ∧
    (∀ (wa wb : Nat) (sa sb : Bool),
      TypeEqual (.integer wa sa) (.integer wb sb) = true ↔
        (wa = wb ∧ sa = sb)) ∧
    (∀ (a b : GlintType),
      TypeEqual (.pointer a) (.pointer b) = true ↔ TypeEqual a b = true) ∧
    (∀ (a b : GlintType) (da db_ : Nat),
      TypeEqual (.array a da) (.array b db_) = true ↔
        (da = db_ ∧ TypeEqual a b = true)) := by
  refine ⟨?_, ?_, ?_, ?_, ?_⟩
  · intro ua ub ma mb
    by_cases hg :
        glintEq (.struct_t none ua ma) (.struct_t none ub mb) = true
    · have he := glintEq_sound _ _ hg
      injection he with h1 h2 h3
      subst h3
      rw [TypeEqual.eq_def, hg]
      simp [List.forall₂_same]
      intro x _
      exact TypeEqual_refl x
    · have hg' : glintEq (.struct_t none ua ma) (.struct_t none ub mb) = false :=
        Bool.eq_false_iff.mpr hg
      rw [TypeEqual.eq_def, hg']
      simp only [Bool.false_eq_true, if_false]
      constructor
      · intro h
        simp at h
        exact (TypeEqualList_iff_forall ma mb).mp h.2
      · intro h
        simp
        exact ⟨h.length_eq, (TypeEqualList_iff_forall ma mb).mpr h⟩
  · intro d ua ma b
    by_cases hg : glintEq (.struct_t (some d) ua ma) b = true
    · have he := glintEq_sound _ _ hg
      rw [TypeEqual.eq_def, hg]
      simp [he.symm]
    · have hg' : glintEq (.struct_t (some d) ua ma) b = false :=
        Bool.eq_false_iff.mpr hg
      rw [TypeEqual.eq_def, hg']
      simp only [Bool.false_eq_true, if_false]
      constructor
      · intro h
        exfalso
        cases b <;> simp at h
      · intro h
        exfalso
        exact hg (h ▸ glintEq_refl _)
  · intro wa wb sa sb
    by_cases hg : glintEq (GlintType.integer wa sa) (GlintType.integer wb sb) = true
    · have he := glintEq_sound _ _ hg
      injection he with h1 h2
      rw [TypeEqual.eq_def, hg]
      simp [h1, h2]
    · have hg' : glintEq (GlintType.integer wa sa) (GlintType.integer wb sb) = false :=
        Bool.eq_false_iff.mpr hg
      rw [TypeEqual.eq_def, hg']
      simp
  · intro a b
    by_cases hg : glintEq a b = true
    · have he := glintEq_sound _ _ hg
      subst he
      have hgp : glintEq (GlintType.pointer a) (GlintType.pointer a) = true :=
        glintEq_refl _
      rw [TypeEqual.eq_def, hgp]
      simp [TypeEqual_refl]
    · have hg' : glintEq a b = false := Bool.eq_false_iff.mpr hg
      have hgp : glintEq (GlintType.pointer a) (GlintType.pointer b) = false := by
        simp [glintEq, hg']
      rw [TypeEqual.eq_def, hgp]
      simp
  · intro a b da db_
    by_cases hg : glintEq (GlintType.array a da) (GlintType.array b db_) = true
    · have he := glintEq_sound _ _ hg
      injection he with h1 h2
      subst h1; subst h2
      rw [TypeEqual.eq_def, hg]
      simp [TypeEqual_refl]
    · have hg' : glintEq (GlintType.array a da) (GlintType.array b db_) = false :=
        Bool.eq_false_iff.mpr hg
      rw [TypeEqual.eq_def, hg']
      simp

end Glint

namespace Intercept

/-! ## Closed evaluation theorems about the inliner -/

/-- C3 (counterexample): a self-recursive call already marked `tail_call`
is NOT inlined (the pass deliberately leaves tail recursion alone): with
threshold 0 the run on `ctxSelfTail` never calls `ir_inline_call`, changes
nothing, and reports `changed = false`. -/
theorem C3_counterexample :
    (run_inliner ctxSelfTail 0 true 10).ctx = ctxSelfTail ∧
    (run_inliner ctxSelfTail 0 true 10).changed = false ∧
    (run_inliner ctxSelfTail 0 true 10).attempts = [] ∧
    (run_inliner ctxSelfTail 0 true 10).aborted = false :=
  ⟨rfl, rfl, rfl, rfl⟩

/-- C4 (code bug): inlining `g() { %3 = call f(0); return %3 }` where `f`
has two returns produces the return block and PHI, converts both returns
to branches to it, and replaces the use of the call by the PHI — but the
PHI's incoming pairs name the callee's ORIGINAL blocks 30 and 40
(`new->block = block` in inline.c line 334), not the inlined copies 49 and
50 that actually branch to the return block. -/
theorem C4_phi_blocks_bug :
    (ir_inline_call ctxTwoRet [] true gTwoRet 3 43).ok = true ∧
    (ir_inline_call ctxTwoRet [] true gTwoRet 3 43).ret_block =
      some ⟨51, [⟨52, 0, 0, .PHI [(30, 44), (40, 46)]⟩,
                 ⟨4, 0, 0, .RETURN (some 52)⟩]⟩ ∧
    (ir_inline_call ctxTwoRet [] true gTwoRet 3 43).fn.blocks =
      [⟨1, [⟨2, 0, 0, .IMMEDIATE 0⟩, ⟨43, 0, 0, .BRANCH_CONDITIONAL 2 49 50⟩]⟩,
       ⟨49, [⟨44, 0, 0, .IMMEDIATE 1⟩, ⟨45, 0, 0, .BRANCH 51⟩]⟩,
       ⟨50, [⟨46, 0, 0, .IMMEDIATE 2⟩, ⟨47, 0, 0, .BRANCH 51⟩]⟩] ∧
    (∀ b ∈ (ir_inline_call ctxTwoRet [] true gTwoRet 3 43).fn.blocks,
      b.id ≠ 30 ∧ b.id ≠ 40) := by
  refine ⟨rfl, rfl, rfl, ?_⟩
  have hb : (ir_inline_call ctxTwoRet [] true gTwoRet 3 43).fn.blocks =
      [⟨1, [⟨2, 0, 0, .IMMEDIATE 0⟩, ⟨43, 0, 0, .BRANCH_CONDITIONAL 2 49 50⟩]⟩,
       ⟨49, [⟨44, 0, 0, .IMMEDIATE 1⟩, ⟨45, 0, 0, .BRANCH 51⟩]⟩,
       ⟨50, [⟨46, 0, 0, .IMMEDIATE 2⟩, ⟨47, 0, 0, .BRANCH 51⟩]⟩] := rfl
  rw [hb]
  decide

/-- C8 (counterexample): one completed inliner run on `ctxChain` with
threshold 0 reports `changed = true` and yields `ctxChainAfter`; running
the inliner a second time with the same threshold again reports
`changed = true` (the call `f → g` that was refused as an inline cycle in
the first run has a fresh history in the second run and is inlined), so
the second run is NOT a no-op. -/
theorem C8_counterexample :
    opt_inline ctxChain 0 20 = true ∧
    (run_inliner ctxChain 0 true 20).ctx = ctxChainAfter ∧
    (run_inliner ctxChain 0 true 20).aborted = false ∧
    opt_inline ctxChainAfter 0 20 = true ∧
    (run_inliner ctxChainAfter 0 true 20).aborted = false :=
  ⟨rfl, rfl, rfl, rfl, rfl⟩

end Intercept

namespace Intercept

/-! ## General lemmas about `ir_inline_call` and the pass -/

/-- If the callee is nonempty and the cycle test fires, `ir_inline_call`
refuses: it returns false, leaves the caller and the history unchanged,
and issues the infinite-loop diagnostic exactly when the pass may not
fail. -/
theorem ir_inline_call_refuses_cycle (ctx : CodegenContext)
    (history : List HistoryEntry) (mf : Bool) (caller : IRFunction)
    (callId nextId : Nat) (cs : CallSite) (c : CallData)
    (hloc : locate_call caller.blocks callId = some cs)
    (hdata : cs.call.data = .CALL c)
    (hcount : instruction_count (getFunction ctx c.callee_function) true ≠ 0)
    (hcyc : inline_cycle_detected history callId c.callee_function = true) :
    ir_inline_call ctx history mf caller callId nextId =
      ⟨false, caller, history, nextId,
       (if mf then []
        else [.infinite_loop (getFunction ctx c.callee_function).name
                caller.name]), none, none⟩ := by
  unfold ir_inline_call
  simp only [hloc, hdata]
  rw [if_neg hcount]
  unfold inline_cycle_detected at hcyc
  cases hfe : find_history_entry history callId with
  | none => simp only [hfe] at hcyc; cases hcyc
  | some i =>
    simp only [hfe] at hcyc
    cases hpar : (history.get? i).bind (·.inlined_via) with
    | none => simp only [hpar] at hcyc; cases hcyc
    | some p =>
      simp only [hpar] at hcyc
      simp only [hfe, hpar, hcyc, if_true]

end Intercept

namespace Intercept

/-- Whatever `process_inst` does, the attempts log grows only by ids that
were not in the not-inlinable set, and the not-inlinable set only grows. -/
theorem process_inst_attempts_ext (st : PassState) (fIdx : Nat)
    (inst : IRInstruction) (cid : Nat) (hmem : cid ∈ st.not_inlinable) :
    ∃ l, (process_inst st fIdx inst).1.attempts = st.attempts ++ l ∧
      cid ∉ l ∧ cid ∈ (process_inst st fIdx inst).1.not_inlinable := by
  unfold process_inst
  cases hd : inst.data <;>
    try exact ⟨[], (List.append_nil _).symm, by simp, hmem⟩
  case CALL c =>
    by_cases h1 : c.is_indirect = true
    · simp only [h1, if_true]
      exact ⟨[], (List.append_nil _).symm, by simp, hmem⟩
    · replace h1 : c.is_indirect = false := by simpa using h1
      simp only [h1, Bool.false_eq_true, if_false]
      by_cases h2 : (getFunction st.ctx c.callee_function).is_ext = true
      · simp only [h2, if_true]
        exact ⟨[], (List.append_nil _).symm, by simp, hmem⟩
      · replace h2 : (getFunction st.ctx c.callee_function).is_ext = false := by
          simpa using h2
        simp only [h2, Bool.false_eq_true, if_false]
        by_cases h3 : inst.id ∈ st.not_inlinable
        · simp only [if_pos h3]
          exact ⟨[], (List.append_nil _).symm, by simp, hmem⟩
        · simp only [if_neg h3]
          have hne : cid ≠ inst.id := fun he => h3 (he ▸ hmem)
          by_cases h4 : pass_should_inline st c = true
          · simp only [h4, if_true]
            by_cases h5 : c.callee_function = fIdx
            · simp only [h5, if_pos]
              unfold handle_self_recursion
              by_cases h6 : c.tail_call = true
              · simp only [h6, Bool.not_true, Bool.false_eq_true, if_false]
                exact ⟨[], (List.append_nil _).symm, by simp, hmem⟩
              · replace h6 : c.tail_call = false := by simpa using h6
                simp only [h6, Bool.not_false, if_true]
                by_cases h7 : pass_must_inline st c = true
                · simp only [h7, if_true]
                  cases hconv : opt_try_convert_to_tail_call
                      (getFunction st.ctx fIdx) inst.id with
                  | some f1 =>
                    exact ⟨[], (List.append_nil _).symm, by simp, hmem⟩
                  | none =>
                    refine ⟨[], (List.append_nil _).symm, by simp, ?_⟩
                    simp [hmem]
                · simp only [h7, Bool.false_eq_true, if_false]
                  exact ⟨[], (List.append_nil _).symm, by simp, hmem⟩
            · simp only [h5, if_neg, if_false]
              unfold attempt_inline
              by_cases hok : (ir_inline_call st.ctx st.history st.may_fail
                  (getFunction st.ctx fIdx) inst.id st.nextId).ok = true
              · simp only [hok, if_true]
                exact ⟨[inst.id], rfl, by simpa using hne, hmem⟩
              · simp only [hok, Bool.false_eq_true, if_false]
                refine ⟨[inst.id], rfl, by simpa using hne, ?_⟩
                simp [hmem]
          · simp only [h4, Bool.false_eq_true, if_false]
            exact ⟨[], (List.append_nil _).symm, by simp, hmem⟩

/-- Extension lemma for a whole-block scan. -/
theorem scan_insts_attempts (fIdx : Nat) :
    ∀ (insts : List IRInstruction) (st : PassState) (cid : Nat),
      cid ∈ st.not_inlinable →
      ∃ l, (scan_insts fIdx st insts).1.attempts = st.attempts ++ l ∧
        cid ∉ l ∧ cid ∈ (scan_insts fIdx st insts).1.not_inlinable
  | [], st, cid, hmem => ⟨[], (List.append_nil _).symm, by simp, hmem⟩
  | i :: rest, st, cid, hmem => by
    obtain ⟨l1, ha1, hn1, hm1⟩ := process_inst_attempts_ext st fIdx i cid hmem
    unfold scan_insts
    by_cases hp : (process_inst st fIdx i).2 = true
    · simp only [hp, if_true]
      exact ⟨l1, ha1, hn1, hm1⟩
    · simp only [hp, Bool.false_eq_true, if_false]
      obtain ⟨l2, ha2, hn2, hm2⟩ :=
        scan_insts_attempts fIdx rest (process_inst st fIdx i).1 cid hm1
      exact ⟨l1 ++ l2, by rw [ha2, ha1, List.append_assoc], by simp [hn1, hn2],
        hm2⟩

/-- Extension lemma for the block list scan. -/
theorem scan_blocks_attempts (fIdx : Nat) :
    ∀ (bs : List IRBlock) (st : PassState) (cid : Nat),
      cid ∈ st.not_inlinable →
      ∃ l, (scan_blocks fIdx st bs).1.attempts = st.attempts ++ l ∧
        cid ∉ l ∧ cid ∈ (scan_blocks fIdx st bs).1.not_inlinable
  | [], st, cid, hmem => ⟨[], (List.append_nil _).symm, by simp, hmem⟩
  | b :: rest, st, cid, hmem => by
    obtain ⟨l1, ha1, hn1, hm1⟩ := scan_insts_attempts fIdx b.insts st cid hmem
    unfold scan_blocks
    by_cases hp : (scan_insts fIdx st b.insts).2 = true
    · simp only [hp, if_true]
      exact ⟨l1, ha1, hn1, hm1⟩
    · simp only [hp, Bool.false_eq_true, if_false]
      obtain ⟨l2, ha2, hn2, hm2⟩ :=
        scan_blocks_attempts fIdx rest (scan_insts fIdx st b.insts).1 cid hm1
      exact ⟨l1 ++ l2, by rw [ha2, ha1, List.append_assoc], by simp [hn1, hn2],
        hm2⟩

/-- Extension lemma for the `again:` loop: a call recorded as not
inlinable is never passed to `ir_inline_call` again. -/
theorem inline_fn_loop_attempts (fIdx : Nat) :
    ∀ (fuel : Nat) (st : PassState) (cursor cid : Nat),
      cid ∈ st.not_inlinable →
      ∃ l, (inline_fn_loop fIdx fuel st cursor).attempts = st.attempts ++ l ∧
        cid ∉ l ∧ cid ∈ (inline_fn_loop fIdx fuel st cursor).not_inlinable
  | 0, st, _, cid, hmem => ⟨[], (List.append_nil _).symm, by simp, hmem⟩
  | fuel+1, st, cursor, cid, hmem => by
    obtain ⟨l1, ha1, hn1, hm1⟩ :=
      scan_blocks_attempts fIdx
        ((getFunction st.ctx fIdx).blocks.drop
          ((getFunction st.ctx fIdx).blocks.findIdx (fun b => b.id = cursor)))
        st cid hmem
    cases hp : (scan_blocks fIdx st
        ((getFunction st.ctx fIdx).blocks.drop
          ((getFunction st.ctx fIdx).blocks.findIdx
            (fun b => b.id = cursor)))).2 with
    | none =>
      refine ⟨l1, ?_, hn1, ?_⟩
      · simp only [inline_fn_loop, hp]
        exact ha1
      · simp only [inline_fn_loop, hp]
        exact hm1
    | some bid =>
      obtain ⟨l2, ha2, hn2, hm2⟩ :=
        inline_fn_loop_attempts fIdx fuel _ bid cid hm1
      refine ⟨l1 ++ l2, ?_, by simp [hn1, hn2], ?_⟩
      · simp only [inline_fn_loop, hp]
        rw [ha2, ha1, List.append_assoc]
      · simp only [inline_fn_loop, hp]
        exact hm2

/-- Extension lemma for a whole function, and for any remaining sequence
of functions of the pass. -/
theorem pass_rest_attempts :
    ∀ (fis : List Nat) (fuel : Nat) (st : PassState) (cid : Nat),
      cid ∈ st.not_inlinable →
      ∃ l, (fis.foldl (inline_calls_in_function fuel) st).attempts =
          st.attempts ++ l ∧ cid ∉ l ∧
        cid ∈ (fis.foldl (inline_calls_in_function fuel) st).not_inlinable
  | [], _, st, cid, hmem => ⟨[], (List.append_nil _).symm, by simp, hmem⟩
  | fIdx :: rest, fuel, st, cid, hmem => by
    have heq : inline_calls_in_function fuel st fIdx =
        match (getFunction st.ctx fIdx).blocks.head? with
        | none => { st with history := ([] : List HistoryEntry) }
        | some b =>
          inline_fn_loop fIdx fuel
            { st with history := ([] : List HistoryEntry) } b.id := rfl
    have step : ∃ l, (inline_calls_in_function fuel st fIdx).attempts =
        st.attempts ++ l ∧ cid ∉ l ∧
        cid ∈ (inline_calls_in_function fuel st fIdx).not_inlinable := by
      rw [heq]
      cases hh : (getFunction st.ctx fIdx).blocks.head? with
      | none => exact ⟨[], (List.append_nil _).symm, by simp, hmem⟩
      | some b =>
        exact inline_fn_loop_attempts fIdx fuel
          { st with history := ([] : List HistoryEntry) } b.id cid hmem
    obtain ⟨l1, ha1, hn1, hm1⟩ := step
    obtain ⟨l2, ha2, hn2, hm2⟩ :=
      pass_rest_attempts rest fuel (inline_calls_in_function fuel st fIdx) cid hm1
    exact ⟨l1 ++ l2, by rw [List.foldl_cons, ha2, ha1, List.append_assoc],
      by simp [hn1, hn2], by rwa [List.foldl_cons]⟩

end Intercept

namespace Intercept

/-- C2: for a call whose history ancestry contains its own callee,
`ir_inline_call` refuses: it returns false, issues the "Infinite loop
detected" diagnostic exactly when the pass may not fail, and leaves the
caller's IR, the call and the history unchanged (first conjunct); the
driving pass records a failed attempt in the not-inlinable set, leaving
the module untouched (second conjunct); and a call in the not-inlinable
set is never passed to `ir_inline_call` again for the remainder of the
pass (third conjunct, over the attempts log). -/
theorem C2_cycle_refusal :
    (∀ (ctx : CodegenContext) (history : List HistoryEntry) (mf : Bool)
       (caller : IRFunction) (callId nextId : Nat) (cs : CallSite)
       (c : CallData),
       locate_call caller.blocks callId = some cs →
       cs.call.data = .CALL c →
       instruction_count (getFunction ctx c.callee_function) true ≠ 0 →
       inline_cycle_detected history callId c.callee_function = true →
       ir_inline_call ctx history mf caller callId nextId =
         ⟨false, caller, history, nextId,
          (if mf then []
           else [.infinite_loop (getFunction ctx c.callee_function).name
                   caller.name]), none, none⟩) ∧
    (∀ (st : PassState) (fIdx : Nat) (inst : IRInstruction) (c : CallData),
       inst.data = .CALL c →
       c.is_indirect = false →
       (getFunction st.ctx c.callee_function).is_ext = false →
       inst.id ∉ st.not_inlinable →
       pass_should_inline st c = true →
       c.callee_function ≠ fIdx →
       (ir_inline_call st.ctx st.history st.may_fail
         (getFunction st.ctx fIdx) inst.id st.nextId).ok = false →
       (process_inst st fIdx inst).1.not_inlinable =
           st.not_inlinable ++ [inst.id] ∧
         (process_inst st fIdx inst).1.ctx = st.ctx ∧
         (process_inst st fIdx inst).2 = true) ∧
    (∀ (fis : List Nat) (fuel : Nat) (st : PassState) (cid : Nat),
       cid ∈ st.not_inlinable →
       ∃ l, (fis.foldl (inline_calls_in_function fuel) st).attempts =
           st.attempts ++ l ∧ cid ∉ l) := by
  refine ⟨?_, ?_, ?_⟩
  · intro ctx history mf caller callId nextId cs c hloc hcs hcount hcyc
    exact ir_inline_call_refuses_cycle ctx history mf caller callId nextId
      cs c hloc hcs hcount hcyc
  · intro st fIdx inst c hd hind hext hni hshould hself hok
    unfold process_inst
    simp only [hd, hind, Bool.false_eq_true, if_false, hext, if_neg hni,
      hshould, if_true, if_neg hself]
    unfold attempt_inline
    simp only [hok, Bool.false_eq_true, if_false]
    refine ⟨?_, ?_, ?_⟩ <;> trivial
  · intro fis fuel st cid hmem
    obtain ⟨l, ha, hn, _⟩ := pass_rest_attempts fis fuel st cid hmem
    exact ⟨l, ha, hn⟩

/-- C2 witness: a concrete refusal.  With history `histCycle` (the call
with id 9 was inlined via an entry whose callee is function 1), inlining
`9 → f` in `gCycle` is refused, the module is unchanged, and the
diagnostic appears because the pass may not fail. -/
theorem C2_cycle_refusal_witness :
    ir_inline_call ctxCycle histCycle false gCycle 9 20 =
      ⟨false, gCycle, histCycle, 20, [.infinite_loop "f" "g"], none, none⟩ :=
  C2_cycle_refusal.1 ctxCycle histCycle false gCycle 9 20
    ⟨[], 1, [], ⟨9, 0, 0, .CALL ⟨false, 1, 0, [], false⟩⟩,
      [⟨6, 0, 0, .RETURN none⟩], []⟩
    ⟨false, 1, 0, [], false⟩ rfl rfl (by decide) (by rfl)

/-- C3 (amended): a direct self-recursive call that the pass considers is
NEVER inlined: the loop does not restart, no inlining attempt is made and
`changed` is untouched.  A tail-marked call is left entirely alone; a
non-tail call that must be inlined is converted to a tail call when
possible and otherwise rejected (diagnostic exactly when the pass may not
fail) and recorded as not inlinable; a non-tail call that merely passes
the threshold, or any call that fails the threshold test, is skipped
silently. -/
theorem C3_amended (st : PassState) (fIdx : Nat) (inst : IRInstruction)
    (c : CallData)
    (hd : inst.data = .CALL c)
    (hind : c.is_indirect = false)
    (hext : (getFunction st.ctx c.callee_function).is_ext = false)
    (hni : inst.id ∉ st.not_inlinable)
    (hself : c.callee_function = fIdx) :
    ((process_inst st fIdx inst).2 = false ∧
      (process_inst st fIdx inst).1.attempts = st.attempts ∧
      (process_inst st fIdx inst).1.changed = st.changed) ∧
    (c.tail_call = true → process_inst st fIdx inst = (st, false)) ∧
    (c.tail_call = false → pass_should_inline st c = true →
      pass_must_inline st c = true →
      (∀ f1, opt_try_convert_to_tail_call (getFunction st.ctx fIdx) inst.id =
          some f1 →
        process_inst st fIdx inst =
          ({ st with
              ctx := setFunction st.ctx fIdx f1,
              converts := st.converts ++ [inst.id] }, false)) ∧
      (opt_try_convert_to_tail_call (getFunction st.ctx fIdx) inst.id = none →
        process_inst st fIdx inst =
          ({ st with
              diags := st.diags ++
                (if st.may_fail then [] else [.non_tail_recursive]),
              failed := true,
              not_inlinable := st.not_inlinable ++ [inst.id] }, false))) ∧
    (c.tail_call = false → pass_should_inline st c = true →
      pass_must_inline st c = false → process_inst st fIdx inst = (st, false)) ∧
    (pass_should_inline st c = false → process_inst st fIdx inst = (st, false)) := by
  have hbase : process_inst st fIdx inst =
      (if pass_should_inline st c then handle_self_recursion st fIdx inst c
       else (st, false)) := by
    unfold process_inst
    simp only [hd, hind, Bool.false_eq_true, if_false, hext, if_neg hni,
      if_pos hself]
  refine ⟨?_, ?_, ?_, ?_, ?_⟩
  · rw [hbase]
    by_cases hsi : pass_should_inline st c = true
    · simp only [hsi, if_true]
      unfold handle_self_recursion
      by_cases ht : c.tail_call = true
      · simp [ht]
      · replace ht : c.tail_call = false := Bool.eq_false_iff.mpr ht
        simp only [ht, Bool.not_false, if_true]
        by_cases hm : pass_must_inline st c = true
        · simp only [hm, if_true]
          cases hconv : opt_try_convert_to_tail_call
              (getFunction st.ctx fIdx) inst.id <;> simp
        · simp [Bool.eq_false_iff.mpr hm]
    · simp [Bool.eq_false_iff.mpr hsi]
  · intro ht
    rw [hbase]
    by_cases hsi : pass_should_inline st c = true
    · simp only [hsi, if_true]
      unfold handle_self_recursion
      simp [ht]
    · simp [Bool.eq_false_iff.mpr hsi]
  · intro ht hsi hm
    constructor
    · intro f1 hconv
      rw [hbase]
      simp only [hsi, if_true]
      unfold handle_self_recursion
      simp only [ht, Bool.not_false, if_true, hm, hconv]
    · intro hconv
      rw [hbase]
      simp only [hsi, if_true]
      unfold handle_self_recursion
      simp only [ht, Bool.not_false, if_true, hm, hconv]
  · intro ht hsi hm
    rw [hbase]
    simp only [hsi, if_true]
    unfold handle_self_recursion
    simp only [ht, Bool.not_false, if_true, hm, Bool.false_eq_true, if_false]
  · intro hsi
    rw [hbase]
    simp [hsi]

/-- C3 amended witness: the tail-marked self-call of `ctxSelfTail` at a
concrete state with threshold 0: no attempt, no change, left alone. -/
theorem C3_amended_witness :
    ((process_inst ⟨ctxSelfTail, [], [], 0, true, false, false, [], [], [],
        403, false⟩ 0 ⟨401, 0, 0, .CALL ⟨false, 0, 0, [], true⟩⟩).2 = false ∧
      (process_inst ⟨ctxSelfTail, [], [], 0, true, false, false, [], [], [],
        403, false⟩ 0 ⟨401, 0, 0, .CALL ⟨false, 0, 0, [], true⟩⟩).1.attempts =
        [] ∧
      (process_inst ⟨ctxSelfTail, [], [], 0, true, false, false, [], [], [],
        403, false⟩ 0 ⟨401, 0, 0, .CALL ⟨false, 0, 0, [], true⟩⟩).1.changed =
        false) ∧
    process_inst ⟨ctxSelfTail, [], [], 0, true, false, false, [], [], [],
        403, false⟩ 0 ⟨401, 0, 0, .CALL ⟨false, 0, 0, [], true⟩⟩ =
      (⟨ctxSelfTail, [], [], 0, true, false, false, [], [], [], 403, false⟩,
        false) := by
  have h := C3_amended ⟨ctxSelfTail, [], [], 0, true, false, false, [], [],
      [], 403, false⟩ 0 ⟨401, 0, 0, .CALL ⟨false, 0, 0, [], true⟩⟩
    ⟨false, 0, 0, [], true⟩ rfl rfl rfl (by simp) rfl
  exact ⟨h.1, h.2.1 rfl⟩

end Intercept

namespace Intercept

/-! ## Lemmas about RAUW substitution and the inline mapping -/

theorem substVal_id (old new : Nat) (i : IRInstruction) :
    (i.substVal old new).id = i.id := rfl

theorem substVal_isRet (old new : Nat) (i : IRInstruction) :
    (IRInstruction.substVal old new i).isRet = i.isRet := by
  cases hd : i.data <;>
    simp [IRInstruction.substVal, InstData.substVal, IRInstruction.isRet, hd]

theorem substVal_no_old (old new : Nat) (hne : new ≠ old) (d : InstData) :
    old ∉ (d.substVal old new).valueOperands := by
  have key : ∀ x : Nat, (if x = old then new else x) ≠ old := by
    intro x
    by_cases h : x = old
    · simp [h, hne]
    · simp [h]
  cases d <;> simp [InstData.substVal, InstData.valueOperands]
  case INTRINSIC n c =>
    constructor
    · intro hi
      by_cases hc : c.callee_instruction = old
      · simp only [hi, hc, true_and, if_true]
        exact fun h => hne h.symm
      · simp only [hi, hc, and_false, if_false]
        exact fun h => hc h.symm
    · intro x _
      exact key x
  case CALL c =>
    constructor
    · intro hi
      by_cases hc : c.callee_instruction = old
      · simp only [hi, hc, true_and, if_true]
        exact fun h => hne h.symm
      · simp only [hi, hc, and_false, if_false]
        exact fun h => hc h.symm
    · intro x _
      exact key x
  case UN op o => exact fun h => key o h.symm
  case BIN op l r => exact ⟨fun h => key l h.symm, fun h => key r h.symm⟩
  case STORE v a => exact ⟨fun h => key v h.symm, fun h => key a h.symm⟩
  case BRANCH_CONDITIONAL cnd t e => exact fun h => key cnd h.symm
  case PHI args =>
    intro x y _
    exact key y
  case RETURN o =>
    intro x _
    exact key x

end Intercept

namespace Intercept

/-- A `getD` lookup is either a list member or the default. -/
theorem getD_mem_or_default (l : List Nat) (n d : Nat) :
    l.getD n d ∈ l ∨ l.getD n d = d := by
  by_cases h : n < l.length
  · left
    rw [List.getD_eq_getElem l d h]
    exact List.getElem_mem h
  · right
    exact List.getD_eq_default l d (Nat.le_of_not_lt h)

/-- Every value the inline mapping can produce is a slot value or the
default 0. -/
theorem inline_map_value_mem (callee : IRFunction) (args : List Nat)
    (nextId x : Nat) :
    inline_map_value callee args nextId x ∈
      0 :: inline_slots callee args nextId := by
  unfold inline_map_value
  rcases getD_mem_or_default (inline_slots callee args nextId)
      (inline_slot_of callee x) 0 with h | h
  · exact List.mem_cons_of_mem _ h
  · rw [h]; exact List.mem_cons_self _ _

/-! ## Copy-phase invariants -/

/-- `insert` changes only the contents. -/
theorem insert_components (st : CopyState) (bi : Nat) (i : IRInstruction) :
    (st.insert bi i).ret_block = st.ret_block ∧
    (st.insert bi i).ret_phi = st.ret_phi ∧
    (st.insert bi i).return_value = st.return_value ∧
    (st.insert bi i).phi_args = st.phi_args := ⟨rfl, rfl, rfl, rfl⟩

/-- Copying any instruction other than a return leaves the return-handling
state untouched. -/
theorem copy_one_components (env : CopyEnv) (bi obi : Nat) (lb li : Bool)
    (st : CopyState) (inst : IRInstruction)
    (h : ∀ op, inst.data ≠ .RETURN op) :
    (inline_copy_one env bi obi lb li st inst).ret_block = st.ret_block ∧
    (inline_copy_one env bi obi lb li st inst).ret_phi = st.ret_phi ∧
    (inline_copy_one env bi obi lb li st inst).return_value =
      st.return_value ∧
    (inline_copy_one env bi obi lb li st inst).phi_args = st.phi_args := by
  cases hd : inst.data <;>
    simp [inline_copy_one, hd, CopyState.insert]
  exact (h _ hd).elim

/-- In tail-call mode the return-handling state is never touched at all. -/
theorem copy_one_components_tail (env : CopyEnv) (bi obi : Nat)
    (lb li : Bool) (st : CopyState) (inst : IRInstruction)
    (htail : env.is_tail_call = true) :
    (inline_copy_one env bi obi lb li st inst).ret_block = st.ret_block ∧
    (inline_copy_one env bi obi lb li st inst).ret_phi = st.ret_phi ∧
    (inline_copy_one env bi obi lb li st inst).return_value =
      st.return_value ∧
    (inline_copy_one env bi obi lb li st inst).phi_args = st.phi_args := by
  cases hd : inst.data <;>
    simp [inline_copy_one, hd, CopyState.insert, htail]
  rename_i op
  cases op <;> simp [CopyState.insert]

end Intercept

namespace Intercept

/-- Components through a return-free instruction list. -/
theorem copy_insts_components (env : CopyEnv) (bi obi : Nat) (lb : Bool) :
    ∀ (insts : List IRInstruction) (st : CopyState),
      (∀ i ∈ insts, ∀ op, i.data ≠ .RETURN op) →
      (inline_copy_insts env bi obi lb st insts).ret_block = st.ret_block ∧
      (inline_copy_insts env bi obi lb st insts).ret_phi = st.ret_phi ∧
      (inline_copy_insts env bi obi lb st insts).return_value =
        st.return_value ∧
      (inline_copy_insts env bi obi lb st insts).phi_args = st.phi_args
  | [], st, _ => ⟨rfl, rfl, rfl, rfl⟩
  | i :: rest, st, h => by
    have h1 := copy_one_components env bi obi lb rest.isEmpty st i
      (h i (by simp))
    have h2 := copy_insts_components env bi obi lb rest
      (inline_copy_one env bi obi lb rest.isEmpty st i)
      (fun j hj => h j (by simp [hj]))
    exact ⟨h2.1.trans h1.1, h2.2.1.trans h1.2.1, h2.2.2.1.trans h1.2.2.1,
      h2.2.2.2.trans h1.2.2.2⟩

/-- Components through any instruction list in tail-call mode. -/
theorem copy_insts_components_tail (env : CopyEnv) (bi obi : Nat) (lb : Bool)
    (htail : env.is_tail_call = true) :
    ∀ (insts : List IRInstruction) (st : CopyState),
      (inline_copy_insts env bi obi lb st insts).ret_block = st.ret_block ∧
      (inline_copy_insts env bi obi lb st insts).ret_phi = st.ret_phi ∧
      (inline_copy_insts env bi obi lb st insts).return_value =
        st.return_value ∧
      (inline_copy_insts env bi obi lb st insts).phi_args = st.phi_args
  | [], st => ⟨rfl, rfl, rfl, rfl⟩
  | i :: rest, st => by
    have h1 := copy_one_components_tail env bi obi lb rest.isEmpty st i htail
    have h2 := copy_insts_components_tail env bi obi lb htail rest
      (inline_copy_one env bi obi lb rest.isEmpty st i)
    exact ⟨h2.1.trans h1.1, h2.2.1.trans h1.2.1, h2.2.2.1.trans h1.2.2.1,
      h2.2.2.2.trans h1.2.2.2⟩

theorem copy_blocks_append (env : CopyEnv) (bc : Nat) :
    ∀ (l1 l2 : List (Nat × IRBlock)) (st : CopyState),
      inline_copy_blocks env bc st (l1 ++ l2) =
        inline_copy_blocks env bc (inline_copy_blocks env bc st l1) l2
  | [], _, _ => rfl
  | p :: rest, l2, st => by
    show inline_copy_blocks env bc _ (rest ++ l2) = _
    rw [copy_blocks_append env bc rest l2]
    rfl

/-- Components through a list of return-free blocks. -/
theorem copy_blocks_components (env : CopyEnv) (bc : Nat) :
    ∀ (bs : List (Nat × IRBlock)) (st : CopyState),
      (∀ p ∈ bs, ∀ i ∈ p.2.insts, ∀ op, i.data ≠ .RETURN op) →
      (inline_copy_blocks env bc st bs).ret_block = st.ret_block ∧
      (inline_copy_blocks env bc st bs).ret_phi = st.ret_phi ∧
      (inline_copy_blocks env bc st bs).return_value = st.return_value ∧
      (inline_copy_blocks env bc st bs).phi_args = st.phi_args
  | [], st, _ => ⟨rfl, rfl, rfl, rfl⟩
  | p :: rest, st, h => by
    have h1 := copy_insts_components env p.1 p.2.id (p.1 + 1 = bc : Bool)
      p.2.insts st (fun i hi => h p (by simp) i hi)
    have h2 := copy_blocks_components env bc rest
      (inline_copy_insts env p.1 p.2.id (decide (p.1 + 1 = bc)) st p.2.insts)
      (fun q hq => h q (by simp [hq]))
    exact ⟨h2.1.trans h1.1, h2.2.1.trans h1.2.1, h2.2.2.1.trans h1.2.2.1,
      h2.2.2.2.trans h1.2.2.2⟩

/-- Components through any block list in tail-call mode. -/
theorem copy_blocks_components_tail (env : CopyEnv) (bc : Nat)
    (htail : env.is_tail_call = true) :
    ∀ (bs : List (Nat × IRBlock)) (st : CopyState),
      (inline_copy_blocks env bc st bs).ret_block = st.ret_block ∧
      (inline_copy_blocks env bc st bs).ret_phi = st.ret_phi ∧
      (inline_copy_blocks env bc st bs).return_value = st.return_value ∧
      (inline_copy_blocks env bc st bs).phi_args = st.phi_args
  | [], st => ⟨rfl, rfl, rfl, rfl⟩
  | p :: rest, st => by
    have h1 := copy_insts_components_tail env p.1 p.2.id
      (decide (p.1 + 1 = bc)) htail p.2.insts st
    have h2 := copy_blocks_components_tail env bc htail rest
      (inline_copy_insts env p.1 p.2.id (decide (p.1 + 1 = bc)) st p.2.insts)
    exact ⟨h2.1.trans h1.1, h2.2.1.trans h1.2.1, h2.2.2.1.trans h1.2.2.1,
      h2.2.2.2.trans h1.2.2.2⟩

/-- Copying a block that consists of return-free instructions followed by
one final return, in last-block position and outside tail-call mode, hits
the drop case: the return state stays clear and `return_value` becomes the
mapped return operand. -/
theorem copy_insts_last_ret (env : CopyEnv) (bi obi : Nat)
    (henv : env.is_tail_call = false) :
    ∀ (front : List IRInstruction) (retI : IRInstruction) (op : Option Nat)
      (st : CopyState),
      (∀ i ∈ front, ∀ o, i.data ≠ .RETURN o) →
      retI.data = .RETURN op →
      st.ret_block = none →
      (inline_copy_insts env bi obi true st (front ++ [retI])).ret_block =
          none ∧
      (inline_copy_insts env bi obi true st (front ++ [retI])).ret_phi =
          st.ret_phi ∧
      (inline_copy_insts env bi obi true st (front ++ [retI])).return_value =
        (match op with
          | some o => some (env.mapv o)
          | none => st.return_value) ∧
      (inline_copy_insts env bi obi true st (front ++ [retI])).phi_args =
        st.phi_args
  | [], retI, op, st, _, hret, hrb => by
    have hone : inline_copy_one env bi obi true true st retI =
        { st with
          return_value :=
            match op with
            | some o => some (env.mapv o)
            | none => st.return_value } := by
      unfold inline_copy_one
      simp only [hret, henv, hrb]
      simp
      cases op <;> rfl
    have heq : inline_copy_insts env bi obi true st ([] ++ [retI]) =
        inline_copy_one env bi obi true true st retI := rfl
    rw [heq, hone]
    refine ⟨hrb, rfl, ?_, rfl⟩
    cases op <;> rfl
  | f :: front, retI, op, st, hfront, hret, hrb => by
    have hstep : inline_copy_insts env bi obi true st ((f :: front) ++ [retI]) =
        inline_copy_insts env bi obi true
          (inline_copy_one env bi obi true ((front ++ [retI]).isEmpty) st f)
          (front ++ [retI]) := rfl
    rw [hstep]
    have h1 := copy_one_components env bi obi true
      ((front ++ [retI]).isEmpty) st f (hfront f (by simp))
    have h2 := copy_insts_last_ret env bi obi henv front retI op
      (inline_copy_one env bi obi true ((front ++ [retI]).isEmpty) st f)
      (fun j hj => hfront j (by simp [hj])) hret (h1.1.trans hrb)
    refine ⟨h2.1, h2.2.1.trans h1.2.1, ?_, h2.2.2.2.trans h1.2.2.2⟩
    rw [h2.2.2.1]
    cases op with
    | some o => rfl
    | none => exact h1.2.2.1

end Intercept

namespace Intercept

/-! ## Contents bookkeeping of the copy phase -/

theorem getD_set_append_self (l : List (List IRInstruction)) (bi : Nat)
    (x : IRInstruction) (h : bi < l.length) :
    x ∈ (l.set bi (l.getD bi [] ++ [x])).getD bi [] := by
  rw [List.getD_eq_getElem _ _ (by rw [List.length_set]; exact h)]
  rw [List.getElem_set_self]
  exact List.mem_append_right _ (by simp)

theorem getD_set_append_cases (l : List (List IRInstruction)) (bi bj : Nat)
    (x j : IRInstruction)
    (h : j ∈ (l.set bi (l.getD bi [] ++ [x])).getD bj []) :
    j ∈ l.getD bj [] ∨ j = x := by
  by_cases hlt : bj < (l.set bi (l.getD bi [] ++ [x])).length
  · rw [List.getD_eq_getElem _ _ hlt] at h
    by_cases hji : bj = bi
    · subst hji
      rw [List.getElem_set_self] at h
      rcases List.mem_append.mp h with h | h
      · exact Or.inl h
      · exact Or.inr (by simpa using h)
    · rw [List.getElem_set_ne (fun he => hji he.symm)] at h
      left
      rw [List.getD_eq_getElem _ _ (by simpa using hlt)]
      exact h
  · rw [List.getD_eq_default _ _ (by simpa using Nat.le_of_not_lt hlt)] at h
    cases h

theorem getD_set_append_mono (l : List (List IRInstruction)) (bi bj : Nat)
    (x j : IRInstruction) (h : j ∈ l.getD bj []) :
    j ∈ (l.set bi (l.getD bi [] ++ [x])).getD bj [] := by
  by_cases hlt : bj < l.length
  · by_cases hji : bj = bi
    · subst hji
      rw [List.getD_eq_getElem _ _ (by rw [List.length_set]; exact hlt),
        List.getElem_set_self]
      exact List.mem_append_left _ h
    · rw [List.getD_eq_getElem _ _ (by rw [List.length_set]; exact hlt),
        List.getElem_set_ne (fun he => hji he.symm)]
      rw [List.getD_eq_getElem _ _ hlt] at h
      exact h
  · rw [List.getD_eq_default _ _ (Nat.le_of_not_lt hlt)] at h
    cases h

theorem copy_one_contents_length (env : CopyEnv) (bi obi : Nat)
    (lb li : Bool) (st : CopyState) (inst : IRInstruction) :
    (inline_copy_one env bi obi lb li st inst).contents.length =
      st.contents.length := by
  cases hd : inst.data <;>
    rw [inline_copy_one, hd]
  case RETURN op =>
    by_cases htail : env.is_tail_call = true
    · cases op <;> simp [htail, CopyState.insert, List.length_set]
    · replace htail := Bool.eq_false_iff.mpr htail
      rw [htail]
      simp only [Bool.false_eq_true, if_false]
      by_cases hdrop : (st.ret_block.isNone && lb && li) = true
      · simp [hdrop]
      · rw [if_neg hdrop]
        rcases hrb : st.ret_block with _ | rb <;>
          cases op <;>
          simp [hrb, CopyState.insert, List.length_set]
  all_goals simp [CopyState.insert, List.length_set]

/-- Every element of the contents after one copy step was already there,
or is a fresh copy: its id is in the range of `env.mapv`, and outside
tail-call mode it is not a return. -/
theorem copy_one_contents_new (env : CopyEnv) (bi obi : Nat) (lb li : Bool)
    (st : CopyState) (inst : IRInstruction) (bj : Nat) (j : IRInstruction)
    (h : j ∈ (inline_copy_one env bi obi lb li st inst).contents.getD bj []) :
    j ∈ st.contents.getD bj [] ∨
      ((∃ x, j.id = env.mapv x) ∧
        (env.is_tail_call = false → j.isRet = false)) := by
  cases hd : inst.data <;>
    rw [inline_copy_one] at h <;>
    simp only [hd] at h
  case PARAMETER => exact Or.inl h
  case RETURN op =>
    by_cases htail : env.is_tail_call = true
    · rw [if_pos htail] at h
      rcases op with _ | o
      · exact Or.inl h
      · rcases getD_set_append_cases _ _ _ _ _ h with h | h
        · exact Or.inl h
        · refine Or.inr ⟨⟨inst.id, by rw [h]⟩, ?_⟩
          intro hf; rw [htail] at hf; cases hf
    · replace htail : env.is_tail_call = false := Bool.eq_false_iff.mpr htail
      rw [htail] at h
      simp only [Bool.false_eq_true, if_false] at h
      by_cases hdrop : (st.ret_block.isNone && lb && li) = true
      · rw [if_pos hdrop] at h
        exact Or.inl h
      · rw [if_neg hdrop] at h
        rcases h2 : st.ret_block with _ | rb <;>
          simp only [h2] at h <;>
          rcases op with _ | o <;>
          simp only at h <;>
          rcases getD_set_append_cases _ _ _ _ _ h with h | h <;>
          first
            | exact Or.inl h
            | exact Or.inr ⟨⟨inst.id, by rw [h]⟩, fun _ => by rw [h]; rfl⟩
  all_goals
    rcases getD_set_append_cases _ _ _ _ _ h with h | h
  all_goals
    try exact Or.inl h
  all_goals
    exact Or.inr ⟨⟨inst.id, by rw [h]⟩, fun _ => by rw [h]; rfl⟩

end Intercept

namespace Intercept

/-- Copy steps never remove contents. -/
theorem copy_one_contents_mono (env : CopyEnv) (bi obi : Nat) (lb li : Bool)
    (st : CopyState) (inst : IRInstruction) (bj : Nat) (j : IRInstruction)
    (h : j ∈ st.contents.getD bj []) :
    j ∈ (inline_copy_one env bi obi lb li st inst).contents.getD bj [] := by
  cases hd : inst.data <;>
    rw [inline_copy_one] <;>
    simp only [hd]
  case PARAMETER => exact h
  case RETURN op =>
    by_cases htail : env.is_tail_call = true
    · rw [if_pos htail]
      rcases op with _ | o
      · exact h
      · exact getD_set_append_mono _ _ _ _ _ h
    · replace htail : env.is_tail_call = false := Bool.eq_false_iff.mpr htail
      rw [htail]
      simp only [Bool.false_eq_true, if_false]
      by_cases hdrop : (st.ret_block.isNone && lb && li) = true
      · rw [if_pos hdrop]
        exact h
      · rw [if_neg hdrop]
        rcases h2 : st.ret_block with _ | rb <;>
          simp only [h2] <;>
          rcases op with _ | o <;>
          simp only <;>
          exact getD_set_append_mono _ _ _ _ _ h
  all_goals exact getD_set_append_mono _ _ _ _ _ h

theorem copy_insts_contents_mono (env : CopyEnv) (bi obi : Nat) (lb : Bool) :
    ∀ (insts : List IRInstruction) (st : CopyState) (bj : Nat)
      (j : IRInstruction), j ∈ st.contents.getD bj [] →
      j ∈ (inline_copy_insts env bi obi lb st insts).contents.getD bj []
  | [], _, _, _, h => h
  | i :: rest, st, bj, j, h =>
    copy_insts_contents_mono env bi obi lb rest _ bj j
      (copy_one_contents_mono env bi obi lb rest.isEmpty st i bj j h)

theorem copy_blocks_contents_mono (env : CopyEnv) (bc : Nat) :
    ∀ (bs : List (Nat × IRBlock)) (st : CopyState) (bj : Nat)
      (j : IRInstruction), j ∈ st.contents.getD bj [] →
      j ∈ (inline_copy_blocks env bc st bs).contents.getD bj []
  | [], _, _, _, h => h
  | p :: rest, st, bj, j, h =>
    copy_blocks_contents_mono env bc rest _ bj j
      (copy_insts_contents_mono env p.1 p.2.id (decide (p.1 + 1 = bc))
        p.2.insts st bj j h)

theorem copy_insts_contents_length (env : CopyEnv) (bi obi : Nat) (lb : Bool) :
    ∀ (insts : List IRInstruction) (st : CopyState),
      (inline_copy_insts env bi obi lb st insts).contents.length =
        st.contents.length
  | [], _ => rfl
  | i :: rest, st =>
    (copy_insts_contents_length env bi obi lb rest _).trans
      (copy_one_contents_length env bi obi lb rest.isEmpty st i)

theorem copy_blocks_contents_length (env : CopyEnv) (bc : Nat) :
    ∀ (bs : List (Nat × IRBlock)) (st : CopyState),
      (inline_copy_blocks env bc st bs).contents.length =
        st.contents.length
  | [], _ => rfl
  | p :: rest, st =>
    (copy_blocks_contents_length env bc rest _).trans
      (copy_insts_contents_length env p.1 p.2.id (decide (p.1 + 1 = bc))
        p.2.insts st)

theorem copy_insts_contents_new (env : CopyEnv) (bi obi : Nat) (lb : Bool) :
    ∀ (insts : List IRInstruction) (st : CopyState) (bj : Nat)
      (j : IRInstruction),
      j ∈ (inline_copy_insts env bi obi lb st insts).contents.getD bj [] →
      j ∈ st.contents.getD bj [] ∨
        ((∃ x, j.id = env.mapv x) ∧
          (env.is_tail_call = false → j.isRet = false))
  | [], _, _, _, h => Or.inl h
  | i :: rest, st, bj, j, h => by
    rcases copy_insts_contents_new env bi obi lb rest _ bj j h with h1 | h1
    · exact copy_one_contents_new env bi obi lb rest.isEmpty st i bj j h1
    · exact Or.inr h1

theorem copy_blocks_contents_new (env : CopyEnv) (bc : Nat) :
    ∀ (bs : List (Nat × IRBlock)) (st : CopyState) (bj : Nat)
      (j : IRInstruction),
      j ∈ (inline_copy_blocks env bc st bs).contents.getD bj [] →
      j ∈ st.contents.getD bj [] ∨
        ((∃ x, j.id = env.mapv x) ∧
          (env.is_tail_call = false → j.isRet = false))
  | [], _, _, _, h => Or.inl h
  | p :: rest, st, bj, j, h => by
    rcases copy_blocks_contents_new env bc rest _ bj j h with h1 | h1
    · exact copy_insts_contents_new env p.1 p.2.id (decide (p.1 + 1 = bc))
        p.2.insts st bj j h1
    · exact Or.inr h1


end Intercept

namespace Intercept

/-! ## Location and root-call reduction lemmas -/

theorem splitAtInst_id : ∀ (insts : List IRInstruction) (callId : Nat)
    (p : List IRInstruction × IRInstruction × List IRInstruction),
    splitAtInst insts callId = some p → p.2.1.id = callId
  | [], _, _, h => by cases h
  | i :: rest, callId, p, h => by
    rw [splitAtInst] at h
    by_cases hid : i.id = callId
    · rw [if_pos hid] at h
      cases h
      exact hid
    · rw [if_neg hid] at h
      rcases Option.map_eq_some'.mp h with ⟨q, hq, he⟩
      subst he
      exact splitAtInst_id rest callId q hq

theorem locate_call_id : ∀ (blocks : List IRBlock) (callId : Nat)
    (cs : CallSite), locate_call blocks callId = some cs →
    cs.call.id = callId
  | [], _, _, h => by cases h
  | b :: rest, callId, cs, h => by
    unfold locate_call at h
    cases hs : splitAtInst b.insts callId with
    | some p =>
      simp only [hs] at h
      cases h
      exact splitAtInst_id b.insts callId p hs
    | none =>
      simp only [hs] at h
      rcases Option.map_eq_some'.mp h with ⟨q, hq, he⟩
      subst he
      exact locate_call_id rest callId q hq

/-- A root call (no history entry) with a nonempty callee reduces to the
transplant with a freshly pushed history entry. -/
theorem ir_inline_call_root (ctx : CodegenContext)
    (history : List HistoryEntry) (mf : Bool) (caller : IRFunction)
    (callId nextId : Nat) (cs : CallSite) (c : CallData)
    (hloc : locate_call caller.blocks callId = some cs)
    (hcall : cs.call.data = .CALL c)
    (hcount : instruction_count (getFunction ctx c.callee_function) true ≠ 0)
    (hhist : find_history_entry history callId = none) :
    ir_inline_call ctx history mf caller callId nextId =
      inline_transplant (getFunction ctx c.callee_function) caller cs c
        (history ++ [⟨callId, some c.callee_function, none⟩])
        history.length nextId := by
  unfold ir_inline_call
  simp only [hloc, hcall]
  rw [if_neg hcount]
  simp only [hhist]

theorem getD_replicate_nil (n bj : Nat) :
    (List.replicate n ([] : List IRInstruction)).getD bj [] = [] := by
  rcases Nat.lt_or_ge bj n with h | h
  · rw [List.getD_eq_getElem _ _ (by simpa using h)]
    simp
  · rw [List.getD_eq_default _ _ (by simpa using h)]

end Intercept

namespace Intercept

/-- Copy phase over a callee whose only return is the last instruction of
the last block, outside tail-call mode: no return block or PHI is created
and `return_value` is the mapped return operand. -/
theorem stF_single_ret (callee : IRFunction) (cs : CallSite) (c : CallData)
    (H : List HistoryEntry) (chi nextId : Nat) (bs : List IRBlock)
    (lastB : IRBlock) (front : List IRInstruction) (retI : IRInstruction)
    (op : Option Nat)
    (htail : c.tail_call = false)
    (hblocks : callee.blocks = bs ++ [lastB])
    (hlast : lastB.insts = front ++ [retI])
    (hret : retI.data = .RETURN op)
    (hnrB : ∀ b ∈ bs, ∀ i ∈ b.insts, ∀ o, i.data ≠ .RETURN o)
    (hnrF : ∀ i ∈ front, ∀ o, i.data ≠ .RETURN o) :
    (inline_stF callee cs c H chi nextId).ret_block = none ∧
    (inline_stF callee cs c H chi nextId).ret_phi = none ∧
    (inline_stF callee cs c H chi nextId).return_value =
      op.map (inline_map_value callee c.arguments nextId) := by
  have hsplit : callee.blocks.enum = bs.enum ++ [(bs.length, lastB)] := by
    rw [hblocks, List.enum_append]
    simp
  have hdec : (decide (bs.length + 1 = callee.blocks.length)) = true := by
    rw [hblocks]
    simp
  unfold inline_stF
  rw [hsplit, copy_blocks_append]
  have hstep : ∀ st : CopyState,
      inline_copy_blocks (inline_env callee cs c chi nextId)
        callee.blocks.length st [(bs.length, lastB)] =
      inline_copy_insts (inline_env callee cs c chi nextId) bs.length
        lastB.id true st (front ++ [retI]) := by
    intro st
    show inline_copy_insts _ bs.length lastB.id
        (decide (bs.length + 1 = callee.blocks.length)) st lastB.insts = _
    rw [hdec, hlast]
  rw [hstep]
  have hmid := copy_blocks_components (inline_env callee cs c chi nextId)
    callee.blocks.length bs.enum
    ⟨List.replicate callee.blocks.length [], none, none, [], none, H, false⟩
    (fun p hp i hi o => hnrB p.2 (List.snd_mem_of_mem_enum hp) i hi o)
  have hfin := copy_insts_last_ret (inline_env callee cs c chi nextId)
    bs.length lastB.id htail front retI op
    (inline_copy_blocks (inline_env callee cs c chi nextId)
      callee.blocks.length
      ⟨List.replicate callee.blocks.length [], none, none, [], none, H, false⟩
      bs.enum)
    hnrF hret (hmid.1.trans rfl)
  refine ⟨hfin.1, hfin.2.1.trans (hmid.2.1.trans rfl), ?_⟩
  rw [hfin.2.2.1]
  cases op with
  | some o => rfl
  | none => exact hmid.2.2.1.trans rfl

/-- Outside tail-call mode nothing the copy phase deposits into the target
blocks is a return instruction. -/
theorem stF_contents_no_ret (callee : IRFunction) (cs : CallSite)
    (c : CallData) (H : List HistoryEntry) (chi nextId : Nat)
    (htail : c.tail_call = false) (bj : Nat) (j : IRInstruction)
    (h : j ∈ (inline_stF callee cs c H chi nextId).contents.getD bj []) :
    j.isRet = false := by
  unfold inline_stF at h
  rcases copy_blocks_contents_new (inline_env callee cs c chi nextId)
      callee.blocks.length callee.blocks.enum
      ⟨List.replicate callee.blocks.length [], none, none, [], none, H, false⟩
      bj j h with h1 | h1
  · have h2 : j ∈ (List.replicate callee.blocks.length
        ([] : List IRInstruction)).getD bj [] := h1
    rw [getD_replicate_nil] at h2
    cases h2
  · exact h1.2 htail

end Intercept

namespace Intercept

/-- C5: inlining a non-tail call to a callee whose only `Return` is the
last instruction of its last block collapses to plain value substitution:
the call succeeds, no return block (and hence no PHI) is created, the
reported `return_value` is the mapped copy of the return operand, no
return instruction is ever copied into the caller, and — when the return
carried a value — the RAUW step leaves no use of the call anywhere in the
resulting function. -/
theorem C5_single_return_collapse (ctx : CodegenContext)
    (history : List HistoryEntry) (mf : Bool) (caller : IRFunction)
    (callId nextId : Nat) (cs : CallSite) (c : CallData) (bs : List IRBlock)
    (lastB : IRBlock) (front : List IRInstruction) (retI : IRInstruction)
    (op : Option Nat)
    (hloc : locate_call caller.blocks callId = some cs)
    (hcall : cs.call.data = .CALL c)
    (hcount : instruction_count (getFunction ctx c.callee_function) true ≠ 0)
    (hhist : find_history_entry history callId = none)
    (htail : c.tail_call = false)
    (hblocks : (getFunction ctx c.callee_function).blocks = bs ++ [lastB])
    (hlast : lastB.insts = front ++ [retI])
    (hret : retI.data = .RETURN op)
    (hnrB : ∀ b ∈ bs, ∀ i ∈ b.insts, ∀ o, i.data ≠ .RETURN o)
    (hnrF : ∀ i ∈ front, ∀ o, i.data ≠ .RETURN o)
    (hfresh : callId ∉ 0 :: inline_slots (getFunction ctx c.callee_function)
      c.arguments nextId) :
    (ir_inline_call ctx history mf caller callId nextId).ok = true ∧
    (ir_inline_call ctx history mf caller callId nextId).ret_block = none ∧
    (ir_inline_call ctx history mf caller callId nextId).return_value =
      op.map (inline_map_value (getFunction ctx c.callee_function)
        c.arguments nextId) ∧
    (∀ (bj : Nat) (j : IRInstruction),
      j ∈ (inline_stF (getFunction ctx c.callee_function) cs c
            (history ++ [⟨callId, some c.callee_function, none⟩])
            history.length nextId).contents.getD bj [] →
      j.isRet = false) ∧
    (op.isSome = true →
      ∀ b ∈ (ir_inline_call ctx history mf caller callId nextId).fn.blocks,
        ∀ i ∈ b.insts, callId ∉ i.data.valueOperands) := by
  have hred := ir_inline_call_root ctx history mf caller callId nextId cs c
    hloc hcall hcount hhist
  have hstf := stF_single_ret (getFunction ctx c.callee_function) cs c
    (history ++ [⟨callId, some c.callee_function, none⟩]) history.length
    nextId bs lastB front retI op htail hblocks hlast hret hnrB hnrF
  rw [hred]
  refine ⟨rfl, ?_, hstf.2.2, ?_, ?_⟩
  · show inline_retB3 (getFunction ctx c.callee_function) cs c
      (history ++ [⟨callId, some c.callee_function, none⟩]) history.length
      nextId = none
    unfold inline_retB3
    rw [hstf.2.2, hstf.1]
    cases op <;> simp
  · exact fun bj j h =>
      stF_contents_no_ret (getFunction ctx c.callee_function) cs c
        (history ++ [⟨callId, some c.callee_function, none⟩])
        history.length nextId htail bj j h
  · intro hop b hb i hi
    rcases Option.isSome_iff_exists.mp hop with ⟨v, hv⟩
    subst hv
    have hcid : cs.call.id = callId :=
      locate_call_id caller.blocks callId cs hloc
    have hne : inline_map_value (getFunction ctx c.callee_function)
        c.arguments nextId v ≠ callId := by
      intro he
      exact hfresh (he ▸ inline_map_value_mem
        (getFunction ctx c.callee_function) c.arguments nextId v)
    have hchain1 : (inline_transplant (getFunction ctx c.callee_function)
        caller cs c (history ++ [⟨callId, some c.callee_function, none⟩])
        history.length nextId).fn.blocks =
        (inline_chain (getFunction ctx c.callee_function) cs c
          (history ++ [⟨callId, some c.callee_function, none⟩])
          history.length nextId).map
          (IRBlock.substVal cs.call.id
            (inline_map_value (getFunction ctx c.callee_function)
              c.arguments nextId v)) := by
      show inline_chain1 (getFunction ctx c.callee_function) cs c
        (history ++ [⟨callId, some c.callee_function, none⟩])
        history.length nextId = _
      unfold inline_chain1
      rw [hstf.2.2]
      rfl
    rw [hchain1] at hb
    rcases List.mem_map.mp hb with ⟨b0, hb0, hbe⟩
    subst hbe
    have hi2 : i ∈ b0.insts.map
        (IRInstruction.substVal cs.call.id
          (inline_map_value (getFunction ctx c.callee_function)
            c.arguments nextId v)) := hi
    rcases List.mem_map.mp hi2 with ⟨i0, hi0, hie⟩
    subst hie
    rw [hcid]
    exact substVal_no_old callId
      (inline_map_value (getFunction ctx c.callee_function)
        c.arguments nextId v) hne i0.data

end Intercept

namespace Intercept

/-- C5 witness: inlining `f() { return 42 }` at the call `%2 = call f()`
of `gSingleRet` (fresh ids from 4). -/
theorem C5_single_return_collapse_witness :
    (ir_inline_call ctxSingleRet [] true gSingleRet 2 4).ok = true ∧
    (ir_inline_call ctxSingleRet [] true gSingleRet 2 4).ret_block = none ∧
    (ir_inline_call ctxSingleRet [] true gSingleRet 2 4).return_value =
      (some 11).map (inline_map_value (getFunction ctxSingleRet 1) [] 4) ∧
    (∀ (bj : Nat) (j : IRInstruction),
      j ∈ (inline_stF (getFunction ctxSingleRet 1)
            ⟨[], 1, [], ⟨2, 0, 0, .CALL ⟨false, 1, 0, [], false⟩⟩,
              [⟨3, 0, 0, .RETURN (some 2)⟩], []⟩
            ⟨false, 1, 0, [], false⟩ [⟨2, some 1, none⟩] 0
            4).contents.getD bj [] →
      j.isRet = false) ∧
    ((some 11).isSome = true →
      ∀ b ∈ (ir_inline_call ctxSingleRet [] true gSingleRet 2 4).fn.blocks,
        ∀ i ∈ b.insts, 2 ∉ i.data.valueOperands) :=
  C5_single_return_collapse ctxSingleRet [] true gSingleRet 2 4
    ⟨[], 1, [], ⟨2, 0, 0, .CALL ⟨false, 1, 0, [], false⟩⟩,
      [⟨3, 0, 0, .RETURN (some 2)⟩], []⟩
    ⟨false, 1, 0, [], false⟩ []
    ⟨10, [⟨11, 0, 0, .IMMEDIATE 42⟩, ⟨12, 0, 0, .RETURN (some 11)⟩]⟩
    [⟨11, 0, 0, .IMMEDIATE 42⟩] ⟨12, 0, 0, .RETURN (some 11)⟩ (some 11)
    rfl rfl (by decide) rfl rfl rfl rfl rfl
    (fun b hb => absurd hb (List.not_mem_nil _))
    (by
      intro i hi o h
      rw [List.mem_singleton] at hi
      subst hi
      exact InstData.noConfusion h)
    (by decide)

end Intercept

namespace Intercept

/-- In tail-call mode the copy phase never creates a return block, a PHI,
or a return value. -/
theorem stF_tail_components (callee : IRFunction) (cs : CallSite)
    (c : CallData) (H : List HistoryEntry) (chi nextId : Nat)
    (htail : c.tail_call = true) :
    (inline_stF callee cs c H chi nextId).ret_block = none ∧
    (inline_stF callee cs c H chi nextId).ret_phi = none ∧
    (inline_stF callee cs c H chi nextId).return_value = none := by
  unfold inline_stF
  have h := copy_blocks_components_tail (inline_env callee cs c chi nextId)
    callee.blocks.length htail callee.blocks.enum
    ⟨List.replicate callee.blocks.length [], none, none, [], none, H, false⟩
  exact ⟨h.1.trans rfl, h.2.1.trans rfl, h.2.2.1.trans rfl⟩

end Intercept

namespace Intercept

/-- C6: the claim fails on a void callee.  The tail-marked call `%2 = tail
call f()` in `gVoidTail` is located, and the callee `fVoidRet`'s only
instruction is a `Return` with no operand (void returns are built by
`ir_return(ctx, NULL)`).  The inline attempt reduces to the root
transplant, and the copy phase of that transplant executes the tail-call
return copy `copy->operand = MAP(inst->operand)` of inline.c line 301 —
which expands to `instructions.data[(inst->operand)->id]` with no null
check, unlike the guarded return-conversion sites at lines 310, 322 and
332 — on the NULL operand: a null-pointer dereference (`crashed`), so the
`Return` copy the claim promises is never produced. -/
theorem C6_void_tail_null_deref :
    locate_call gVoidTail.blocks 2 =
      some ⟨[], 1, [], ⟨2, 0, 0, .CALL ⟨false, 1, 0, [], true⟩⟩,
        [⟨3, 0, 0, .RETURN none⟩], []⟩ ∧
    (getFunction ctxVoidTail 1).blocks =
      [⟨10, [⟨11, 0, 0, .RETURN none⟩]⟩] ∧
    ir_inline_call ctxVoidTail [] true gVoidTail 2 7 =
      inline_transplant (getFunction ctxVoidTail 1) gVoidTail
        ⟨[], 1, [], ⟨2, 0, 0, .CALL ⟨false, 1, 0, [], true⟩⟩,
          [⟨3, 0, 0, .RETURN none⟩], []⟩
        ⟨false, 1, 0, [], true⟩ [⟨2, some 1, none⟩] 0 7 ∧
    (inline_stF (getFunction ctxVoidTail 1)
      ⟨[], 1, [], ⟨2, 0, 0, .CALL ⟨false, 1, 0, [], true⟩⟩,
        [⟨3, 0, 0, .RETURN none⟩], []⟩
      ⟨false, 1, 0, [], true⟩ [⟨2, some 1, none⟩] 0 7).crashed = true := by
  refine ⟨rfl, rfl, ?_, rfl⟩
  exact ir_inline_call_root ctxVoidTail [] true gVoidTail 2 7
    ⟨[], 1, [], ⟨2, 0, 0, .CALL ⟨false, 1, 0, [], true⟩⟩,
      [⟨3, 0, 0, .RETURN none⟩], []⟩
    ⟨false, 1, 0, [], true⟩ rfl rfl (by decide) rfl

end Intercept

namespace Intercept

/-! ## Module preservation when a run changes nothing -/

/-- One scan step preserves the module unless it records a successful
inline (`changed`) or a tail-call conversion (`converts`). -/
theorem process_inst_ctx (st : PassState) (fIdx : Nat)
    (inst : IRInstruction) :
    ∃ t, (process_inst st fIdx inst).1.converts = st.converts ++ t ∧
      ((process_inst st fIdx inst).1.changed = false →
        st.changed = false) ∧
      ((process_inst st fIdx inst).1.changed = false → t = [] →
        (process_inst st fIdx inst).1.ctx = st.ctx) := by
  unfold process_inst
  cases hd : inst.data <;>
    try exact ⟨[], (List.append_nil _).symm, fun h => h, fun _ _ => rfl⟩
  case CALL c =>
    by_cases h1 : c.is_indirect = true
    · simp only [h1, if_true]
      exact ⟨[], by simp, by simp, by simp⟩
    · replace h1 : c.is_indirect = false := by simpa using h1
      simp only [h1, Bool.false_eq_true, if_false]
      by_cases h2 : (getFunction st.ctx c.callee_function).is_ext = true
      · simp only [h2, if_true]
        exact ⟨[], by simp, by simp, by simp⟩
      · replace h2 : (getFunction st.ctx c.callee_function).is_ext = false := by
          simpa using h2
        simp only [h2, Bool.false_eq_true, if_false]
        by_cases h3 : inst.id ∈ st.not_inlinable
        · simp only [if_pos h3]
          exact ⟨[], by simp, by simp, by simp⟩
        · simp only [if_neg h3]
          by_cases h4 : pass_should_inline st c = true
          · simp only [h4, if_true]
            by_cases h5 : c.callee_function = fIdx
            · simp only [h5, if_pos]
              unfold handle_self_recursion
              by_cases h6 : c.tail_call = true
              · simp only [h6, Bool.not_true, Bool.false_eq_true, if_false]
                exact ⟨[], by simp, by simp, by simp⟩
              · replace h6 : c.tail_call = false := by simpa using h6
                simp only [h6, Bool.not_false, if_true]
                by_cases h7 : pass_must_inline st c = true
                · simp only [h7, if_true]
                  cases hconv : opt_try_convert_to_tail_call
                      (getFunction st.ctx fIdx) inst.id with
                  | some f1 =>
                    exact ⟨[inst.id], rfl, fun h => h, fun _ ht => nomatch ht⟩
                  | none =>
                    exact ⟨[], by simp, by simp, by simp⟩
                · simp only [h7, Bool.false_eq_true, if_false]
                  exact ⟨[], by simp, by simp, by simp⟩
            · simp only [h5, if_neg, if_false]
              unfold attempt_inline
              by_cases hok : (ir_inline_call st.ctx st.history st.may_fail
                  (getFunction st.ctx fIdx) inst.id st.nextId).ok = true
              · simp only [hok, if_true]
                exact ⟨[], by simp, by simp, by simp⟩
              · simp only [hok, Bool.false_eq_true, if_false]
                exact ⟨[], by simp, by simp, by simp⟩
          · simp only [h4, Bool.false_eq_true, if_false]
            exact ⟨[], by simp, by simp, by simp⟩

end Intercept

namespace Intercept

/-- Block-scan version of `process_inst_ctx`. -/
theorem scan_insts_ctx (fIdx : Nat) :
    ∀ (insts : List IRInstruction) (st : PassState),
      ∃ t, (scan_insts fIdx st insts).1.converts = st.converts ++ t ∧
        ((scan_insts fIdx st insts).1.changed = false →
          st.changed = false) ∧
        ((scan_insts fIdx st insts).1.changed = false → t = [] →
          (scan_insts fIdx st insts).1.ctx = st.ctx)
  | [], st => ⟨[], (List.append_nil _).symm, fun h => h, fun _ _ => rfl⟩
  | i :: rest, st => by
    obtain ⟨t1, hc1, hb1, hx1⟩ := process_inst_ctx st fIdx i
    unfold scan_insts
    by_cases hp : (process_inst st fIdx i).2 = true
    · simp only [hp, if_true]
      exact ⟨t1, hc1, hb1, hx1⟩
    · simp only [hp, Bool.false_eq_true, if_false]
      obtain ⟨t2, hc2, hb2, hx2⟩ := scan_insts_ctx fIdx rest
        (process_inst st fIdx i).1
      refine ⟨t1 ++ t2, by rw [hc2, hc1, List.append_assoc],
        fun h => hb1 (hb2 h), fun h ht => ?_⟩
      rcases List.append_eq_nil.mp ht with ⟨ht1, ht2⟩
      exact (hx2 h ht2).trans (hx1 (hb2 h) ht1)

/-- Block-list version of `process_inst_ctx`. -/
theorem scan_blocks_ctx (fIdx : Nat) :
    ∀ (bs : List IRBlock) (st : PassState),
      ∃ t, (scan_blocks fIdx st bs).1.converts = st.converts ++ t ∧
        ((scan_blocks fIdx st bs).1.changed = false →
          st.changed = false) ∧
        ((scan_blocks fIdx st bs).1.changed = false → t = [] →
          (scan_blocks fIdx st bs).1.ctx = st.ctx)
  | [], st => ⟨[], (List.append_nil _).symm, fun h => h, fun _ _ => rfl⟩
  | b :: rest, st => by
    obtain ⟨t1, hc1, hb1, hx1⟩ := scan_insts_ctx fIdx b.insts st
    unfold scan_blocks
    by_cases hp : (scan_insts fIdx st b.insts).2 = true
    · simp only [hp, if_true]
      exact ⟨t1, hc1, hb1, hx1⟩
    · simp only [hp, Bool.false_eq_true, if_false]
      obtain ⟨t2, hc2, hb2, hx2⟩ := scan_blocks_ctx fIdx rest
        (scan_insts fIdx st b.insts).1
      refine ⟨t1 ++ t2, by rw [hc2, hc1, List.append_assoc],
        fun h => hb1 (hb2 h), fun h ht => ?_⟩
      rcases List.append_eq_nil.mp ht with ⟨ht1, ht2⟩
      exact (hx2 h ht2).trans (hx1 (hb2 h) ht1)

/-- Rescan-loop version of `process_inst_ctx`. -/
theorem inline_fn_loop_ctx (fIdx : Nat) :
    ∀ (fuel : Nat) (st : PassState) (cursor : Nat),
      ∃ t, (inline_fn_loop fIdx fuel st cursor).converts =
          st.converts ++ t ∧
        ((inline_fn_loop fIdx fuel st cursor).changed = false →
          st.changed = false) ∧
        ((inline_fn_loop fIdx fuel st cursor).changed = false → t = [] →
          (inline_fn_loop fIdx fuel st cursor).ctx = st.ctx)
  | 0, st, _ => ⟨[], (List.append_nil _).symm, fun h => h, fun _ _ => rfl⟩
  | fuel+1, st, cursor => by
    obtain ⟨t1, hc1, hb1, hx1⟩ := scan_blocks_ctx fIdx
      ((getFunction st.ctx fIdx).blocks.drop
        ((getFunction st.ctx fIdx).blocks.findIdx (fun b => b.id = cursor)))
      st
    cases hp : (scan_blocks fIdx st
        ((getFunction st.ctx fIdx).blocks.drop
          ((getFunction st.ctx fIdx).blocks.findIdx
            (fun b => b.id = cursor)))).2 with
    | none =>
      refine ⟨t1, ?_, ?_, ?_⟩ <;> simp only [inline_fn_loop, hp]
      · exact hc1
      · exact hb1
      · exact hx1
    | some bid =>
      obtain ⟨t2, hc2, hb2, hx2⟩ := inline_fn_loop_ctx fIdx fuel _ bid
      refine ⟨t1 ++ t2, ?_, ?_, ?_⟩ <;> simp only [inline_fn_loop, hp]
      · rw [hc2, hc1, List.append_assoc]
      · exact fun h => hb1 (hb2 h)
      · intro h ht
        rcases List.append_eq_nil.mp ht with ⟨ht1, ht2⟩
        exact (hx2 h ht2).trans (hx1 (hb2 h) ht1)

/-- Whole-pass version of `process_inst_ctx`: when the run reports no
change and no tail-call conversion, the module is untouched. -/
theorem pass_rest_ctx :
    ∀ (fis : List Nat) (fuel : Nat) (st : PassState),
      ∃ t, (fis.foldl (inline_calls_in_function fuel) st).converts =
          st.converts ++ t ∧
        ((fis.foldl (inline_calls_in_function fuel) st).changed = false →
          st.changed = false) ∧
        ((fis.foldl (inline_calls_in_function fuel) st).changed = false →
          t = [] →
          (fis.foldl (inline_calls_in_function fuel) st).ctx = st.ctx)
  | [], _, st => ⟨[], (List.append_nil _).symm, fun h => h, fun _ _ => rfl⟩
  | fIdx :: rest, fuel, st => by
    have heq : inline_calls_in_function fuel st fIdx =
        match (getFunction st.ctx fIdx).blocks.head? with
        | none => { st with history := ([] : List HistoryEntry) }
        | some b =>
          inline_fn_loop fIdx fuel
            { st with history := ([] : List HistoryEntry) } b.id := rfl
    have step : ∃ t, (inline_calls_in_function fuel st fIdx).converts =
        st.converts ++ t ∧
        ((inline_calls_in_function fuel st fIdx).changed = false →
          st.changed = false) ∧
        ((inline_calls_in_function fuel st fIdx).changed = false → t = [] →
          (inline_calls_in_function fuel st fIdx).ctx = st.ctx) := by
      rw [heq]
      cases hh : (getFunction st.ctx fIdx).blocks.head? with
      | none => exact ⟨[], (List.append_nil _).symm, fun h => h, fun _ _ => rfl⟩
      | some b =>
        exact inline_fn_loop_ctx fIdx fuel
          { st with history := ([] : List HistoryEntry) } b.id
    obtain ⟨t1, hc1, hb1, hx1⟩ := step
    obtain ⟨t2, hc2, hb2, hx2⟩ :=
      pass_rest_ctx rest fuel (inline_calls_in_function fuel st fIdx)
    refine ⟨t1 ++ t2, ?_, ?_, ?_⟩ <;> rw [List.foldl_cons]
    · rw [hc2, hc1, List.append_assoc]
    · exact fun h => hb1 (hb2 h)
    · intro h ht
      rcases List.append_eq_nil.mp ht with ⟨ht1, ht2⟩
      exact (hx2 h ht2).trans (hx1 (hb2 h) ht1)

/-- A completed run that reports `changed = false` and performed no
tail-call conversion left the module untouched. -/
theorem run_inliner_ctx_of_unchanged (ctx : CodegenContext)
    (threshold : Int) (mf : Bool) (fuel : Nat)
    (hch : (run_inliner ctx threshold mf fuel).changed = false)
    (hcv : (run_inliner ctx threshold mf fuel).converts = []) :
    (run_inliner ctx threshold mf fuel).ctx = ctx := by
  obtain ⟨t, hc, hb, hx⟩ := pass_rest_ctx
    (List.range ctx.functions.length) fuel
    ⟨ctx, [], [], threshold, mf, false, false, [], [], [],
      maxUsedId ctx + 1, false⟩
  have hrw : run_inliner ctx threshold mf fuel =
      (List.range ctx.functions.length).foldl
        (inline_calls_in_function fuel)
        ⟨ctx, [], [], threshold, mf, false, false, [], [], [],
          maxUsedId ctx + 1, false⟩ := rfl
  rw [hrw] at hch hcv ⊢
  have ht : t = [] := by
    rw [hcv] at hc
    exact (List.append_eq_nil.mp hc.symm).2
  exact hx hch ht

end Intercept

namespace Intercept

/-- C8 (amended): the inliner is idempotent at a genuine fixpoint — if a
run reports `changed = false` and converted no self-recursive call to a
tail call, the module is untouched, and a second run with the same
threshold again reports `changed = false` and leaves the module
untouched.  (Idempotence after a run that did change the module is
refuted by `C8_counterexample`: the per-run history lets mutually
recursive callees be re-inlined on every run.) -/
theorem C8_amended (ctx : CodegenContext) (threshold : Int) (mf : Bool)
    (fuel : Nat)
    (hch : (run_inliner ctx threshold mf fuel).changed = false)
    (hcv : (run_inliner ctx threshold mf fuel).converts = []) :
    (run_inliner ctx threshold mf fuel).ctx = ctx ∧
    (run_inliner (run_inliner ctx threshold mf fuel).ctx threshold mf
      fuel).changed = false ∧
    (run_inliner (run_inliner ctx threshold mf fuel).ctx threshold mf
      fuel).ctx = (run_inliner ctx threshold mf fuel).ctx := by
  have hctx := run_inliner_ctx_of_unchanged ctx threshold mf fuel hch hcv
  refine ⟨hctx, ?_, ?_⟩
  · rw [hctx]
    exact hch
  · rw [hctx]
    exact hctx

/-- C8 amended witness: `ctxSelfTail` is a fixpoint (its only candidate
call is self-recursive and already a tail call), and the second run
changes nothing either. -/
theorem C8_amended_witness :
    (run_inliner ctxSelfTail 0 true 10).ctx = ctxSelfTail ∧
    (run_inliner (run_inliner ctxSelfTail 0 true 10).ctx 0 true
      10).changed = false ∧
    (run_inliner (run_inliner ctxSelfTail 0 true 10).ctx 0 true 10).ctx =
      (run_inliner ctxSelfTail 0 true 10).ctx :=
  C8_amended ctxSelfTail 0 true 10 rfl rfl

end Intercept

namespace Codegen

/-! ## Emission-state bookkeeping for `codegen_expr` -/

@[simp] theorem getNode_emitI (st : EmitState) (k : IRK) (ty : CType)
    (n : Nat) : getNode (emitI st k ty) n = getNode st n := rfl

@[simp] theorem getNode_noteEv (st : EmitState) (k : IRK) (n : Nat) :
    getNode (noteEv st k) n = getNode st n := rfl

@[simp] theorem getNode_setInstType (st : EmitState) (i : Nat) (t : CType)
    (n : Nat) : getNode (setInstType st i t) n = getNode st n := rfl

@[simp] theorem getNode_allocBlocks (st : EmitState) (k n : Nat) :
    getNode (allocBlocks st k) n = getNode st n := rfl

@[simp] theorem getNode_attach (st : EmitState) (b n : Nat) :
    getNode (attach st b) n = getNode st n := rfl

@[simp] theorem getNode_fail (st : EmitState) (n : Nat) :
    getNode (fail st) n = getNode st n := rfl

@[simp] theorem getNode_ir_branch (st : EmitState) (b n : Nat) :
    getNode (ir_branch st b) n = getNode st n := rfl

@[simp] theorem getNode_ir_branch_conditional (st : EmitState)
    (c : Option Nat) (t e n : Nat) :
    getNode (ir_branch_conditional st c t e) n = getNode st n := rfl

@[simp] theorem getNode_ir_return (st : EmitState) (v : Option Nat)
    (n : Nat) : getNode (ir_return st v) n = getNode st n := rfl

@[simp] theorem emitted_setIr (st : EmitState) (i : Nat) (r : Option Nat)
    (n : Nat) :
    (getNode (setIr st i r) n).emitted = (getNode st n).emitted := by
  by_cases h : n = i <;> simp [setIr, updNode, getNode, h]

@[simp] theorem emitted_setAddress (st : EmitState) (i : Nat)
    (a : Option Nat) (n : Nat) :
    (getNode (setAddress st i a) n).emitted = (getNode st n).emitted := by
  by_cases h : n = i <;> simp [setAddress, updNode, getNode, h]

@[simp] theorem bodies_emitI (st : EmitState) (k : IRK) (ty : CType) :
    (emitI st k ty).bodies = st.bodies := rfl

@[simp] theorem bodies_noteEv (st : EmitState) (k : IRK) :
    (noteEv st k).bodies = st.bodies := rfl

@[simp] theorem bodies_setInstType (st : EmitState) (i : Nat) (t : CType) :
    (setInstType st i t).bodies = st.bodies := rfl

@[simp] theorem bodies_allocBlocks (st : EmitState) (k : Nat) :
    (allocBlocks st k).bodies = st.bodies := rfl

@[simp] theorem bodies_attach (st : EmitState) (b : Nat) :
    (attach st b).bodies = st.bodies := rfl

@[simp] theorem bodies_fail (st : EmitState) :
    (fail st).bodies = st.bodies := rfl

@[simp] theorem bodies_ir_branch (st : EmitState) (b : Nat) :
    (ir_branch st b).bodies = st.bodies := rfl

@[simp] theorem bodies_ir_branch_conditional (st : EmitState)
    (c : Option Nat) (t e : Nat) :
    (ir_branch_conditional st c t e).bodies = st.bodies := rfl

@[simp] theorem bodies_ir_return (st : EmitState) (v : Option Nat) :
    (ir_return st v).bodies = st.bodies := rfl

@[simp] theorem bodies_setIr (st : EmitState) (i : Nat) (r : Option Nat) :
    (setIr st i r).bodies = st.bodies := rfl

@[simp] theorem bodies_setAddress (st : EmitState) (i : Nat)
    (a : Option Nat) : (setAddress st i a).bodies = st.bodies := rfl

end Codegen

namespace Codegen

/-- A state step that changes no `emitted` flag and leaves the body log
alone preserves the three emission invariants: `emitted` monotonicity,
every logged body marked, and a duplicate-free body log. -/
theorem cg_keep_of_em_eq (st st' : EmitState)
    (h1 : ∀ n, (getNode st' n).emitted = (getNode st n).emitted)
    (h2 : st'.bodies = st.bodies) :
    (∀ n, (getNode st n).emitted = true → (getNode st' n).emitted = true) ∧
    ((∀ n ∈ st.bodies, (getNode st n).emitted = true) →
      ∀ n ∈ st'.bodies, (getNode st' n).emitted = true) ∧
    ((∀ n ∈ st.bodies, (getNode st n).emitted = true) → st.bodies.Nodup →
      st'.bodies.Nodup) := by
  refine ⟨fun n h => by rw [h1]; exact h, fun ha n hn => ?_,
    fun _ hd => h2 ▸ hd⟩
  rw [h1]
  exact ha n (h2 ▸ hn)

theorem cg_keep_trans (a b c : EmitState)
    (h1 : (∀ n, (getNode a n).emitted = true →
        (getNode b n).emitted = true) ∧
      ((∀ n ∈ a.bodies, (getNode a n).emitted = true) →
        ∀ n ∈ b.bodies, (getNode b n).emitted = true) ∧
      ((∀ n ∈ a.bodies, (getNode a n).emitted = true) → a.bodies.Nodup →
        b.bodies.Nodup))
    (h2 : (∀ n, (getNode b n).emitted = true →
        (getNode c n).emitted = true) ∧
      ((∀ n ∈ b.bodies, (getNode b n).emitted = true) →
        ∀ n ∈ c.bodies, (getNode c n).emitted = true) ∧
      ((∀ n ∈ b.bodies, (getNode b n).emitted = true) → b.bodies.Nodup →
        c.bodies.Nodup)) :
    (∀ n, (getNode a n).emitted = true → (getNode c n).emitted = true) ∧
    ((∀ n ∈ a.bodies, (getNode a n).emitted = true) →
      ∀ n ∈ c.bodies, (getNode c n).emitted = true) ∧
    ((∀ n ∈ a.bodies, (getNode a n).emitted = true) → a.bodies.Nodup →
      c.bodies.Nodup) :=
  ⟨fun n h => h2.1 n (h1.1 n h),
   fun ha => h2.2.1 (h1.2.1 ha),
   fun ha hd => h2.2.2 (h1.2.1 ha) (h1.2.2 ha hd)⟩

/-- Marking a not-yet-emitted node and logging its body run preserves the
emission invariants. -/
theorem cg_keep_mark_log (st : EmitState) (i : Nat)
    (hg : (getNode st i).emitted = false) :
    (∀ n, (getNode st n).emitted = true →
      (getNode (logBody (markEmitted st i) i) n).emitted = true) ∧
    ((∀ n ∈ st.bodies, (getNode st n).emitted = true) →
      ∀ n ∈ (logBody (markEmitted st i) i).bodies,
        (getNode (logBody (markEmitted st i) i) n).emitted = true) ∧
    ((∀ n ∈ st.bodies, (getNode st n).emitted = true) → st.bodies.Nodup →
      (logBody (markEmitted st i) i).bodies.Nodup) := by
  refine ⟨?_, ?_, ?_⟩
  · intro n h
    by_cases hn : n = i
    · subst hn
      simp [logBody, markEmitted, updNode, getNode]
    · simpa [logBody, markEmitted, updNode, getNode, hn] using h
  · intro ha n hn
    rcases List.mem_append.mp hn with h | h
    · by_cases hni : n = i
      · subst hni
        simp [logBody, markEmitted, updNode, getNode]
      · have hm := ha n h
        simpa [logBody, markEmitted, updNode, getNode, hni] using hm
    · have hni : n = i := by simpa using h
      subst hni
      simp [logBody, markEmitted, updNode, getNode]
  · intro ha hd
    have hni : i ∉ st.bodies := by
      intro hmem
      have hc := ha i hmem
      rw [hg] at hc
      cases hc
    have hb : (logBody (markEmitted st i) i).bodies = st.bodies ++ [i] := rfl
    rw [hb, List.nodup_append]
    refine ⟨hd, List.nodup_singleton i, ?_⟩
    intro x hx hxs
    have hxi : x = i := by simpa using hxs
    subst hxi
    exact hni hx

theorem cg_keep_foldl {β : Type} (f : EmitState → β → EmitState)
    (hf : ∀ s c, (∀ n, (getNode s n).emitted = true →
        (getNode (f s c) n).emitted = true) ∧
      ((∀ n ∈ s.bodies, (getNode s n).emitted = true) →
        ∀ n ∈ (f s c).bodies, (getNode (f s c) n).emitted = true) ∧
      ((∀ n ∈ s.bodies, (getNode s n).emitted = true) → s.bodies.Nodup →
        (f s c).bodies.Nodup)) :
    ∀ (l : List β) (s : EmitState),
      (∀ n, (getNode s n).emitted = true →
        (getNode (l.foldl f s) n).emitted = true) ∧
      ((∀ n ∈ s.bodies, (getNode s n).emitted = true) →
        ∀ n ∈ (l.foldl f s).bodies,
          (getNode (l.foldl f s) n).emitted = true) ∧
      ((∀ n ∈ s.bodies, (getNode s n).emitted = true) → s.bodies.Nodup →
        (l.foldl f s).bodies.Nodup)
  | [], s => cg_keep_of_em_eq _ _ (fun _ => rfl) rfl
  | c :: rest, s =>
    cg_keep_trans _ _ _ (hf s c) (cg_keep_foldl f hf rest (f s c))

theorem cg_keep_foldl_fst {α β : Type}
    (f : EmitState × α → β → EmitState × α)
    (hf : ∀ p c, (∀ n, (getNode p.1 n).emitted = true →
        (getNode (f p c).1 n).emitted = true) ∧
      ((∀ n ∈ p.1.bodies, (getNode p.1 n).emitted = true) →
        ∀ n ∈ (f p c).1.bodies, (getNode (f p c).1 n).emitted = true) ∧
      ((∀ n ∈ p.1.bodies, (getNode p.1 n).emitted = true) →
        p.1.bodies.Nodup → (f p c).1.bodies.Nodup)) :
    ∀ (l : List β) (p : EmitState × α),
      (∀ n, (getNode p.1 n).emitted = true →
        (getNode (l.foldl f p).1 n).emitted = true) ∧
      ((∀ n ∈ p.1.bodies, (getNode p.1 n).emitted = true) →
        ∀ n ∈ (l.foldl f p).1.bodies,
          (getNode (l.foldl f p).1 n).emitted = true) ∧
      ((∀ n ∈ p.1.bodies, (getNode p.1 n).emitted = true) →
        p.1.bodies.Nodup → (l.foldl f p).1.bodies.Nodup)
  | [], p => cg_keep_of_em_eq _ _ (fun _ => rfl) rfl
  | c :: rest, p =>
    cg_keep_trans _ _ _ (hf p c) (cg_keep_foldl_fst f hf rest (f p c))

end Codegen

namespace Codegen

theorem cg_keep_congr_right (a c c' : EmitState)
    (h1 : ∀ n, (getNode c n).emitted = (getNode c' n).emitted)
    (h2 : c.bodies = c'.bodies)
    (h : (∀ n, (getNode a n).emitted = true →
        (getNode c' n).emitted = true) ∧
      ((∀ n ∈ a.bodies, (getNode a n).emitted = true) →
        ∀ n ∈ c'.bodies, (getNode c' n).emitted = true) ∧
      ((∀ n ∈ a.bodies, (getNode a n).emitted = true) → a.bodies.Nodup →
        c'.bodies.Nodup)) :
    (∀ n, (getNode a n).emitted = true → (getNode c n).emitted = true) ∧
    ((∀ n ∈ a.bodies, (getNode a n).emitted = true) →
      ∀ n ∈ c.bodies, (getNode c n).emitted = true) ∧
    ((∀ n ∈ a.bodies, (getNode a n).emitted = true) → a.bodies.Nodup →
      c.bodies.Nodup) :=
  cg_keep_trans a c' c h (cg_keep_of_em_eq c' c h1 h2)

theorem cg_keep_refl (a : EmitState) :
    (∀ n, (getNode a n).emitted = true → (getNode a n).emitted = true) ∧
    ((∀ n ∈ a.bodies, (getNode a n).emitted = true) →
      ∀ n ∈ a.bodies, (getNode a n).emitted = true) ∧
    ((∀ n ∈ a.bodies, (getNode a n).emitted = true) → a.bodies.Nodup →
      a.bodies.Nodup) :=
  cg_keep_of_em_eq a a (fun _ => rfl) rfl

end Codegen

namespace Codegen

theorem cg_peel_emitI (a s : EmitState) (k : IRK) (t : CType)
    (h : (∀ n, (getNode a n).emitted = true → (getNode s n).emitted = true) ∧
    ((∀ n ∈ (a).bodies, (getNode a n).emitted = true) →
      ∀ n ∈ (s).bodies, (getNode s n).emitted = true) ∧
    ((∀ n ∈ (a).bodies, (getNode a n).emitted = true) → (a).bodies.Nodup →
      (s).bodies.Nodup)) :
    (∀ n, (getNode a n).emitted = true → (getNode (emitI s k t) n).emitted = true) ∧
    ((∀ n ∈ (a).bodies, (getNode a n).emitted = true) →
      ∀ n ∈ ((emitI s k t)).bodies, (getNode (emitI s k t) n).emitted = true) ∧
    ((∀ n ∈ (a).bodies, (getNode a n).emitted = true) → (a).bodies.Nodup →
      ((emitI s k t)).bodies.Nodup) :=
  cg_keep_congr_right a (emitI s k t) s (fun n => by simp) (by simp) h

theorem cg_peel_noteEv (a s : EmitState) (k : IRK)
    (h : (∀ n, (getNode a n).emitted = true → (getNode s n).emitted = true) ∧
    ((∀ n ∈ (a).bodies, (getNode a n).emitted = true) →
      ∀ n ∈ (s).bodies, (getNode s n).emitted = true) ∧
    ((∀ n ∈ (a).bodies, (getNode a n).emitted = true) → (a).bodies.Nodup →
      (s).bodies.Nodup)) :
    (∀ n, (getNode a n).emitted = true → (getNode (noteEv s k) n).emitted = true) ∧
    ((∀ n ∈ (a).bodies, (getNode a n).emitted = true) →
      ∀ n ∈ ((noteEv s k)).bodies, (getNode (noteEv s k) n).emitted = true) ∧
    ((∀ n ∈ (a).bodies, (getNode a n).emitted = true) → (a).bodies.Nodup →
      ((noteEv s k)).bodies.Nodup) :=
  cg_keep_congr_right a (noteEv s k) s (fun n => by simp) (by simp) h

theorem cg_peel_setInstType (a s : EmitState) (i : Nat) (t : CType)
    (h : (∀ n, (getNode a n).emitted = true → (getNode s n).emitted = true) ∧
    ((∀ n ∈ (a).bodies, (getNode a n).emitted = true) →
      ∀ n ∈ (s).bodies, (getNode s n).emitted = true) ∧
    ((∀ n ∈ (a).bodies, (getNode a n).emitted = true) → (a).bodies.Nodup →
      (s).bodies.Nodup)) :
    (∀ n, (getNode a n).emitted = true → (getNode (setInstType s i t) n).emitted = true) ∧
    ((∀ n ∈ (a).bodies, (getNode a n).emitted = true) →
      ∀ n ∈ ((setInstType s i t)).bodies, (getNode (setInstType s i t) n).emitted = true) ∧
    ((∀ n ∈ (a).bodies, (getNode a n).emitted = true) → (a).bodies.Nodup →
      ((setInstType s i t)).bodies.Nodup) :=
  cg_keep_congr_right a (setInstType s i t) s (fun n => by simp) (by simp) h

theorem cg_peel_allocBlocks (a s : EmitState) (k : Nat)
    (h : (∀ n, (getNode a n).emitted = true → (getNode s n).emitted = true) ∧
    ((∀ n ∈ (a).bodies, (getNode a n).emitted = true) →
      ∀ n ∈ (s).bodies, (getNode s n).emitted = true) ∧
    ((∀ n ∈ (a).bodies, (getNode a n).emitted = true) → (a).bodies.Nodup →
      (s).bodies.Nodup)) :
    (∀ n, (getNode a n).emitted = true → (getNode (allocBlocks s k) n).emitted = true) ∧
    ((∀ n ∈ (a).bodies, (getNode a n).emitted = true) →
      ∀ n ∈ ((allocBlocks s k)).bodies, (getNode (allocBlocks s k) n).emitted = true) ∧
    ((∀ n ∈ (a).bodies, (getNode a n).emitted = true) → (a).bodies.Nodup →
      ((allocBlocks s k)).bodies.Nodup) :=
  cg_keep_congr_right a (allocBlocks s k) s (fun n => by simp) (by simp) h

theorem cg_peel_attach (a s : EmitState) (b : Nat)
    (h : (∀ n, (getNode a n).emitted = true → (getNode s n).emitted = true) ∧
    ((∀ n ∈ (a).bodies, (getNode a n).emitted = true) →
      ∀ n ∈ (s).bodies, (getNode s n).emitted = true) ∧
    ((∀ n ∈ (a).bodies, (getNode a n).emitted = true) → (a).bodies.Nodup →
      (s).bodies.Nodup)) :
    (∀ n, (getNode a n).emitted = true → (getNode (attach s b) n).emitted = true) ∧
    ((∀ n ∈ (a).bodies, (getNode a n).emitted = true) →
      ∀ n ∈ ((attach s b)).bodies, (getNode (attach s b) n).emitted = true) ∧
    ((∀ n ∈ (a).bodies, (getNode a n).emitted = true) → (a).bodies.Nodup →
      ((attach s b)).bodies.Nodup) :=
  cg_keep_congr_right a (attach s b) s (fun n => by simp) (by simp) h

theorem cg_peel_fail (a s : EmitState)
    (h : (∀ n, (getNode a n).emitted = true → (getNode s n).emitted = true) ∧
    ((∀ n ∈ (a).bodies, (getNode a n).emitted = true) →
      ∀ n ∈ (s).bodies, (getNode s n).emitted = true) ∧
    ((∀ n ∈ (a).bodies, (getNode a n).emitted = true) → (a).bodies.Nodup →
      (s).bodies.Nodup)) :
    (∀ n, (getNode a n).emitted = true → (getNode (fail s) n).emitted = true) ∧
    ((∀ n ∈ (a).bodies, (getNode a n).emitted = true) →
      ∀ n ∈ ((fail s)).bodies, (getNode (fail s) n).emitted = true) ∧
    ((∀ n ∈ (a).bodies, (getNode a n).emitted = true) → (a).bodies.Nodup →
      ((fail s)).bodies.Nodup) :=
  cg_keep_congr_right a (fail s) s (fun n => by simp) (by simp) h

theorem cg_peel_ir_branch (a s : EmitState) (b : Nat)
    (h : (∀ n, (getNode a n).emitted = true → (getNode s n).emitted = true) ∧
    ((∀ n ∈ (a).bodies, (getNode a n).emitted = true) →
      ∀ n ∈ (s).bodies, (getNode s n).emitted = true) ∧
    ((∀ n ∈ (a).bodies, (getNode a n).emitted = true) → (a).bodies.Nodup →
      (s).bodies.Nodup)) :
    (∀ n, (getNode a n).emitted = true → (getNode (ir_branch s b) n).emitted = true) ∧
    ((∀ n ∈ (a).bodies, (getNode a n).emitted = true) →
      ∀ n ∈ ((ir_branch s b)).bodies, (getNode (ir_branch s b) n).emitted = true) ∧
    ((∀ n ∈ (a).bodies, (getNode a n).emitted = true) → (a).bodies.Nodup →
      ((ir_branch s b)).bodies.Nodup) :=
  cg_keep_congr_right a (ir_branch s b) s (fun n => by simp) (by simp) h

theorem cg_peel_ir_branch_conditional (a s : EmitState) (c : Option Nat) (t e : Nat)
    (h : (∀ n, (getNode a n).emitted = true → (getNode s n).emitted = true) ∧
    ((∀ n ∈ (a).bodies, (getNode a n).emitted = true) →
      ∀ n ∈ (s).bodies, (getNode s n).emitted = true) ∧
    ((∀ n ∈ (a).bodies, (getNode a n).emitted = true) → (a).bodies.Nodup →
      (s).bodies.Nodup)) :
    (∀ n, (getNode a n).emitted = true → (getNode (ir_branch_conditional s c t e) n).emitted = true) ∧
    ((∀ n ∈ (a).bodies, (getNode a n).emitted = true) →
      ∀ n ∈ ((ir_branch_conditional s c t e)).bodies, (getNode (ir_branch_conditional s c t e) n).emitted = true) ∧
    ((∀ n ∈ (a).bodies, (getNode a n).emitted = true) → (a).bodies.Nodup →
      ((ir_branch_conditional s c t e)).bodies.Nodup) :=
  cg_keep_congr_right a (ir_branch_conditional s c t e) s (fun n => by simp) (by simp) h

theorem cg_peel_ir_return (a s : EmitState) (v : Option Nat)
    (h : (∀ n, (getNode a n).emitted = true → (getNode s n).emitted = true) ∧
    ((∀ n ∈ (a).bodies, (getNode a n).emitted = true) →
      ∀ n ∈ (s).bodies, (getNode s n).emitted = true) ∧
    ((∀ n ∈ (a).bodies, (getNode a n).emitted = true) → (a).bodies.Nodup →
      (s).bodies.Nodup)) :
    (∀ n, (getNode a n).emitted = true → (getNode (ir_return s v) n).emitted = true) ∧
    ((∀ n ∈ (a).bodies, (getNode a n).emitted = true) →
      ∀ n ∈ ((ir_return s v)).bodies, (getNode (ir_return s v) n).emitted = true) ∧
    ((∀ n ∈ (a).bodies, (getNode a n).emitted = true) → (a).bodies.Nodup →
      ((ir_return s v)).bodies.Nodup) :=
  cg_keep_congr_right a (ir_return s v) s (fun n => by simp) (by simp) h

theorem cg_peel_setIr (a s : EmitState) (i : Nat) (r : Option Nat)
    (h : (∀ n, (getNode a n).emitted = true → (getNode s n).emitted = true) ∧
    ((∀ n ∈ (a).bodies, (getNode a n).emitted = true) →
      ∀ n ∈ (s).bodies, (getNode s n).emitted = true) ∧
    ((∀ n ∈ (a).bodies, (getNode a n).emitted = true) → (a).bodies.Nodup →
      (s).bodies.Nodup)) :
    (∀ n, (getNode a n).emitted = true → (getNode (setIr s i r) n).emitted = true) ∧
    ((∀ n ∈ (a).bodies, (getNode a n).emitted = true) →
      ∀ n ∈ ((setIr s i r)).bodies, (getNode (setIr s i r) n).emitted = true) ∧
    ((∀ n ∈ (a).bodies, (getNode a n).emitted = true) → (a).bodies.Nodup →
      ((setIr s i r)).bodies.Nodup) :=
  cg_keep_congr_right a (setIr s i r) s (fun n => by simp) (by simp) h

theorem cg_peel_setAddress (a s : EmitState) (i : Nat) (r : Option Nat)
    (h : (∀ n, (getNode a n).emitted = true → (getNode s n).emitted = true) ∧
    ((∀ n ∈ (a).bodies, (getNode a n).emitted = true) →
      ∀ n ∈ (s).bodies, (getNode s n).emitted = true) ∧
    ((∀ n ∈ (a).bodies, (getNode a n).emitted = true) → (a).bodies.Nodup →
      (s).bodies.Nodup)) :
    (∀ n, (getNode a n).emitted = true → (getNode (setAddress s i r) n).emitted = true) ∧
    ((∀ n ∈ (a).bodies, (getNode a n).emitted = true) →
      ∀ n ∈ ((setAddress s i r)).bodies, (getNode (setAddress s i r) n).emitted = true) ∧
    ((∀ n ∈ (a).bodies, (getNode a n).emitted = true) → (a).bodies.Nodup →
      ((setAddress s i r)).bodies.Nodup) :=
  cg_keep_congr_right a (setAddress s i r) s (fun n => by simp) (by simp) h

end Codegen

namespace Codegen

/-- Entering a `codegen_expr` body: the mark-and-log step composed with
the body's invariant preservation; the node itself ends up marked. -/
theorem cg_keep_step (st0 : EmitState) (e : Nat) (c : EmitState)
    (hg : (getNode st0 e).emitted = false)
    (K : (∀ n, (getNode (logBody (markEmitted st0 e) e) n).emitted = true →
        (getNode (c) n).emitted = true) ∧
      ((∀ n ∈ (logBody (markEmitted st0 e) e).bodies, (getNode (logBody (markEmitted st0 e) e) n).emitted = true) →
        ∀ n ∈ (c).bodies,
          (getNode (c) n).emitted = true) ∧
      ((∀ n ∈ (logBody (markEmitted st0 e) e).bodies, (getNode (logBody (markEmitted st0 e) e) n).emitted = true) → (logBody (markEmitted st0 e) e).bodies.Nodup →
        (c).bodies.Nodup)) :
    ((∀ n, (getNode st0 n).emitted = true →
        (getNode (c) n).emitted = true) ∧
      ((∀ n ∈ st0.bodies, (getNode st0 n).emitted = true) →
        ∀ n ∈ (c).bodies,
          (getNode (c) n).emitted = true) ∧
      ((∀ n ∈ st0.bodies, (getNode st0 n).emitted = true) → st0.bodies.Nodup →
        (c).bodies.Nodup)) ∧
    (getNode c e).emitted = true :=
  ⟨cg_keep_trans st0 (logBody (markEmitted st0 e) e) c
      (cg_keep_mark_log st0 e hg) K,
    K.1 e (by simp [logBody, markEmitted, updNode, getNode])⟩

/-- The shared subscript continuation (the fall-through tail of the
`TK_LBRACK` case): from any pair `q` of state and subscript base id, it
preserves the emission invariants. -/
theorem cg_subs_tail (m : Nat)
    (ihE : ∀ st e, (∀ n, (getNode st n).emitted = true →
        (getNode (codegen_expr m st e) n).emitted = true) ∧
      ((∀ n ∈ st.bodies, (getNode st n).emitted = true) →
        ∀ n ∈ (codegen_expr m st e).bodies,
          (getNode (codegen_expr m st e) n).emitted = true) ∧
      ((∀ n ∈ st.bodies, (getNode st n).emitted = true) → st.bodies.Nodup →
        (codegen_expr m st e).bodies.Nodup))
    (a : EmitState) (q : EmitState × Nat) (exprId rhs lhs : Nat)
    (h : (∀ n, (getNode a n).emitted = true →
        (getNode (q.1) n).emitted = true) ∧
      ((∀ n ∈ a.bodies, (getNode a n).emitted = true) →
        ∀ n ∈ (q.1).bodies,
          (getNode (q.1) n).emitted = true) ∧
      ((∀ n ∈ a.bodies, (getNode a n).emitted = true) → a.bodies.Nodup →
        (q.1).bodies.Nodup)) :
    (∀ n, (getNode a n).emitted = true →
        (getNode ((if (match (getNode q.1 rhs).data with
           | .LITERAL .NUMBER k _ _ => decide (k = 0)
           | _ => false) then
         setIr q.1 exprId (some q.2)
       else
         let s3 := codegen_expr m q.1 rhs
         let q2 : EmitState × Nat :=
           if type_is_array (getNode s3 lhs).type then
             let im := freshInst s3
             let sa := emitI s3
               (.imm (type_sizeof (CType.elem
                 (getNode s3 lhs).type))) t_integer
             (emitI sa (.mul (getNode sa rhs).ir (some im))
               t_integer, freshInst sa)
           else
             let im := freshInst s3
             let sa := emitI s3
               (.imm (type_sizeof (CType.pointee
                 (getNode s3 lhs).type))) t_integer
             (emitI sa (.mul (getNode sa rhs).ir (some im))
               t_integer, freshInst sa)
         let r2 := freshInst q2.1
         setIr (emitI q2.1 (.add (some q.2) (some q2.2)) t_integer)
           exprId (some r2))) n).emitted = true) ∧
      ((∀ n ∈ a.bodies, (getNode a n).emitted = true) →
        ∀ n ∈ ((if (match (getNode q.1 rhs).data with
           | .LITERAL .NUMBER k _ _ => decide (k = 0)
           | _ => false) then
         setIr q.1 exprId (some q.2)
       else
         let s3 := codegen_expr m q.1 rhs
         let q2 : EmitState × Nat :=
           if type_is_array (getNode s3 lhs).type then
             let im := freshInst s3
             let sa := emitI s3
               (.imm (type_sizeof (CType.elem
                 (getNode s3 lhs).type))) t_integer
             (emitI sa (.mul (getNode sa rhs).ir (some im))
               t_integer, freshInst sa)
           else
             let im := freshInst s3
             let sa := emitI s3
               (.imm (type_sizeof (CType.pointee
                 (getNode s3 lhs).type))) t_integer
             (emitI sa (.mul (getNode sa rhs).ir (some im))
               t_integer, freshInst sa)
         let r2 := freshInst q2.1
         setIr (emitI q2.1 (.add (some q.2) (some q2.2)) t_integer)
           exprId (some r2))).bodies,
          (getNode ((if (match (getNode q.1 rhs).data with
           | .LITERAL .NUMBER k _ _ => decide (k = 0)
           | _ => false) then
         setIr q.1 exprId (some q.2)
       else
         let s3 := codegen_expr m q.1 rhs
         let q2 : EmitState × Nat :=
           if type_is_array (getNode s3 lhs).type then
             let im := freshInst s3
             let sa := emitI s3
               (.imm (type_sizeof (CType.elem
                 (getNode s3 lhs).type))) t_integer
             (emitI sa (.mul (getNode sa rhs).ir (some im))
               t_integer, freshInst sa)
           else
             let im := freshInst s3
             let sa := emitI s3
               (.imm (type_sizeof (CType.pointee
                 (getNode s3 lhs).type))) t_integer
             (emitI sa (.mul (getNode sa rhs).ir (some im))
               t_integer, freshInst sa)
         let r2 := freshInst q2.1
         setIr (emitI q2.1 (.add (some q.2) (some q2.2)) t_integer)
           exprId (some r2))) n).emitted = true) ∧
      ((∀ n ∈ a.bodies, (getNode a n).emitted = true) → a.bodies.Nodup →
        ((if (match (getNode q.1 rhs).data with
           | .LITERAL .NUMBER k _ _ => decide (k = 0)
           | _ => false) then
         setIr q.1 exprId (some q.2)
       else
         let s3 := codegen_expr m q.1 rhs
         let q2 : EmitState × Nat :=
           if type_is_array (getNode s3 lhs).type then
             let im := freshInst s3
             let sa := emitI s3
               (.imm (type_sizeof (CType.elem
                 (getNode s3 lhs).type))) t_integer
             (emitI sa (.mul (getNode sa rhs).ir (some im))
               t_integer, freshInst sa)
           else
             let im := freshInst s3
             let sa := emitI s3
               (.imm (type_sizeof (CType.pointee
                 (getNode s3 lhs).type))) t_integer
             (emitI sa (.mul (getNode sa rhs).ir (some im))
               t_integer, freshInst sa)
         let r2 := freshInst q2.1
         setIr (emitI q2.1 (.add (some q.2) (some q2.2)) t_integer)
           exprId (some r2))).bodies.Nodup) := by
  split
  · exact cg_peel_setIr _ _ _ _ h
  · dsimp only
    split <;>
      exact cg_peel_setIr _ _ _ _ (cg_peel_emitI _ _ _ _
        (cg_peel_emitI _ _ _ _ (cg_peel_emitI _ _ _ _
          (cg_keep_trans _ _ _ h (ihE _ _)))))

/-- The subscript continuation together with the preceding
pointer-to-array copy adjustment. -/
theorem cg_subs_q (m : Nat)
    (ihE : ∀ st e, (∀ n, (getNode st n).emitted = true →
        (getNode (codegen_expr m st e) n).emitted = true) ∧
      ((∀ n ∈ st.bodies, (getNode st n).emitted = true) →
        ∀ n ∈ (codegen_expr m st e).bodies,
          (getNode (codegen_expr m st e) n).emitted = true) ∧
      ((∀ n ∈ st.bodies, (getNode st n).emitted = true) → st.bodies.Nodup →
        (codegen_expr m st e).bodies.Nodup))
    (a : EmitState) (base : EmitState) (bid : Nat) (exprId rhs lhs : Nat)
    (h : (∀ n, (getNode a n).emitted = true →
        (getNode (base) n).emitted = true) ∧
      ((∀ n ∈ a.bodies, (getNode a n).emitted = true) →
        ∀ n ∈ (base).bodies,
          (getNode (base) n).emitted = true) ∧
      ((∀ n ∈ a.bodies, (getNode a n).emitted = true) → a.bodies.Nodup →
        (base).bodies.Nodup)) :
    (∀ n, (getNode a n).emitted = true →
        (getNode ((let q : EmitState × Nat :=
         if type_is_pointer (instType base bid) &&
             type_is_array (CType.pointee (instType base bid)) then
           let cp := freshInst base
           let sa := emitI base (.copy (some bid))
             (instType base bid)
           let sb := setInstType sa cp
             (CType.pointer (CType.elem (CType.pointee
               (instType base bid))))
           (noteEv sb (.insert_inst cp), cp)
         else (base, bid)
       (if (match (getNode q.1 rhs).data with
           | .LITERAL .NUMBER k _ _ => decide (k = 0)
           | _ => false) then
         setIr q.1 exprId (some q.2)
       else
         let s3 := codegen_expr m q.1 rhs
         let q2 : EmitState × Nat :=
           if type_is_array (getNode s3 lhs).type then
             let im := freshInst s3
             let sa := emitI s3
               (.imm (type_sizeof (CType.elem
                 (getNode s3 lhs).type))) t_integer
             (emitI sa (.mul (getNode sa rhs).ir (some im))
               t_integer, freshInst sa)
           else
             let im := freshInst s3
             let sa := emitI s3
               (.imm (type_sizeof (CType.pointee
                 (getNode s3 lhs).type))) t_integer
             (emitI sa (.mul (getNode sa rhs).ir (some im))
               t_integer, freshInst sa)
         let r2 := freshInst q2.1
         setIr (emitI q2.1 (.add (some q.2) (some q2.2)) t_integer)
           exprId (some r2)))) n).emitted = true) ∧
      ((∀ n ∈ a.bodies, (getNode a n).emitted = true) →
        ∀ n ∈ ((let q : EmitState × Nat :=
         if type_is_pointer (instType base bid) &&
             type_is_array (CType.pointee (instType base bid)) then
           let cp := freshInst base
           let sa := emitI base (.copy (some bid))
             (instType base bid)
           let sb := setInstType sa cp
             (CType.pointer (CType.elem (CType.pointee
               (instType base bid))))
           (noteEv sb (.insert_inst cp), cp)
         else (base, bid)
       (if (match (getNode q.1 rhs).data with
           | .LITERAL .NUMBER k _ _ => decide (k = 0)
           | _ => false) then
         setIr q.1 exprId (some q.2)
       else
         let s3 := codegen_expr m q.1 rhs
         let q2 : EmitState × Nat :=
           if type_is_array (getNode s3 lhs).type then
             let im := freshInst s3
             let sa := emitI s3
               (.imm (type_sizeof (CType.elem
                 (getNode s3 lhs).type))) t_integer
             (emitI sa (.mul (getNode sa rhs).ir (some im))
               t_integer, freshInst sa)
           else
             let im := freshInst s3
             let sa := emitI s3
               (.imm (type_sizeof (CType.pointee
                 (getNode s3 lhs).type))) t_integer
             (emitI sa (.mul (getNode sa rhs).ir (some im))
               t_integer, freshInst sa)
         let r2 := freshInst q2.1
         setIr (emitI q2.1 (.add (some q.2) (some q2.2)) t_integer)
           exprId (some r2)))).bodies,
          (getNode ((let q : EmitState × Nat :=
         if type_is_pointer (instType base bid) &&
             type_is_array (CType.pointee (instType base bid)) then
           let cp := freshInst base
           let sa := emitI base (.copy (some bid))
             (instType base bid)
           let sb := setInstType sa cp
             (CType.pointer (CType.elem (CType.pointee
               (instType base bid))))
           (noteEv sb (.insert_inst cp), cp)
         else (base, bid)
       (if (match (getNode q.1 rhs).data with
           | .LITERAL .NUMBER k _ _ => decide (k = 0)
           | _ => false) then
         setIr q.1 exprId (some q.2)
       else
         let s3 := codegen_expr m q.1 rhs
         let q2 : EmitState × Nat :=
           if type_is_array (getNode s3 lhs).type then
             let im := freshInst s3
             let sa := emitI s3
               (.imm (type_sizeof (CType.elem
                 (getNode s3 lhs).type))) t_integer
             (emitI sa (.mul (getNode sa rhs).ir (some im))
               t_integer, freshInst sa)
           else
             let im := freshInst s3
             let sa := emitI s3
               (.imm (type_sizeof (CType.pointee
                 (getNode s3 lhs).type))) t_integer
             (emitI sa (.mul (getNode sa rhs).ir (some im))
               t_integer, freshInst sa)
         let r2 := freshInst q2.1
         setIr (emitI q2.1 (.add (some q.2) (some q2.2)) t_integer)
           exprId (some r2)))) n).emitted = true) ∧
      ((∀ n ∈ a.bodies, (getNode a n).emitted = true) → a.bodies.Nodup →
        ((let q : EmitState × Nat :=
         if type_is_pointer (instType base bid) &&
             type_is_array (CType.pointee (instType base bid)) then
           let cp := freshInst base
           let sa := emitI base (.copy (some bid))
             (instType base bid)
           let sb := setInstType sa cp
             (CType.pointer (CType.elem (CType.pointee
               (instType base bid))))
           (noteEv sb (.insert_inst cp), cp)
         else (base, bid)
       (if (match (getNode q.1 rhs).data with
           | .LITERAL .NUMBER k _ _ => decide (k = 0)
           | _ => false) then
         setIr q.1 exprId (some q.2)
       else
         let s3 := codegen_expr m q.1 rhs
         let q2 : EmitState × Nat :=
           if type_is_array (getNode s3 lhs).type then
             let im := freshInst s3
             let sa := emitI s3
               (.imm (type_sizeof (CType.elem
                 (getNode s3 lhs).type))) t_integer
             (emitI sa (.mul (getNode sa rhs).ir (some im))
               t_integer, freshInst sa)
           else
             let im := freshInst s3
             let sa := emitI s3
               (.imm (type_sizeof (CType.pointee
                 (getNode s3 lhs).type))) t_integer
             (emitI sa (.mul (getNode sa rhs).ir (some im))
               t_integer, freshInst sa)
         let r2 := freshInst q2.1
         setIr (emitI q2.1 (.add (some q.2) (some q2.2)) t_integer)
           exprId (some r2)))).bodies.Nodup) := by
  refine cg_subs_tail m ihE a _ exprId rhs lhs ?_
  cases hc : (type_is_pointer (instType base bid) &&
      type_is_array (CType.pointee (instType base bid))) with
  | false => exact h
  | true =>
    exact cg_peel_noteEv _ _ _ (cg_peel_setInstType _ _ _ _
      (cg_peel_emitI _ _ _ _ h))

set_option maxHeartbeats 2000000 in
/-- The `NODE_BINARY` arm of `codegen_expr` preserves the emission
invariants. -/
theorem cg_step_binary (m : Nat)
    (ihE : ∀ st e, (∀ n, (getNode st n).emitted = true →
        (getNode (codegen_expr m st e) n).emitted = true) ∧
      ((∀ n ∈ st.bodies, (getNode st n).emitted = true) →
        ∀ n ∈ (codegen_expr m st e).bodies,
          (getNode (codegen_expr m st e) n).emitted = true) ∧
      ((∀ n ∈ st.bodies, (getNode st n).emitted = true) → st.bodies.Nodup →
        (codegen_expr m st e).bodies.Nodup))
    (ihL : ∀ st l, (∀ n, (getNode st n).emitted = true →
        (getNode (codegen_lvalue m st l) n).emitted = true) ∧
      ((∀ n ∈ st.bodies, (getNode st n).emitted = true) →
        ∀ n ∈ (codegen_lvalue m st l).bodies,
          (getNode (codegen_lvalue m st l) n).emitted = true) ∧
      ((∀ n ∈ st.bodies, (getNode st n).emitted = true) → st.bodies.Nodup →
        (codegen_lvalue m st l).bodies.Nodup))
    (aSt : EmitState) (exprId lhs rhs : Nat) (op : Tok) :
    (∀ n, (getNode aSt n).emitted = true →
        (getNode (
       if decide (op = Tok.COLON_EQ) then
         let st1 := codegen_expr m aSt rhs
         let st2 := codegen_lvalue m st1 lhs
         let r := freshInst st2
         setIr (emitI st2 (.store (getNode st2 rhs).ir
           (getNode st2 lhs).address) .void) exprId (some r)
       else if decide (op = Tok.LBRACK) then
         -- subscript: the C code computes `subs_lhs` in one of several
         -- ways (with early returns) and falls through to shared code;
         -- the shared tail is inlined at each continue-site here.
         if !(type_is_array (getNode aSt lhs).type) &&
             !(type_is_pointer (getNode aSt lhs).type) then
           fail aSt
         else
           match (getNode aSt lhs).data with
           | .VARIABLE_REFERENCE decl =>
             (match (getNode aSt decl).address with
              | some vd =>
                if (match instKind aSt vd with
                    | some .static_ref => true
                    | some .alloca => true
                    | _ => false) then
                  let p0 : EmitState × Nat :=
                    if type_is_pointer (instType aSt vd) &&
                        type_is_pointer (CType.pointee (instType aSt vd))
                    then
                      (emitI aSt (.load (some vd))
                        (CType.pointee (instType aSt vd)), freshInst aSt)
                    else (aSt, vd)
                  let q : EmitState × Nat :=
                                  if type_is_pointer (instType p0.1 p0.2) &&
                                      type_is_array (CType.pointee (instType p0.1 p0.2)) then
                                    let cp := freshInst p0.1
                                    let sa := emitI p0.1 (.copy (some p0.2))
                                      (instType p0.1 p0.2)
                                    let sb := setInstType sa cp
                                      (CType.pointer (CType.elem (CType.pointee
                                        (instType p0.1 p0.2))))
                                    (noteEv sb (.insert_inst cp), cp)
                                  else (p0.1, p0.2)
                                if (match (getNode q.1 rhs).data with
                                    | .LITERAL .NUMBER k _ _ => decide (k = 0)
                                    | _ => false) then
                                  setIr q.1 exprId (some q.2)
                                else
                                  let s3 := codegen_expr m q.1 rhs
                                  let q2 : EmitState × Nat :=
                                    if type_is_array (getNode s3 lhs).type then
                                      let im := freshInst s3
                                      let sa := emitI s3
                                        (.imm (type_sizeof (CType.elem
                                          (getNode s3 lhs).type))) t_integer
                                      (emitI sa (.mul (getNode sa rhs).ir (some im))
                                        t_integer, freshInst sa)
                                    else
                                      let im := freshInst s3
                                      let sa := emitI s3
                                        (.imm (type_sizeof (CType.pointee
                                          (getNode s3 lhs).type))) t_integer
                                      (emitI sa (.mul (getNode sa rhs).ir (some im))
                                        t_integer, freshInst sa)
                                  let r2 := freshInst q2.1
                                  setIr (emitI q2.1 (.add (some q.2) (some q2.2)) t_integer)
                                    exprId (some r2)
                else fail aSt
              | none => fail aSt)
           | _ =>
             if is_lvalue (getNode aSt lhs) then
               let s1 := codegen_lvalue m aSt lhs
               match (getNode s1 lhs).address with
               | some a =>
                 let q : EmitState × Nat :=
                                 if type_is_pointer (instType s1 a) &&
                                     type_is_array (CType.pointee (instType s1 a)) then
                                   let cp := freshInst s1
                                   let sa := emitI s1 (.copy (some a))
                                     (instType s1 a)
                                   let sb := setInstType sa cp
                                     (CType.pointer (CType.elem (CType.pointee
                                       (instType s1 a))))
                                   (noteEv sb (.insert_inst cp), cp)
                                 else (s1, a)
                               if (match (getNode q.1 rhs).data with
                                   | .LITERAL .NUMBER k _ _ => decide (k = 0)
                                   | _ => false) then
                                 setIr q.1 exprId (some q.2)
                               else
                                 let s3 := codegen_expr m q.1 rhs
                                 let q2 : EmitState × Nat :=
                                   if type_is_array (getNode s3 lhs).type then
                                     let im := freshInst s3
                                     let sa := emitI s3
                                       (.imm (type_sizeof (CType.elem
                                         (getNode s3 lhs).type))) t_integer
                                     (emitI sa (.mul (getNode sa rhs).ir (some im))
                                       t_integer, freshInst sa)
                                   else
                                     let im := freshInst s3
                                     let sa := emitI s3
                                       (.imm (type_sizeof (CType.pointee
                                         (getNode s3 lhs).type))) t_integer
                                     (emitI sa (.mul (getNode sa rhs).ir (some im))
                                       t_integer, freshInst sa)
                                 let r2 := freshInst q2.1
                                 setIr (emitI q2.1 (.add (some q.2) (some q2.2)) t_integer)
                                   exprId (some r2)
               | none => fail s1
             else
               match (getNode aSt lhs).data with
               | .LITERAL .STRING _ si _ =>
                 let s1 := codegen_expr m aSt lhs
                 (match (getNode s1 rhs).data with
                  | .LITERAL .NUMBER k _ _ =>
                    if s1.strings.getD si 0 ≤ k then fail s1
                    else if k ≠ 0 then
                      let im := freshInst s1
                      let s2 := emitI s1 (.imm k) t_integer
                      let r := freshInst s2
                      let s3 := emitI s2
                        (.add (getNode s2 lhs).ir (some im)) t_integer
                      setIr s3 exprId (some r)
                    else setIr s1 exprId (getNode s1 lhs).ir
                  | _ =>
                    match (getNode s1 lhs).ir with
                    | some a =>
                      let q : EmitState × Nat :=
                                      if type_is_pointer (instType s1 a) &&
                                          type_is_array (CType.pointee (instType s1 a)) then
                                        let cp := freshInst s1
                                        let sa := emitI s1 (.copy (some a))
                                          (instType s1 a)
                                        let sb := setInstType sa cp
                                          (CType.pointer (CType.elem (CType.pointee
                                            (instType s1 a))))
                                        (noteEv sb (.insert_inst cp), cp)
                                      else (s1, a)
                                    if (match (getNode q.1 rhs).data with
                                        | .LITERAL .NUMBER k _ _ => decide (k = 0)
                                        | _ => false) then
                                      setIr q.1 exprId (some q.2)
                                    else
                                      let s3 := codegen_expr m q.1 rhs
                                      let q2 : EmitState × Nat :=
                                        if type_is_array (getNode s3 lhs).type then
                                          let im := freshInst s3
                                          let sa := emitI s3
                                            (.imm (type_sizeof (CType.elem
                                              (getNode s3 lhs).type))) t_integer
                                          (emitI sa (.mul (getNode sa rhs).ir (some im))
                                            t_integer, freshInst sa)
                                        else
                                          let im := freshInst s3
                                          let sa := emitI s3
                                            (.imm (type_sizeof (CType.pointee
                                              (getNode s3 lhs).type))) t_integer
                                          (emitI sa (.mul (getNode sa rhs).ir (some im))
                                            t_integer, freshInst sa)
                                      let r2 := freshInst q2.1
                                      setIr (emitI q2.1 (.add (some q.2) (some q2.2)) t_integer)
                                        exprId (some r2)
                    | none => fail s1)
               | _ => fail aSt
       else
         let st1 := codegen_expr m aSt lhs
         let st2 := codegen_expr m st1 rhs
         match op with
         | .LT | .LE | .GT | .GE | .EQ | .NE | .PLUS | .MINUS | .STAR
         | .SLASH | .PERCENT | .SHL | .SHR | .AMPERSAND | .PIPE =>
           let r := freshInst st2
           setIr (emitI st2 (.binop op (getNode st2 lhs).ir
             (getNode st2 rhs).ir) (getNode st2 exprId).type) exprId (some r)
         | _ => fail st2) n).emitted = true) ∧
      ((∀ n ∈ aSt.bodies, (getNode aSt n).emitted = true) →
        ∀ n ∈ (
       if decide (op = Tok.COLON_EQ) then
         let st1 := codegen_expr m aSt rhs
         let st2 := codegen_lvalue m st1 lhs
         let r := freshInst st2
         setIr (emitI st2 (.store (getNode st2 rhs).ir
           (getNode st2 lhs).address) .void) exprId (some r)
       else if decide (op = Tok.LBRACK) then
         -- subscript: the C code computes `subs_lhs` in one of several
         -- ways (with early returns) and falls through to shared code;
         -- the shared tail is inlined at each continue-site here.
         if !(type_is_array (getNode aSt lhs).type) &&
             !(type_is_pointer (getNode aSt lhs).type) then
           fail aSt
         else
           match (getNode aSt lhs).data with
           | .VARIABLE_REFERENCE decl =>
             (match (getNode aSt decl).address with
              | some vd =>
                if (match instKind aSt vd with
                    | some .static_ref => true
                    | some .alloca => true
                    | _ => false) then
                  let p0 : EmitState × Nat :=
                    if type_is_pointer (instType aSt vd) &&
                        type_is_pointer (CType.pointee (instType aSt vd))
                    then
                      (emitI aSt (.load (some vd))
                        (CType.pointee (instType aSt vd)), freshInst aSt)
                    else (aSt, vd)
                  let q : EmitState × Nat :=
                                  if type_is_pointer (instType p0.1 p0.2) &&
                                      type_is_array (CType.pointee (instType p0.1 p0.2)) then
                                    let cp := freshInst p0.1
                                    let sa := emitI p0.1 (.copy (some p0.2))
                                      (instType p0.1 p0.2)
                                    let sb := setInstType sa cp
                                      (CType.pointer (CType.elem (CType.pointee
                                        (instType p0.1 p0.2))))
                                    (noteEv sb (.insert_inst cp), cp)
                                  else (p0.1, p0.2)
                                if (match (getNode q.1 rhs).data with
                                    | .LITERAL .NUMBER k _ _ => decide (k = 0)
                                    | _ => false) then
                                  setIr q.1 exprId (some q.2)
                                else
                                  let s3 := codegen_expr m q.1 rhs
                                  let q2 : EmitState × Nat :=
                                    if type_is_array (getNode s3 lhs).type then
                                      let im := freshInst s3
                                      let sa := emitI s3
                                        (.imm (type_sizeof (CType.elem
                                          (getNode s3 lhs).type))) t_integer
                                      (emitI sa (.mul (getNode sa rhs).ir (some im))
                                        t_integer, freshInst sa)
                                    else
                                      let im := freshInst s3
                                      let sa := emitI s3
                                        (.imm (type_sizeof (CType.pointee
                                          (getNode s3 lhs).type))) t_integer
                                      (emitI sa (.mul (getNode sa rhs).ir (some im))
                                        t_integer, freshInst sa)
                                  let r2 := freshInst q2.1
                                  setIr (emitI q2.1 (.add (some q.2) (some q2.2)) t_integer)
                                    exprId (some r2)
                else fail aSt
              | none => fail aSt)
           | _ =>
             if is_lvalue (getNode aSt lhs) then
               let s1 := codegen_lvalue m aSt lhs
               match (getNode s1 lhs).address with
               | some a =>
                 let q : EmitState × Nat :=
                                 if type_is_pointer (instType s1 a) &&
                                     type_is_array (CType.pointee (instType s1 a)) then
                                   let cp := freshInst s1
                                   let sa := emitI s1 (.copy (some a))
                                     (instType s1 a)
                                   let sb := setInstType sa cp
                                     (CType.pointer (CType.elem (CType.pointee
                                       (instType s1 a))))
                                   (noteEv sb (.insert_inst cp), cp)
                                 else (s1, a)
                               if (match (getNode q.1 rhs).data with
                                   | .LITERAL .NUMBER k _ _ => decide (k = 0)
                                   | _ => false) then
                                 setIr q.1 exprId (some q.2)
                               else
                                 let s3 := codegen_expr m q.1 rhs
                                 let q2 : EmitState × Nat :=
                                   if type_is_array (getNode s3 lhs).type then
                                     let im := freshInst s3
                                     let sa := emitI s3
                                       (.imm (type_sizeof (CType.elem
                                         (getNode s3 lhs).type))) t_integer
                                     (emitI sa (.mul (getNode sa rhs).ir (some im))
                                       t_integer, freshInst sa)
                                   else
                                     let im := freshInst s3
                                     let sa := emitI s3
                                       (.imm (type_sizeof (CType.pointee
                                         (getNode s3 lhs).type))) t_integer
                                     (emitI sa (.mul (getNode sa rhs).ir (some im))
                                       t_integer, freshInst sa)
                                 let r2 := freshInst q2.1
                                 setIr (emitI q2.1 (.add (some q.2) (some q2.2)) t_integer)
                                   exprId (some r2)
               | none => fail s1
             else
               match (getNode aSt lhs).data with
               | .LITERAL .STRING _ si _ =>
                 let s1 := codegen_expr m aSt lhs
                 (match (getNode s1 rhs).data with
                  | .LITERAL .NUMBER k _ _ =>
                    if s1.strings.getD si 0 ≤ k then fail s1
                    else if k ≠ 0 then
                      let im := freshInst s1
                      let s2 := emitI s1 (.imm k) t_integer
                      let r := freshInst s2
                      let s3 := emitI s2
                        (.add (getNode s2 lhs).ir (some im)) t_integer
                      setIr s3 exprId (some r)
                    else setIr s1 exprId (getNode s1 lhs).ir
                  | _ =>
                    match (getNode s1 lhs).ir with
                    | some a =>
                      let q : EmitState × Nat :=
                                      if type_is_pointer (instType s1 a) &&
                                          type_is_array (CType.pointee (instType s1 a)) then
                                        let cp := freshInst s1
                                        let sa := emitI s1 (.copy (some a))
                                          (instType s1 a)
                                        let sb := setInstType sa cp
                                          (CType.pointer (CType.elem (CType.pointee
                                            (instType s1 a))))
                                        (noteEv sb (.insert_inst cp), cp)
                                      else (s1, a)
                                    if (match (getNode q.1 rhs).data with
                                        | .LITERAL .NUMBER k _ _ => decide (k = 0)
                                        | _ => false) then
                                      setIr q.1 exprId (some q.2)
                                    else
                                      let s3 := codegen_expr m q.1 rhs
                                      let q2 : EmitState × Nat :=
                                        if type_is_array (getNode s3 lhs).type then
                                          let im := freshInst s3
                                          let sa := emitI s3
                                            (.imm (type_sizeof (CType.elem
                                              (getNode s3 lhs).type))) t_integer
                                          (emitI sa (.mul (getNode sa rhs).ir (some im))
                                            t_integer, freshInst sa)
                                        else
                                          let im := freshInst s3
                                          let sa := emitI s3
                                            (.imm (type_sizeof (CType.pointee
                                              (getNode s3 lhs).type))) t_integer
                                          (emitI sa (.mul (getNode sa rhs).ir (some im))
                                            t_integer, freshInst sa)
                                      let r2 := freshInst q2.1
                                      setIr (emitI q2.1 (.add (some q.2) (some q2.2)) t_integer)
                                        exprId (some r2)
                    | none => fail s1)
               | _ => fail aSt
       else
         let st1 := codegen_expr m aSt lhs
         let st2 := codegen_expr m st1 rhs
         match op with
         | .LT | .LE | .GT | .GE | .EQ | .NE | .PLUS | .MINUS | .STAR
         | .SLASH | .PERCENT | .SHL | .SHR | .AMPERSAND | .PIPE =>
           let r := freshInst st2
           setIr (emitI st2 (.binop op (getNode st2 lhs).ir
             (getNode st2 rhs).ir) (getNode st2 exprId).type) exprId (some r)
         | _ => fail st2).bodies,
          (getNode (
       if decide (op = Tok.COLON_EQ) then
         let st1 := codegen_expr m aSt rhs
         let st2 := codegen_lvalue m st1 lhs
         let r := freshInst st2
         setIr (emitI st2 (.store (getNode st2 rhs).ir
           (getNode st2 lhs).address) .void) exprId (some r)
       else if decide (op = Tok.LBRACK) then
         -- subscript: the C code computes `subs_lhs` in one of several
         -- ways (with early returns) and falls through to shared code;
         -- the shared tail is inlined at each continue-site here.
         if !(type_is_array (getNode aSt lhs).type) &&
             !(type_is_pointer (getNode aSt lhs).type) then
           fail aSt
         else
           match (getNode aSt lhs).data with
           | .VARIABLE_REFERENCE decl =>
             (match (getNode aSt decl).address with
              | some vd =>
                if (match instKind aSt vd with
                    | some .static_ref => true
                    | some .alloca => true
                    | _ => false) then
                  let p0 : EmitState × Nat :=
                    if type_is_pointer (instType aSt vd) &&
                        type_is_pointer (CType.pointee (instType aSt vd))
                    then
                      (emitI aSt (.load (some vd))
                        (CType.pointee (instType aSt vd)), freshInst aSt)
                    else (aSt, vd)
                  let q : EmitState × Nat :=
                                  if type_is_pointer (instType p0.1 p0.2) &&
                                      type_is_array (CType.pointee (instType p0.1 p0.2)) then
                                    let cp := freshInst p0.1
                                    let sa := emitI p0.1 (.copy (some p0.2))
                                      (instType p0.1 p0.2)
                                    let sb := setInstType sa cp
                                      (CType.pointer (CType.elem (CType.pointee
                                        (instType p0.1 p0.2))))
                                    (noteEv sb (.insert_inst cp), cp)
                                  else (p0.1, p0.2)
                                if (match (getNode q.1 rhs).data with
                                    | .LITERAL .NUMBER k _ _ => decide (k = 0)
                                    | _ => false) then
                                  setIr q.1 exprId (some q.2)
                                else
                                  let s3 := codegen_expr m q.1 rhs
                                  let q2 : EmitState × Nat :=
                                    if type_is_array (getNode s3 lhs).type then
                                      let im := freshInst s3
                                      let sa := emitI s3
                                        (.imm (type_sizeof (CType.elem
                                          (getNode s3 lhs).type))) t_integer
                                      (emitI sa (.mul (getNode sa rhs).ir (some im))
                                        t_integer, freshInst sa)
                                    else
                                      let im := freshInst s3
                                      let sa := emitI s3
                                        (.imm (type_sizeof (CType.pointee
                                          (getNode s3 lhs).type))) t_integer
                                      (emitI sa (.mul (getNode sa rhs).ir (some im))
                                        t_integer, freshInst sa)
                                  let r2 := freshInst q2.1
                                  setIr (emitI q2.1 (.add (some q.2) (some q2.2)) t_integer)
                                    exprId (some r2)
                else fail aSt
              | none => fail aSt)
           | _ =>
             if is_lvalue (getNode aSt lhs) then
               let s1 := codegen_lvalue m aSt lhs
               match (getNode s1 lhs).address with
               | some a =>
                 let q : EmitState × Nat :=
                                 if type_is_pointer (instType s1 a) &&
                                     type_is_array (CType.pointee (instType s1 a)) then
                                   let cp := freshInst s1
                                   let sa := emitI s1 (.copy (some a))
                                     (instType s1 a)
                                   let sb := setInstType sa cp
                                     (CType.pointer (CType.elem (CType.pointee
                                       (instType s1 a))))
                                   (noteEv sb (.insert_inst cp), cp)
                                 else (s1, a)
                               if (match (getNode q.1 rhs).data with
                                   | .LITERAL .NUMBER k _ _ => decide (k = 0)
                                   | _ => false) then
                                 setIr q.1 exprId (some q.2)
                               else
                                 let s3 := codegen_expr m q.1 rhs
                                 let q2 : EmitState × Nat :=
                                   if type_is_array (getNode s3 lhs).type then
                                     let im := freshInst s3
                                     let sa := emitI s3
                                       (.imm (type_sizeof (CType.elem
                                         (getNode s3 lhs).type))) t_integer
                                     (emitI sa (.mul (getNode sa rhs).ir (some im))
                                       t_integer, freshInst sa)
                                   else
                                     let im := freshInst s3
                                     let sa := emitI s3
                                       (.imm (type_sizeof (CType.pointee
                                         (getNode s3 lhs).type))) t_integer
                                     (emitI sa (.mul (getNode sa rhs).ir (some im))
                                       t_integer, freshInst sa)
                                 let r2 := freshInst q2.1
                                 setIr (emitI q2.1 (.add (some q.2) (some q2.2)) t_integer)
                                   exprId (some r2)
               | none => fail s1
             else
               match (getNode aSt lhs).data with
               | .LITERAL .STRING _ si _ =>
                 let s1 := codegen_expr m aSt lhs
                 (match (getNode s1 rhs).data with
                  | .LITERAL .NUMBER k _ _ =>
                    if s1.strings.getD si 0 ≤ k then fail s1
                    else if k ≠ 0 then
                      let im := freshInst s1
                      let s2 := emitI s1 (.imm k) t_integer
                      let r := freshInst s2
                      let s3 := emitI s2
                        (.add (getNode s2 lhs).ir (some im)) t_integer
                      setIr s3 exprId (some r)
                    else setIr s1 exprId (getNode s1 lhs).ir
                  | _ =>
                    match (getNode s1 lhs).ir with
                    | some a =>
                      let q : EmitState × Nat :=
                                      if type_is_pointer (instType s1 a) &&
                                          type_is_array (CType.pointee (instType s1 a)) then
                                        let cp := freshInst s1
                                        let sa := emitI s1 (.copy (some a))
                                          (instType s1 a)
                                        let sb := setInstType sa cp
                                          (CType.pointer (CType.elem (CType.pointee
                                            (instType s1 a))))
                                        (noteEv sb (.insert_inst cp), cp)
                                      else (s1, a)
                                    if (match (getNode q.1 rhs).data with
                                        | .LITERAL .NUMBER k _ _ => decide (k = 0)
                                        | _ => false) then
                                      setIr q.1 exprId (some q.2)
                                    else
                                      let s3 := codegen_expr m q.1 rhs
                                      let q2 : EmitState × Nat :=
                                        if type_is_array (getNode s3 lhs).type then
                                          let im := freshInst s3
                                          let sa := emitI s3
                                            (.imm (type_sizeof (CType.elem
                                              (getNode s3 lhs).type))) t_integer
                                          (emitI sa (.mul (getNode sa rhs).ir (some im))
                                            t_integer, freshInst sa)
                                        else
                                          let im := freshInst s3
                                          let sa := emitI s3
                                            (.imm (type_sizeof (CType.pointee
                                              (getNode s3 lhs).type))) t_integer
                                          (emitI sa (.mul (getNode sa rhs).ir (some im))
                                            t_integer, freshInst sa)
                                      let r2 := freshInst q2.1
                                      setIr (emitI q2.1 (.add (some q.2) (some q2.2)) t_integer)
                                        exprId (some r2)
                    | none => fail s1)
               | _ => fail aSt
       else
         let st1 := codegen_expr m aSt lhs
         let st2 := codegen_expr m st1 rhs
         match op with
         | .LT | .LE | .GT | .GE | .EQ | .NE | .PLUS | .MINUS | .STAR
         | .SLASH | .PERCENT | .SHL | .SHR | .AMPERSAND | .PIPE =>
           let r := freshInst st2
           setIr (emitI st2 (.binop op (getNode st2 lhs).ir
             (getNode st2 rhs).ir) (getNode st2 exprId).type) exprId (some r)
         | _ => fail st2) n).emitted = true) ∧
      ((∀ n ∈ aSt.bodies, (getNode aSt n).emitted = true) → aSt.bodies.Nodup →
        (
       if decide (op = Tok.COLON_EQ) then
         let st1 := codegen_expr m aSt rhs
         let st2 := codegen_lvalue m st1 lhs
         let r := freshInst st2
         setIr (emitI st2 (.store (getNode st2 rhs).ir
           (getNode st2 lhs).address) .void) exprId (some r)
       else if decide (op = Tok.LBRACK) then
         -- subscript: the C code computes `subs_lhs` in one of several
         -- ways (with early returns) and falls through to shared code;
         -- the shared tail is inlined at each continue-site here.
         if !(type_is_array (getNode aSt lhs).type) &&
             !(type_is_pointer (getNode aSt lhs).type) then
           fail aSt
         else
           match (getNode aSt lhs).data with
           | .VARIABLE_REFERENCE decl =>
             (match (getNode aSt decl).address with
              | some vd =>
                if (match instKind aSt vd with
                    | some .static_ref => true
                    | some .alloca => true
                    | _ => false) then
                  let p0 : EmitState × Nat :=
                    if type_is_pointer (instType aSt vd) &&
                        type_is_pointer (CType.pointee (instType aSt vd))
                    then
                      (emitI aSt (.load (some vd))
                        (CType.pointee (instType aSt vd)), freshInst aSt)
                    else (aSt, vd)
                  let q : EmitState × Nat :=
                                  if type_is_pointer (instType p0.1 p0.2) &&
                                      type_is_array (CType.pointee (instType p0.1 p0.2)) then
                                    let cp := freshInst p0.1
                                    let sa := emitI p0.1 (.copy (some p0.2))
                                      (instType p0.1 p0.2)
                                    let sb := setInstType sa cp
                                      (CType.pointer (CType.elem (CType.pointee
                                        (instType p0.1 p0.2))))
                                    (noteEv sb (.insert_inst cp), cp)
                                  else (p0.1, p0.2)
                                if (match (getNode q.1 rhs).data with
                                    | .LITERAL .NUMBER k _ _ => decide (k = 0)
                                    | _ => false) then
                                  setIr q.1 exprId (some q.2)
                                else
                                  let s3 := codegen_expr m q.1 rhs
                                  let q2 : EmitState × Nat :=
                                    if type_is_array (getNode s3 lhs).type then
                                      let im := freshInst s3
                                      let sa := emitI s3
                                        (.imm (type_sizeof (CType.elem
                                          (getNode s3 lhs).type))) t_integer
                                      (emitI sa (.mul (getNode sa rhs).ir (some im))
                                        t_integer, freshInst sa)
                                    else
                                      let im := freshInst s3
                                      let sa := emitI s3
                                        (.imm (type_sizeof (CType.pointee
                                          (getNode s3 lhs).type))) t_integer
                                      (emitI sa (.mul (getNode sa rhs).ir (some im))
                                        t_integer, freshInst sa)
                                  let r2 := freshInst q2.1
                                  setIr (emitI q2.1 (.add (some q.2) (some q2.2)) t_integer)
                                    exprId (some r2)
                else fail aSt
              | none => fail aSt)
           | _ =>
             if is_lvalue (getNode aSt lhs) then
               let s1 := codegen_lvalue m aSt lhs
               match (getNode s1 lhs).address with
               | some a =>
                 let q : EmitState × Nat :=
                                 if type_is_pointer (instType s1 a) &&
                                     type_is_array (CType.pointee (instType s1 a)) then
                                   let cp := freshInst s1
                                   let sa := emitI s1 (.copy (some a))
                                     (instType s1 a)
                                   let sb := setInstType sa cp
                                     (CType.pointer (CType.elem (CType.pointee
                                       (instType s1 a))))
                                   (noteEv sb (.insert_inst cp), cp)
                                 else (s1, a)
                               if (match (getNode q.1 rhs).data with
                                   | .LITERAL .NUMBER k _ _ => decide (k = 0)
                                   | _ => false) then
                                 setIr q.1 exprId (some q.2)
                               else
                                 let s3 := codegen_expr m q.1 rhs
                                 let q2 : EmitState × Nat :=
                                   if type_is_array (getNode s3 lhs).type then
                                     let im := freshInst s3
                                     let sa := emitI s3
                                       (.imm (type_sizeof (CType.elem
                                         (getNode s3 lhs).type))) t_integer
                                     (emitI sa (.mul (getNode sa rhs).ir (some im))
                                       t_integer, freshInst sa)
                                   else
                                     let im := freshInst s3
                                     let sa := emitI s3
                                       (.imm (type_sizeof (CType.pointee
                                         (getNode s3 lhs).type))) t_integer
                                     (emitI sa (.mul (getNode sa rhs).ir (some im))
                                       t_integer, freshInst sa)
                                 let r2 := freshInst q2.1
                                 setIr (emitI q2.1 (.add (some q.2) (some q2.2)) t_integer)
                                   exprId (some r2)
               | none => fail s1
             else
               match (getNode aSt lhs).data with
               | .LITERAL .STRING _ si _ =>
                 let s1 := codegen_expr m aSt lhs
                 (match (getNode s1 rhs).data with
                  | .LITERAL .NUMBER k _ _ =>
                    if s1.strings.getD si 0 ≤ k then fail s1
                    else if k ≠ 0 then
                      let im := freshInst s1
                      let s2 := emitI s1 (.imm k) t_integer
                      let r := freshInst s2
                      let s3 := emitI s2
                        (.add (getNode s2 lhs).ir (some im)) t_integer
                      setIr s3 exprId (some r)
                    else setIr s1 exprId (getNode s1 lhs).ir
                  | _ =>
                    match (getNode s1 lhs).ir with
                    | some a =>
                      let q : EmitState × Nat :=
                                      if type_is_pointer (instType s1 a) &&
                                          type_is_array (CType.pointee (instType s1 a)) then
                                        let cp := freshInst s1
                                        let sa := emitI s1 (.copy (some a))
                                          (instType s1 a)
                                        let sb := setInstType sa cp
                                          (CType.pointer (CType.elem (CType.pointee
                                            (instType s1 a))))
                                        (noteEv sb (.insert_inst cp), cp)
                                      else (s1, a)
                                    if (match (getNode q.1 rhs).data with
                                        | .LITERAL .NUMBER k _ _ => decide (k = 0)
                                        | _ => false) then
                                      setIr q.1 exprId (some q.2)
                                    else
                                      let s3 := codegen_expr m q.1 rhs
                                      let q2 : EmitState × Nat :=
                                        if type_is_array (getNode s3 lhs).type then
                                          let im := freshInst s3
                                          let sa := emitI s3
                                            (.imm (type_sizeof (CType.elem
                                              (getNode s3 lhs).type))) t_integer
                                          (emitI sa (.mul (getNode sa rhs).ir (some im))
                                            t_integer, freshInst sa)
                                        else
                                          let im := freshInst s3
                                          let sa := emitI s3
                                            (.imm (type_sizeof (CType.pointee
                                              (getNode s3 lhs).type))) t_integer
                                          (emitI sa (.mul (getNode sa rhs).ir (some im))
                                            t_integer, freshInst sa)
                                      let r2 := freshInst q2.1
                                      setIr (emitI q2.1 (.add (some q.2) (some q2.2)) t_integer)
                                        exprId (some r2)
                    | none => fail s1)
               | _ => fail aSt
       else
         let st1 := codegen_expr m aSt lhs
         let st2 := codegen_expr m st1 rhs
         match op with
         | .LT | .LE | .GT | .GE | .EQ | .NE | .PLUS | .MINUS | .STAR
         | .SLASH | .PERCENT | .SHL | .SHR | .AMPERSAND | .PIPE =>
           let r := freshInst st2
           setIr (emitI st2 (.binop op (getNode st2 lhs).ir
             (getNode st2 rhs).ir) (getNode st2 exprId).type) exprId (some r)
         | _ => fail st2).bodies.Nodup) := by
  cases op with
  | COLON_EQ =>
    refine cg_peel_setIr _ _ _ _ (cg_peel_emitI _ _ _ _ ?_)
    refine cg_keep_trans _ _ _ ?_ (ihL _ _)
    exact ihE _ _
  | LBRACK =>
    cases hA : (!(type_is_array (getNode aSt lhs).type) &&
        !(type_is_pointer (getNode aSt lhs).type)) with
    | true => exact cg_peel_fail _ _ (cg_keep_refl _)
    | false =>
      cases hD : (getNode aSt lhs).data with
      | FUNCTION fir bo =>
        try dsimp only
        cases hL : is_lvalue (getNode aSt lhs) with
        | true =>
          try dsimp only
          cases hAd2 : (getNode (codegen_lvalue m aSt lhs) lhs).address with
          | none => exact cg_peel_fail _ _ (ihL _ _)
          | some av =>
            refine cg_subs_q m ihE _ _ _ _ _ _ ?_
            exact ihL _ _
        | false => exact cg_peel_fail _ _ (cg_keep_refl _)
      | ROOT children =>
        try dsimp only
        cases hL : is_lvalue (getNode aSt lhs) with
        | true =>
          try dsimp only
          cases hAd2 : (getNode (codegen_lvalue m aSt lhs) lhs).address with
          | none => exact cg_peel_fail _ _ (ihL _ _)
          | some av =>
            refine cg_subs_q m ihE _ _ _ _ _ _ ?_
            exact ihL _ _
        | false => exact cg_peel_fail _ _ (cg_keep_refl _)
      | DECLARATION sd init =>
        try dsimp only
        cases hL : is_lvalue (getNode aSt lhs) with
        | true =>
          try dsimp only
          cases hAd2 : (getNode (codegen_lvalue m aSt lhs) lhs).address with
          | none => exact cg_peel_fail _ _ (ihL _ _)
          | some av =>
            refine cg_subs_q m ihE _ _ _ _ _ _ ?_
            exact ihL _ _
        | false => exact cg_peel_fail _ _ (cg_keep_refl _)
      | MEMBER_ACCESS sn off mty =>
        try dsimp only
        cases hL : is_lvalue (getNode aSt lhs) with
        | true =>
          try dsimp only
          cases hAd2 : (getNode (codegen_lvalue m aSt lhs) lhs).address with
          | none => exact cg_peel_fail _ _ (ihL _ _)
          | some av =>
            refine cg_subs_q m ihE _ _ _ _ _ _ ?_
            exact ihL _ _
        | false => exact cg_peel_fail _ _ (cg_keep_refl _)
      | VARIABLE_REFERENCE decl =>
        try dsimp only
        cases hAddr : (getNode aSt decl).address with
        | none => exact cg_peel_fail _ _ (cg_keep_refl _)
        | some vd =>
          try dsimp only
          cases hK : (match instKind aSt vd with
              | some .static_ref => true
              | some .alloca => true
              | _ => false) with
          | false => exact cg_peel_fail _ _ (cg_keep_refl _)
          | true =>
            refine cg_subs_q m ihE _ _ _ _ _ _ ?_
            cases hP : (type_is_pointer (instType aSt vd) &&
                type_is_pointer (CType.pointee (instType aSt vd))) with
            | false => exact cg_keep_refl _
            | true => exact cg_peel_emitI _ _ _ _ (cg_keep_refl _)
      | STRUCTURE_DECLARATION =>
        try dsimp only
        cases hL : is_lvalue (getNode aSt lhs) with
        | true =>
          try dsimp only
          cases hAd2 : (getNode (codegen_lvalue m aSt lhs) lhs).address with
          | none => exact cg_peel_fail _ _ (ihL _ _)
          | some av =>
            refine cg_subs_q m ihE _ _ _ _ _ _ ?_
            exact ihL _ _
        | false => exact cg_peel_fail _ _ (cg_keep_refl _)
      | IF c1 t1 e1 =>
        try dsimp only
        cases hL : is_lvalue (getNode aSt lhs) with
        | true =>
          try dsimp only
          cases hAd2 : (getNode (codegen_lvalue m aSt lhs) lhs).address with
          | none => exact cg_peel_fail _ _ (ihL _ _)
          | some av =>
            refine cg_subs_q m ihE _ _ _ _ _ _ ?_
            exact ihL _ _
        | false => exact cg_peel_fail _ _ (cg_keep_refl _)
      | WHILE c1 b1 =>
        try dsimp only
        cases hL : is_lvalue (getNode aSt lhs) with
        | true =>
          try dsimp only
          cases hAd2 : (getNode (codegen_lvalue m aSt lhs) lhs).address with
          | none => exact cg_peel_fail _ _ (ihL _ _)
          | some av =>
            refine cg_subs_q m ihE _ _ _ _ _ _ ?_
            exact ihL _ _
        | false => exact cg_peel_fail _ _ (cg_keep_refl _)
      | BLOCK children =>
        try dsimp only
        cases hL : is_lvalue (getNode aSt lhs) with
        | true =>
          try dsimp only
          cases hAd2 : (getNode (codegen_lvalue m aSt lhs) lhs).address with
          | none => exact cg_peel_fail _ _ (ihL _ _)
          | some av =>
            refine cg_subs_q m ihE _ _ _ _ _ _ ?_
            exact ihL _ _
        | false => exact cg_peel_fail _ _ (cg_keep_refl _)
      | CALL cal args =>
        try dsimp only
        cases hL : is_lvalue (getNode aSt lhs) with
        | true =>
          try dsimp only
          cases hAd2 : (getNode (codegen_lvalue m aSt lhs) lhs).address with
          | none => exact cg_peel_fail _ _ (ihL _ _)
          | some av =>
            refine cg_subs_q m ihE _ _ _ _ _ _ ?_
            exact ihL _ _
        | false => exact cg_peel_fail _ _ (cg_keep_refl _)
      | CAST v1 =>
        try dsimp only
        cases hL : is_lvalue (getNode aSt lhs) with
        | true =>
          try dsimp only
          cases hAd2 : (getNode (codegen_lvalue m aSt lhs) lhs).address with
          | none => exact cg_peel_fail _ _ (ihL _ _)
          | some av =>
            refine cg_subs_q m ihE _ _ _ _ _ _ ?_
            exact ihL _ _
        | false => exact cg_peel_fail _ _ (cg_keep_refl _)
      | BINARY op2 l2 r2 =>
        try dsimp only
        cases hL : is_lvalue (getNode aSt lhs) with
        | true =>
          try dsimp only
          cases hAd2 : (getNode (codegen_lvalue m aSt lhs) lhs).address with
          | none => exact cg_peel_fail _ _ (ihL _ _)
          | some av =>
            refine cg_subs_q m ihE _ _ _ _ _ _ ?_
            exact ihL _ _
        | false => exact cg_peel_fail _ _ (cg_keep_refl _)
      | UNARY op2 pf2 v2 =>
        try dsimp only
        cases hL : is_lvalue (getNode aSt lhs) with
        | true =>
          try dsimp only
          cases hAd2 : (getNode (codegen_lvalue m aSt lhs) lhs).address with
          | none => exact cg_peel_fail _ _ (ihL _ _)
          | some av =>
            refine cg_subs_q m ihE _ _ _ _ _ _ ?_
            exact ihL _ _
        | false => exact cg_peel_fail _ _ (cg_keep_refl _)
      | LITERAL lit k si comp =>
        try dsimp only
        cases hL : is_lvalue (getNode aSt lhs) with
        | true =>
          try dsimp only
          cases hAd2 : (getNode (codegen_lvalue m aSt lhs) lhs).address with
          | none => exact cg_peel_fail _ _ (ihL _ _)
          | some av =>
            refine cg_subs_q m ihE _ _ _ _ _ _ ?_
            exact ihL _ _
        | false =>
          cases lit with
          | COLON_EQ => exact cg_peel_fail _ _ (cg_keep_refl _)
          | LBRACK => exact cg_peel_fail _ _ (cg_keep_refl _)
          | LT => exact cg_peel_fail _ _ (cg_keep_refl _)
          | LE => exact cg_peel_fail _ _ (cg_keep_refl _)
          | GT => exact cg_peel_fail _ _ (cg_keep_refl _)
          | GE => exact cg_peel_fail _ _ (cg_keep_refl _)
          | EQ => exact cg_peel_fail _ _ (cg_keep_refl _)
          | NE => exact cg_peel_fail _ _ (cg_keep_refl _)
          | PLUS => exact cg_peel_fail _ _ (cg_keep_refl _)
          | MINUS => exact cg_peel_fail _ _ (cg_keep_refl _)
          | STAR => exact cg_peel_fail _ _ (cg_keep_refl _)
          | SLASH => exact cg_peel_fail _ _ (cg_keep_refl _)
          | PERCENT => exact cg_peel_fail _ _ (cg_keep_refl _)
          | SHL => exact cg_peel_fail _ _ (cg_keep_refl _)
          | SHR => exact cg_peel_fail _ _ (cg_keep_refl _)
          | AMPERSAND => exact cg_peel_fail _ _ (cg_keep_refl _)
          | PIPE => exact cg_peel_fail _ _ (cg_keep_refl _)
          | AT => exact cg_peel_fail _ _ (cg_keep_refl _)
          | TILDE => exact cg_peel_fail _ _ (cg_keep_refl _)
          | NUMBER => exact cg_peel_fail _ _ (cg_keep_refl _)
          | STRING =>
            try dsimp only
            cases hRD : (getNode (codegen_expr m aSt lhs) rhs).data with
            | FUNCTION fir bo =>
              try dsimp only
              cases hIr : (getNode (codegen_expr m aSt lhs) lhs).ir with
              | none => exact cg_peel_fail _ _ (ihE _ _)
              | some av =>
                refine cg_subs_q m ihE _ _ _ _ _ _ ?_
                exact ihE _ _
            | ROOT children =>
              try dsimp only
              cases hIr : (getNode (codegen_expr m aSt lhs) lhs).ir with
              | none => exact cg_peel_fail _ _ (ihE _ _)
              | some av =>
                refine cg_subs_q m ihE _ _ _ _ _ _ ?_
                exact ihE _ _
            | DECLARATION sd init =>
              try dsimp only
              cases hIr : (getNode (codegen_expr m aSt lhs) lhs).ir with
              | none => exact cg_peel_fail _ _ (ihE _ _)
              | some av =>
                refine cg_subs_q m ihE _ _ _ _ _ _ ?_
                exact ihE _ _
            | MEMBER_ACCESS sn off mty =>
              try dsimp only
              cases hIr : (getNode (codegen_expr m aSt lhs) lhs).ir with
              | none => exact cg_peel_fail _ _ (ihE _ _)
              | some av =>
                refine cg_subs_q m ihE _ _ _ _ _ _ ?_
                exact ihE _ _
            | VARIABLE_REFERENCE decl =>
              try dsimp only
              cases hIr : (getNode (codegen_expr m aSt lhs) lhs).ir with
              | none => exact cg_peel_fail _ _ (ihE _ _)
              | some av =>
                refine cg_subs_q m ihE _ _ _ _ _ _ ?_
                exact ihE _ _
            | STRUCTURE_DECLARATION =>
              try dsimp only
              cases hIr : (getNode (codegen_expr m aSt lhs) lhs).ir with
              | none => exact cg_peel_fail _ _ (ihE _ _)
              | some av =>
                refine cg_subs_q m ihE _ _ _ _ _ _ ?_
                exact ihE _ _
            | IF c1 t1 e1 =>
              try dsimp only
              cases hIr : (getNode (codegen_expr m aSt lhs) lhs).ir with
              | none => exact cg_peel_fail _ _ (ihE _ _)
              | some av =>
                refine cg_subs_q m ihE _ _ _ _ _ _ ?_
                exact ihE _ _
            | WHILE c1 b1 =>
              try dsimp only
              cases hIr : (getNode (codegen_expr m aSt lhs) lhs).ir with
              | none => exact cg_peel_fail _ _ (ihE _ _)
              | some av =>
                refine cg_subs_q m ihE _ _ _ _ _ _ ?_
                exact ihE _ _
            | BLOCK children =>
              try dsimp only
              cases hIr : (getNode (codegen_expr m aSt lhs) lhs).ir with
              | none => exact cg_peel_fail _ _ (ihE _ _)
              | some av =>
                refine cg_subs_q m ihE _ _ _ _ _ _ ?_
                exact ihE _ _
            | CALL cal args =>
              try dsimp only
              cases hIr : (getNode (codegen_expr m aSt lhs) lhs).ir with
              | none => exact cg_peel_fail _ _ (ihE _ _)
              | some av =>
                refine cg_subs_q m ihE _ _ _ _ _ _ ?_
                exact ihE _ _
            | CAST v1 =>
              try dsimp only
              cases hIr : (getNode (codegen_expr m aSt lhs) lhs).ir with
              | none => exact cg_peel_fail _ _ (ihE _ _)
              | some av =>
                refine cg_subs_q m ihE _ _ _ _ _ _ ?_
                exact ihE _ _
            | BINARY op2 l2 r2 =>
              try dsimp only
              cases hIr : (getNode (codegen_expr m aSt lhs) lhs).ir with
              | none => exact cg_peel_fail _ _ (ihE _ _)
              | some av =>
                refine cg_subs_q m ihE _ _ _ _ _ _ ?_
                exact ihE _ _
            | UNARY op2 pf2 v2 =>
              try dsimp only
              cases hIr : (getNode (codegen_expr m aSt lhs) lhs).ir with
              | none => exact cg_peel_fail _ _ (ihE _ _)
              | some av =>
                refine cg_subs_q m ihE _ _ _ _ _ _ ?_
                exact ihE _ _
            | LITERAL lit2 k2 si2 c2 =>
              cases lit2 with
              | COLON_EQ =>
                try dsimp only
                cases hIr : (getNode (codegen_expr m aSt lhs) lhs).ir with
                | none => exact cg_peel_fail _ _ (ihE _ _)
                | some av =>
                  refine cg_subs_q m ihE _ _ _ _ _ _ ?_
                  exact ihE _ _
              | LBRACK =>
                try dsimp only
                cases hIr : (getNode (codegen_expr m aSt lhs) lhs).ir with
                | none => exact cg_peel_fail _ _ (ihE _ _)
                | some av =>
                  refine cg_subs_q m ihE _ _ _ _ _ _ ?_
                  exact ihE _ _
              | LT =>
                try dsimp only
                cases hIr : (getNode (codegen_expr m aSt lhs) lhs).ir with
                | none => exact cg_peel_fail _ _ (ihE _ _)
                | some av =>
                  refine cg_subs_q m ihE _ _ _ _ _ _ ?_
                  exact ihE _ _
              | LE =>
                try dsimp only
                cases hIr : (getNode (codegen_expr m aSt lhs) lhs).ir with
                | none => exact cg_peel_fail _ _ (ihE _ _)
                | some av =>
                  refine cg_subs_q m ihE _ _ _ _ _ _ ?_
                  exact ihE _ _
              | GT =>
                try dsimp only
                cases hIr : (getNode (codegen_expr m aSt lhs) lhs).ir with
                | none => exact cg_peel_fail _ _ (ihE _ _)
                | some av =>
                  refine cg_subs_q m ihE _ _ _ _ _ _ ?_
                  exact ihE _ _
              | GE =>
                try dsimp only
                cases hIr : (getNode (codegen_expr m aSt lhs) lhs).ir with
                | none => exact cg_peel_fail _ _ (ihE _ _)
                | some av =>
                  refine cg_subs_q m ihE _ _ _ _ _ _ ?_
                  exact ihE _ _
              | EQ =>
                try dsimp only
                cases hIr : (getNode (codegen_expr m aSt lhs) lhs).ir with
                | none => exact cg_peel_fail _ _ (ihE _ _)
                | some av =>
                  refine cg_subs_q m ihE _ _ _ _ _ _ ?_
                  exact ihE _ _
              | NE =>
                try dsimp only
                cases hIr : (getNode (codegen_expr m aSt lhs) lhs).ir with
                | none => exact cg_peel_fail _ _ (ihE _ _)
                | some av =>
                  refine cg_subs_q m ihE _ _ _ _ _ _ ?_
                  exact ihE _ _
              | PLUS =>
                try dsimp only
                cases hIr : (getNode (codegen_expr m aSt lhs) lhs).ir with
                | none => exact cg_peel_fail _ _ (ihE _ _)
                | some av =>
                  refine cg_subs_q m ihE _ _ _ _ _ _ ?_
                  exact ihE _ _
              | MINUS =>
                try dsimp only
                cases hIr : (getNode (codegen_expr m aSt lhs) lhs).ir with
                | none => exact cg_peel_fail _ _ (ihE _ _)
                | some av =>
                  refine cg_subs_q m ihE _ _ _ _ _ _ ?_
                  exact ihE _ _
              | STAR =>
                try dsimp only
                cases hIr : (getNode (codegen_expr m aSt lhs) lhs).ir with
                | none => exact cg_peel_fail _ _ (ihE _ _)
                | some av =>
                  refine cg_subs_q m ihE _ _ _ _ _ _ ?_
                  exact ihE _ _
              | SLASH =>
                try dsimp only
                cases hIr : (getNode (codegen_expr m aSt lhs) lhs).ir with
                | none => exact cg_peel_fail _ _ (ihE _ _)
                | some av =>
                  refine cg_subs_q m ihE _ _ _ _ _ _ ?_
                  exact ihE _ _
              | PERCENT =>
                try dsimp only
                cases hIr : (getNode (codegen_expr m aSt lhs) lhs).ir with
                | none => exact cg_peel_fail _ _ (ihE _ _)
                | some av =>
                  refine cg_subs_q m ihE _ _ _ _ _ _ ?_
                  exact ihE _ _
              | SHL =>
                try dsimp only
                cases hIr : (getNode (codegen_expr m aSt lhs) lhs).ir with
                | none => exact cg_peel_fail _ _ (ihE _ _)
                | some av =>
                  refine cg_subs_q m ihE _ _ _ _ _ _ ?_
                  exact ihE _ _
              | SHR =>
                try dsimp only
                cases hIr : (getNode (codegen_expr m aSt lhs) lhs).ir with
                | none => exact cg_peel_fail _ _ (ihE _ _)
                | some av =>
                  refine cg_subs_q m ihE _ _ _ _ _ _ ?_
                  exact ihE _ _
              | AMPERSAND =>
                try dsimp only
                cases hIr : (getNode (codegen_expr m aSt lhs) lhs).ir with
                | none => exact cg_peel_fail _ _ (ihE _ _)
                | some av =>
                  refine cg_subs_q m ihE _ _ _ _ _ _ ?_
                  exact ihE _ _
              | PIPE =>
                try dsimp only
                cases hIr : (getNode (codegen_expr m aSt lhs) lhs).ir with
                | none => exact cg_peel_fail _ _ (ihE _ _)
                | some av =>
                  refine cg_subs_q m ihE _ _ _ _ _ _ ?_
                  exact ihE _ _
              | AT =>
                try dsimp only
                cases hIr : (getNode (codegen_expr m aSt lhs) lhs).ir with
                | none => exact cg_peel_fail _ _ (ihE _ _)
                | some av =>
                  refine cg_subs_q m ihE _ _ _ _ _ _ ?_
                  exact ihE _ _
              | TILDE =>
                try dsimp only
                cases hIr : (getNode (codegen_expr m aSt lhs) lhs).ir with
                | none => exact cg_peel_fail _ _ (ihE _ _)
                | some av =>
                  refine cg_subs_q m ihE _ _ _ _ _ _ ?_
                  exact ihE _ _
              | NUMBER =>
                try dsimp only
                by_cases hLe : ((codegen_expr m aSt lhs).strings.getD si 0 ≤ k2)
                · rw [if_pos hLe]
                  exact cg_peel_fail _ _ (ihE _ _)
                · rw [if_neg hLe]
                  by_cases hNe : (k2 ≠ 0)
                  · rw [if_pos hNe]
                    exact cg_peel_setIr _ _ _ _ (cg_peel_emitI _ _ _ _
                      (cg_peel_emitI _ _ _ _ (ihE _ _)))
                  · rw [if_neg hNe]
                    exact cg_peel_setIr _ _ _ _ (ihE _ _)
              | STRING =>
                try dsimp only
                cases hIr : (getNode (codegen_expr m aSt lhs) lhs).ir with
                | none => exact cg_peel_fail _ _ (ihE _ _)
                | some av =>
                  refine cg_subs_q m ihE _ _ _ _ _ _ ?_
                  exact ihE _ _
            | FOR i1 c1 it1 b1 =>
              try dsimp only
              cases hIr : (getNode (codegen_expr m aSt lhs) lhs).ir with
              | none => exact cg_peel_fail _ _ (ihE _ _)
              | some av =>
                refine cg_subs_q m ihE _ _ _ _ _ _ ?_
                exact ihE _ _
            | FUNCTION_REFERENCE =>
              try dsimp only
              cases hIr : (getNode (codegen_expr m aSt lhs) lhs).ir with
              | none => exact cg_peel_fail _ _ (ihE _ _)
              | some av =>
                refine cg_subs_q m ihE _ _ _ _ _ _ ?_
                exact ihE _ _
      | FOR i1 c1 it1 b1 =>
        try dsimp only
        cases hL : is_lvalue (getNode aSt lhs) with
        | true =>
          try dsimp only
          cases hAd2 : (getNode (codegen_lvalue m aSt lhs) lhs).address with
          | none => exact cg_peel_fail _ _ (ihL _ _)
          | some av =>
            refine cg_subs_q m ihE _ _ _ _ _ _ ?_
            exact ihL _ _
        | false => exact cg_peel_fail _ _ (cg_keep_refl _)
      | FUNCTION_REFERENCE =>
        try dsimp only
        cases hL : is_lvalue (getNode aSt lhs) with
        | true =>
          try dsimp only
          cases hAd2 : (getNode (codegen_lvalue m aSt lhs) lhs).address with
          | none => exact cg_peel_fail _ _ (ihL _ _)
          | some av =>
            refine cg_subs_q m ihE _ _ _ _ _ _ ?_
            exact ihL _ _
        | false => exact cg_peel_fail _ _ (cg_keep_refl _)
  | LT =>
    refine cg_peel_setIr _ _ _ _ (cg_peel_emitI _ _ _ _ ?_)
    refine cg_keep_trans _ _ _ ?_ (ihE _ _)
    exact ihE _ _
  | LE =>
    refine cg_peel_setIr _ _ _ _ (cg_peel_emitI _ _ _ _ ?_)
    refine cg_keep_trans _ _ _ ?_ (ihE _ _)
    exact ihE _ _
  | GT =>
    refine cg_peel_setIr _ _ _ _ (cg_peel_emitI _ _ _ _ ?_)
    refine cg_keep_trans _ _ _ ?_ (ihE _ _)
    exact ihE _ _
  | GE =>
    refine cg_peel_setIr _ _ _ _ (cg_peel_emitI _ _ _ _ ?_)
    refine cg_keep_trans _ _ _ ?_ (ihE _ _)
    exact ihE _ _
  | EQ =>
    refine cg_peel_setIr _ _ _ _ (cg_peel_emitI _ _ _ _ ?_)
    refine cg_keep_trans _ _ _ ?_ (ihE _ _)
    exact ihE _ _
  | NE =>
    refine cg_peel_setIr _ _ _ _ (cg_peel_emitI _ _ _ _ ?_)
    refine cg_keep_trans _ _ _ ?_ (ihE _ _)
    exact ihE _ _
  | PLUS =>
    refine cg_peel_setIr _ _ _ _ (cg_peel_emitI _ _ _ _ ?_)
    refine cg_keep_trans _ _ _ ?_ (ihE _ _)
    exact ihE _ _
  | MINUS =>
    refine cg_peel_setIr _ _ _ _ (cg_peel_emitI _ _ _ _ ?_)
    refine cg_keep_trans _ _ _ ?_ (ihE _ _)
    exact ihE _ _
  | STAR =>
    refine cg_peel_setIr _ _ _ _ (cg_peel_emitI _ _ _ _ ?_)
    refine cg_keep_trans _ _ _ ?_ (ihE _ _)
    exact ihE _ _
  | SLASH =>
    refine cg_peel_setIr _ _ _ _ (cg_peel_emitI _ _ _ _ ?_)
    refine cg_keep_trans _ _ _ ?_ (ihE _ _)
    exact ihE _ _
  | PERCENT =>
    refine cg_peel_setIr _ _ _ _ (cg_peel_emitI _ _ _ _ ?_)
    refine cg_keep_trans _ _ _ ?_ (ihE _ _)
    exact ihE _ _
  | SHL =>
    refine cg_peel_setIr _ _ _ _ (cg_peel_emitI _ _ _ _ ?_)
    refine cg_keep_trans _ _ _ ?_ (ihE _ _)
    exact ihE _ _
  | SHR =>
    refine cg_peel_setIr _ _ _ _ (cg_peel_emitI _ _ _ _ ?_)
    refine cg_keep_trans _ _ _ ?_ (ihE _ _)
    exact ihE _ _
  | AMPERSAND =>
    refine cg_peel_setIr _ _ _ _ (cg_peel_emitI _ _ _ _ ?_)
    refine cg_keep_trans _ _ _ ?_ (ihE _ _)
    exact ihE _ _
  | PIPE =>
    refine cg_peel_setIr _ _ _ _ (cg_peel_emitI _ _ _ _ ?_)
    refine cg_keep_trans _ _ _ ?_ (ihE _ _)
    exact ihE _ _
  | AT =>
    refine cg_peel_fail _ _ ?_
    refine cg_keep_trans _ _ _ ?_ (ihE _ _)
    exact ihE _ _
  | TILDE =>
    refine cg_peel_fail _ _ ?_
    refine cg_keep_trans _ _ _ ?_ (ihE _ _)
    exact ihE _ _
  | NUMBER =>
    refine cg_peel_fail _ _ ?_
    refine cg_keep_trans _ _ _ ?_ (ihE _ _)
    exact ihE _ _
  | STRING =>
    refine cg_peel_fail _ _ ?_
    refine cg_keep_trans _ _ _ ?_ (ihE _ _)
    exact ihE _ _

set_option maxHeartbeats 6000000 in
/-- One `codegen_lvalue` body run (fuel to enter) preserves the emission
invariants. -/
theorem cg_step_lvalue (m : Nat)
    (ihE : ∀ st e, (∀ n, (getNode st n).emitted = true →
        (getNode (codegen_expr m st e) n).emitted = true) ∧
      ((∀ n ∈ st.bodies, (getNode st n).emitted = true) →
        ∀ n ∈ (codegen_expr m st e).bodies,
          (getNode (codegen_expr m st e) n).emitted = true) ∧
      ((∀ n ∈ st.bodies, (getNode st n).emitted = true) → st.bodies.Nodup →
        (codegen_expr m st e).bodies.Nodup))
    (ihL : ∀ st l, (∀ n, (getNode st n).emitted = true →
        (getNode (codegen_lvalue m st l) n).emitted = true) ∧
      ((∀ n ∈ st.bodies, (getNode st n).emitted = true) →
        ∀ n ∈ (codegen_lvalue m st l).bodies,
          (getNode (codegen_lvalue m st l) n).emitted = true) ∧
      ((∀ n ∈ st.bodies, (getNode st n).emitted = true) → st.bodies.Nodup →
        (codegen_lvalue m st l).bodies.Nodup))
    (st : EmitState) (l : Nat)
    (hga : ¬(getNode st l).address.isSome = true) :
    (∀ n, (getNode st n).emitted = true →
        (getNode (codegen_lvalue (m+1) st l) n).emitted = true) ∧
      ((∀ n ∈ st.bodies, (getNode st n).emitted = true) →
        ∀ n ∈ (codegen_lvalue (m+1) st l).bodies,
          (getNode (codegen_lvalue (m+1) st l) n).emitted = true) ∧
      ((∀ n ∈ st.bodies, (getNode st n).emitted = true) → st.bodies.Nodup →
        (codegen_lvalue (m+1) st l).bodies.Nodup) := by
  unfold codegen_lvalue
  rw [if_neg hga]
  cases hd : (getNode st l).data <;>
    try dsimp only
  all_goals
    repeat'
      first
      | exact cg_keep_refl _
      | split
      | refine cg_keep_trans _ _ _ ?_ (ihE _ _)
      | refine cg_keep_trans _ _ _ ?_ (ihL _ _)
      | refine cg_keep_trans _ _ _ ?_ (cg_keep_foldl _ (fun s9 c9 => ?_) _ _)
      | refine cg_keep_trans _ _ _ ?_
          (cg_keep_foldl_fst _ (fun q9 c9 => ?_) _ _)
      | refine cg_keep_foldl _ (fun s9 c9 => ?_) _ _
      | refine cg_keep_foldl_fst _ (fun q9 c9 => ?_) _ _
      | refine cg_peel_emitI _ _ _ _ ?_
      | refine cg_peel_noteEv _ _ _ ?_
      | refine cg_peel_setInstType _ _ _ _ ?_
      | refine cg_peel_allocBlocks _ _ _ ?_
      | refine cg_peel_attach _ _ _ ?_
      | refine cg_peel_fail _ _ ?_
      | refine cg_peel_ir_branch _ _ _ ?_
      | refine cg_peel_ir_branch_conditional _ _ _ _ _ ?_
      | refine cg_peel_ir_return _ _ _ ?_
      | refine cg_peel_setIr _ _ _ _ ?_
      | refine cg_peel_setAddress _ _ _ _ ?_


end Codegen

namespace Codegen

set_option maxHeartbeats 6000000 in
/-- One `codegen_expr` body run (fuel to enter) preserves the emission
invariants and marks the node. -/
theorem cg_step_expr (m : Nat)
    (ihE : ∀ st e, (∀ n, (getNode st n).emitted = true →
        (getNode (codegen_expr m st e) n).emitted = true) ∧
      ((∀ n ∈ st.bodies, (getNode st n).emitted = true) →
        ∀ n ∈ (codegen_expr m st e).bodies,
          (getNode (codegen_expr m st e) n).emitted = true) ∧
      ((∀ n ∈ st.bodies, (getNode st n).emitted = true) → st.bodies.Nodup →
        (codegen_expr m st e).bodies.Nodup))
    (ihL : ∀ st l, (∀ n, (getNode st n).emitted = true →
        (getNode (codegen_lvalue m st l) n).emitted = true) ∧
      ((∀ n ∈ st.bodies, (getNode st n).emitted = true) →
        ∀ n ∈ (codegen_lvalue m st l).bodies,
          (getNode (codegen_lvalue m st l) n).emitted = true) ∧
      ((∀ n ∈ st.bodies, (getNode st n).emitted = true) → st.bodies.Nodup →
        (codegen_lvalue m st l).bodies.Nodup))
    (st0 : EmitState) (e : Nat)
    (hg : ¬(getNode st0 e).emitted = true) :
    ((∀ n, (getNode st0 n).emitted = true →
        (getNode (codegen_expr (m+1) st0 e) n).emitted = true) ∧
      ((∀ n ∈ st0.bodies, (getNode st0 n).emitted = true) →
        ∀ n ∈ (codegen_expr (m+1) st0 e).bodies,
          (getNode (codegen_expr (m+1) st0 e) n).emitted = true) ∧
      ((∀ n ∈ st0.bodies, (getNode st0 n).emitted = true) → st0.bodies.Nodup →
        (codegen_expr (m+1) st0 e).bodies.Nodup)) ∧
    (getNode (codegen_expr (m+1) st0 e) e).emitted = true := by
  have hg2 : (getNode st0 e).emitted = false := by simpa using hg
  unfold codegen_expr
  rw [if_neg hg]
  refine cg_keep_step st0 e _ hg2 ?_
  cases hd : (getNode st0 e).data with
  | FUNCTION fir b =>
    try dsimp only
    repeat'
      first
      | exact cg_keep_refl _
      | split
      | refine cg_keep_trans _ _ _ ?_ (ihE _ _)
      | refine cg_keep_trans _ _ _ ?_ (ihL _ _)
      | refine cg_keep_trans _ _ _ ?_ (cg_keep_foldl _ (fun s9 c9 => ?_) _ _)
      | refine cg_keep_trans _ _ _ ?_
          (cg_keep_foldl_fst _ (fun q9 c9 => ?_) _ _)
      | refine cg_keep_foldl _ (fun s9 c9 => ?_) _ _
      | refine cg_keep_foldl_fst _ (fun q9 c9 => ?_) _ _
      | refine cg_peel_emitI _ _ _ _ ?_
      | refine cg_peel_noteEv _ _ _ ?_
      | refine cg_peel_setInstType _ _ _ _ ?_
      | refine cg_peel_allocBlocks _ _ _ ?_
      | refine cg_peel_attach _ _ _ ?_
      | refine cg_peel_fail _ _ ?_
      | refine cg_peel_ir_branch _ _ _ ?_
      | refine cg_peel_ir_branch_conditional _ _ _ _ _ ?_
      | refine cg_peel_ir_return _ _ _ ?_
      | refine cg_peel_setIr _ _ _ _ ?_
      | refine cg_peel_setAddress _ _ _ _ ?_
  | ROOT children =>
    try dsimp only
    repeat'
      first
      | exact cg_keep_refl _
      | split
      | refine cg_keep_trans _ _ _ ?_ (ihE _ _)
      | refine cg_keep_trans _ _ _ ?_ (ihL _ _)
      | refine cg_keep_trans _ _ _ ?_ (cg_keep_foldl _ (fun s9 c9 => ?_) _ _)
      | refine cg_keep_trans _ _ _ ?_
          (cg_keep_foldl_fst _ (fun q9 c9 => ?_) _ _)
      | refine cg_keep_foldl _ (fun s9 c9 => ?_) _ _
      | refine cg_keep_foldl_fst _ (fun q9 c9 => ?_) _ _
      | refine cg_peel_emitI _ _ _ _ ?_
      | refine cg_peel_noteEv _ _ _ ?_
      | refine cg_peel_setInstType _ _ _ _ ?_
      | refine cg_peel_allocBlocks _ _ _ ?_
      | refine cg_peel_attach _ _ _ ?_
      | refine cg_peel_fail _ _ ?_
      | refine cg_peel_ir_branch _ _ _ ?_
      | refine cg_peel_ir_branch_conditional _ _ _ _ _ ?_
      | refine cg_peel_ir_return _ _ _ ?_
      | refine cg_peel_setIr _ _ _ _ ?_
      | refine cg_peel_setAddress _ _ _ _ ?_
  | DECLARATION sd init =>
    try dsimp only
    repeat'
      first
      | exact cg_keep_refl _
      | split
      | refine cg_keep_trans _ _ _ ?_ (ihE _ _)
      | refine cg_keep_trans _ _ _ ?_ (ihL _ _)
      | refine cg_keep_trans _ _ _ ?_ (cg_keep_foldl _ (fun s9 c9 => ?_) _ _)
      | refine cg_keep_trans _ _ _ ?_
          (cg_keep_foldl_fst _ (fun q9 c9 => ?_) _ _)
      | refine cg_keep_foldl _ (fun s9 c9 => ?_) _ _
      | refine cg_keep_foldl_fst _ (fun q9 c9 => ?_) _ _
      | refine cg_peel_emitI _ _ _ _ ?_
      | refine cg_peel_noteEv _ _ _ ?_
      | refine cg_peel_setInstType _ _ _ _ ?_
      | refine cg_peel_allocBlocks _ _ _ ?_
      | refine cg_peel_attach _ _ _ ?_
      | refine cg_peel_fail _ _ ?_
      | refine cg_peel_ir_branch _ _ _ ?_
      | refine cg_peel_ir_branch_conditional _ _ _ _ _ ?_
      | refine cg_peel_ir_return _ _ _ ?_
      | refine cg_peel_setIr _ _ _ _ ?_
      | refine cg_peel_setAddress _ _ _ _ ?_
  | MEMBER_ACCESS sn off mty =>
    try dsimp only
    repeat'
      first
      | exact cg_keep_refl _
      | split
      | refine cg_keep_trans _ _ _ ?_ (ihE _ _)
      | refine cg_keep_trans _ _ _ ?_ (ihL _ _)
      | refine cg_keep_trans _ _ _ ?_ (cg_keep_foldl _ (fun s9 c9 => ?_) _ _)
      | refine cg_keep_trans _ _ _ ?_
          (cg_keep_foldl_fst _ (fun q9 c9 => ?_) _ _)
      | refine cg_keep_foldl _ (fun s9 c9 => ?_) _ _
      | refine cg_keep_foldl_fst _ (fun q9 c9 => ?_) _ _
      | refine cg_peel_emitI _ _ _ _ ?_
      | refine cg_peel_noteEv _ _ _ ?_
      | refine cg_peel_setInstType _ _ _ _ ?_
      | refine cg_peel_allocBlocks _ _ _ ?_
      | refine cg_peel_attach _ _ _ ?_
      | refine cg_peel_fail _ _ ?_
      | refine cg_peel_ir_branch _ _ _ ?_
      | refine cg_peel_ir_branch_conditional _ _ _ _ _ ?_
      | refine cg_peel_ir_return _ _ _ ?_
      | refine cg_peel_setIr _ _ _ _ ?_
      | refine cg_peel_setAddress _ _ _ _ ?_
  | VARIABLE_REFERENCE decl =>
    try dsimp only
    repeat'
      first
      | exact cg_keep_refl _
      | split
      | refine cg_keep_trans _ _ _ ?_ (ihE _ _)
      | refine cg_keep_trans _ _ _ ?_ (ihL _ _)
      | refine cg_keep_trans _ _ _ ?_ (cg_keep_foldl _ (fun s9 c9 => ?_) _ _)
      | refine cg_keep_trans _ _ _ ?_
          (cg_keep_foldl_fst _ (fun q9 c9 => ?_) _ _)
      | refine cg_keep_foldl _ (fun s9 c9 => ?_) _ _
      | refine cg_keep_foldl_fst _ (fun q9 c9 => ?_) _ _
      | refine cg_peel_emitI _ _ _ _ ?_
      | refine cg_peel_noteEv _ _ _ ?_
      | refine cg_peel_setInstType _ _ _ _ ?_
      | refine cg_peel_allocBlocks _ _ _ ?_
      | refine cg_peel_attach _ _ _ ?_
      | refine cg_peel_fail _ _ ?_
      | refine cg_peel_ir_branch _ _ _ ?_
      | refine cg_peel_ir_branch_conditional _ _ _ _ _ ?_
      | refine cg_peel_ir_return _ _ _ ?_
      | refine cg_peel_setIr _ _ _ _ ?_
      | refine cg_peel_setAddress _ _ _ _ ?_
  | STRUCTURE_DECLARATION =>
    try dsimp only
    repeat'
      first
      | exact cg_keep_refl _
      | split
      | refine cg_keep_trans _ _ _ ?_ (ihE _ _)
      | refine cg_keep_trans _ _ _ ?_ (ihL _ _)
      | refine cg_keep_trans _ _ _ ?_ (cg_keep_foldl _ (fun s9 c9 => ?_) _ _)
      | refine cg_keep_trans _ _ _ ?_
          (cg_keep_foldl_fst _ (fun q9 c9 => ?_) _ _)
      | refine cg_keep_foldl _ (fun s9 c9 => ?_) _ _
      | refine cg_keep_foldl_fst _ (fun q9 c9 => ?_) _ _
      | refine cg_peel_emitI _ _ _ _ ?_
      | refine cg_peel_noteEv _ _ _ ?_
      | refine cg_peel_setInstType _ _ _ _ ?_
      | refine cg_peel_allocBlocks _ _ _ ?_
      | refine cg_peel_attach _ _ _ ?_
      | refine cg_peel_fail _ _ ?_
      | refine cg_peel_ir_branch _ _ _ ?_
      | refine cg_peel_ir_branch_conditional _ _ _ _ _ ?_
      | refine cg_peel_ir_return _ _ _ ?_
      | refine cg_peel_setIr _ _ _ _ ?_
      | refine cg_peel_setAddress _ _ _ _ ?_
  | IF cond thenId elseOpt =>
    try dsimp only
    repeat'
      first
      | exact cg_keep_refl _
      | split
      | refine cg_keep_trans _ _ _ ?_ (ihE _ _)
      | refine cg_keep_trans _ _ _ ?_ (ihL _ _)
      | refine cg_keep_trans _ _ _ ?_ (cg_keep_foldl _ (fun s9 c9 => ?_) _ _)
      | refine cg_keep_trans _ _ _ ?_
          (cg_keep_foldl_fst _ (fun q9 c9 => ?_) _ _)
      | refine cg_keep_foldl _ (fun s9 c9 => ?_) _ _
      | refine cg_keep_foldl_fst _ (fun q9 c9 => ?_) _ _
      | refine cg_peel_emitI _ _ _ _ ?_
      | refine cg_peel_noteEv _ _ _ ?_
      | refine cg_peel_setInstType _ _ _ _ ?_
      | refine cg_peel_allocBlocks _ _ _ ?_
      | refine cg_peel_attach _ _ _ ?_
      | refine cg_peel_fail _ _ ?_
      | refine cg_peel_ir_branch _ _ _ ?_
      | refine cg_peel_ir_branch_conditional _ _ _ _ _ ?_
      | refine cg_peel_ir_return _ _ _ ?_
      | refine cg_peel_setIr _ _ _ _ ?_
      | refine cg_peel_setAddress _ _ _ _ ?_
  | WHILE cond bodyId =>
    try dsimp only
    repeat'
      first
      | exact cg_keep_refl _
      | split
      | refine cg_keep_trans _ _ _ ?_ (ihE _ _)
      | refine cg_keep_trans _ _ _ ?_ (ihL _ _)
      | refine cg_keep_trans _ _ _ ?_ (cg_keep_foldl _ (fun s9 c9 => ?_) _ _)
      | refine cg_keep_trans _ _ _ ?_
          (cg_keep_foldl_fst _ (fun q9 c9 => ?_) _ _)
      | refine cg_keep_foldl _ (fun s9 c9 => ?_) _ _
      | refine cg_keep_foldl_fst _ (fun q9 c9 => ?_) _ _
      | refine cg_peel_emitI _ _ _ _ ?_
      | refine cg_peel_noteEv _ _ _ ?_
      | refine cg_peel_setInstType _ _ _ _ ?_
      | refine cg_peel_allocBlocks _ _ _ ?_
      | refine cg_peel_attach _ _ _ ?_
      | refine cg_peel_fail _ _ ?_
      | refine cg_peel_ir_branch _ _ _ ?_
      | refine cg_peel_ir_branch_conditional _ _ _ _ _ ?_
      | refine cg_peel_ir_return _ _ _ ?_
      | refine cg_peel_setIr _ _ _ _ ?_
      | refine cg_peel_setAddress _ _ _ _ ?_
  | BLOCK children =>
    try dsimp only
    repeat'
      first
      | exact cg_keep_refl _
      | split
      | refine cg_keep_trans _ _ _ ?_ (ihE _ _)
      | refine cg_keep_trans _ _ _ ?_ (ihL _ _)
      | refine cg_keep_trans _ _ _ ?_ (cg_keep_foldl _ (fun s9 c9 => ?_) _ _)
      | refine cg_keep_trans _ _ _ ?_
          (cg_keep_foldl_fst _ (fun q9 c9 => ?_) _ _)
      | refine cg_keep_foldl _ (fun s9 c9 => ?_) _ _
      | refine cg_keep_foldl_fst _ (fun q9 c9 => ?_) _ _
      | refine cg_peel_emitI _ _ _ _ ?_
      | refine cg_peel_noteEv _ _ _ ?_
      | refine cg_peel_setInstType _ _ _ _ ?_
      | refine cg_peel_allocBlocks _ _ _ ?_
      | refine cg_peel_attach _ _ _ ?_
      | refine cg_peel_fail _ _ ?_
      | refine cg_peel_ir_branch _ _ _ ?_
      | refine cg_peel_ir_branch_conditional _ _ _ _ _ ?_
      | refine cg_peel_ir_return _ _ _ ?_
      | refine cg_peel_setIr _ _ _ _ ?_
      | refine cg_peel_setAddress _ _ _ _ ?_
  | CALL calleeId args =>
    try dsimp only
    repeat'
      first
      | exact cg_keep_refl _
      | split
      | refine cg_keep_trans _ _ _ ?_ (ihE _ _)
      | refine cg_keep_trans _ _ _ ?_ (ihL _ _)
      | refine cg_keep_trans _ _ _ ?_ (cg_keep_foldl _ (fun s9 c9 => ?_) _ _)
      | refine cg_keep_trans _ _ _ ?_
          (cg_keep_foldl_fst _ (fun q9 c9 => ?_) _ _)
      | refine cg_keep_foldl _ (fun s9 c9 => ?_) _ _
      | refine cg_keep_foldl_fst _ (fun q9 c9 => ?_) _ _
      | refine cg_peel_emitI _ _ _ _ ?_
      | refine cg_peel_noteEv _ _ _ ?_
      | refine cg_peel_setInstType _ _ _ _ ?_
      | refine cg_peel_allocBlocks _ _ _ ?_
      | refine cg_peel_attach _ _ _ ?_
      | refine cg_peel_fail _ _ ?_
      | refine cg_peel_ir_branch _ _ _ ?_
      | refine cg_peel_ir_branch_conditional _ _ _ _ _ ?_
      | refine cg_peel_ir_return _ _ _ ?_
      | refine cg_peel_setIr _ _ _ _ ?_
      | refine cg_peel_setAddress _ _ _ _ ?_
  | CAST v =>
    try dsimp only
    repeat'
      first
      | exact cg_keep_refl _
      | split
      | refine cg_keep_trans _ _ _ ?_ (ihE _ _)
      | refine cg_keep_trans _ _ _ ?_ (ihL _ _)
      | refine cg_keep_trans _ _ _ ?_ (cg_keep_foldl _ (fun s9 c9 => ?_) _ _)
      | refine cg_keep_trans _ _ _ ?_
          (cg_keep_foldl_fst _ (fun q9 c9 => ?_) _ _)
      | refine cg_keep_foldl _ (fun s9 c9 => ?_) _ _
      | refine cg_keep_foldl_fst _ (fun q9 c9 => ?_) _ _
      | refine cg_peel_emitI _ _ _ _ ?_
      | refine cg_peel_noteEv _ _ _ ?_
      | refine cg_peel_setInstType _ _ _ _ ?_
      | refine cg_peel_allocBlocks _ _ _ ?_
      | refine cg_peel_attach _ _ _ ?_
      | refine cg_peel_fail _ _ ?_
      | refine cg_peel_ir_branch _ _ _ ?_
      | refine cg_peel_ir_branch_conditional _ _ _ _ _ ?_
      | refine cg_peel_ir_return _ _ _ ?_
      | refine cg_peel_setIr _ _ _ _ ?_
      | refine cg_peel_setAddress _ _ _ _ ?_
  | UNARY uop pf v =>
    try dsimp only
    repeat'
      first
      | exact cg_keep_refl _
      | split
      | refine cg_keep_trans _ _ _ ?_ (ihE _ _)
      | refine cg_keep_trans _ _ _ ?_ (ihL _ _)
      | refine cg_keep_trans _ _ _ ?_ (cg_keep_foldl _ (fun s9 c9 => ?_) _ _)
      | refine cg_keep_trans _ _ _ ?_
          (cg_keep_foldl_fst _ (fun q9 c9 => ?_) _ _)
      | refine cg_keep_foldl _ (fun s9 c9 => ?_) _ _
      | refine cg_keep_foldl_fst _ (fun q9 c9 => ?_) _ _
      | refine cg_peel_emitI _ _ _ _ ?_
      | refine cg_peel_noteEv _ _ _ ?_
      | refine cg_peel_setInstType _ _ _ _ ?_
      | refine cg_peel_allocBlocks _ _ _ ?_
      | refine cg_peel_attach _ _ _ ?_
      | refine cg_peel_fail _ _ ?_
      | refine cg_peel_ir_branch _ _ _ ?_
      | refine cg_peel_ir_branch_conditional _ _ _ _ _ ?_
      | refine cg_peel_ir_return _ _ _ ?_
      | refine cg_peel_setIr _ _ _ _ ?_
      | refine cg_peel_setAddress _ _ _ _ ?_
  | LITERAL lit k si compound =>
    try dsimp only
    repeat'
      first
      | exact cg_keep_refl _
      | split
      | refine cg_keep_trans _ _ _ ?_ (ihE _ _)
      | refine cg_keep_trans _ _ _ ?_ (ihL _ _)
      | refine cg_keep_trans _ _ _ ?_ (cg_keep_foldl _ (fun s9 c9 => ?_) _ _)
      | refine cg_keep_trans _ _ _ ?_
          (cg_keep_foldl_fst _ (fun q9 c9 => ?_) _ _)
      | refine cg_keep_foldl _ (fun s9 c9 => ?_) _ _
      | refine cg_keep_foldl_fst _ (fun q9 c9 => ?_) _ _
      | refine cg_peel_emitI _ _ _ _ ?_
      | refine cg_peel_noteEv _ _ _ ?_
      | refine cg_peel_setInstType _ _ _ _ ?_
      | refine cg_peel_allocBlocks _ _ _ ?_
      | refine cg_peel_attach _ _ _ ?_
      | refine cg_peel_fail _ _ ?_
      | refine cg_peel_ir_branch _ _ _ ?_
      | refine cg_peel_ir_branch_conditional _ _ _ _ _ ?_
      | refine cg_peel_ir_return _ _ _ ?_
      | refine cg_peel_setIr _ _ _ _ ?_
      | refine cg_peel_setAddress _ _ _ _ ?_
  | FOR initId cond iter bodyId =>
    try dsimp only
    repeat'
      first
      | exact cg_keep_refl _
      | split
      | refine cg_keep_trans _ _ _ ?_ (ihE _ _)
      | refine cg_keep_trans _ _ _ ?_ (ihL _ _)
      | refine cg_keep_trans _ _ _ ?_ (cg_keep_foldl _ (fun s9 c9 => ?_) _ _)
      | refine cg_keep_trans _ _ _ ?_
          (cg_keep_foldl_fst _ (fun q9 c9 => ?_) _ _)
      | refine cg_keep_foldl _ (fun s9 c9 => ?_) _ _
      | refine cg_keep_foldl_fst _ (fun q9 c9 => ?_) _ _
      | refine cg_peel_emitI _ _ _ _ ?_
      | refine cg_peel_noteEv _ _ _ ?_
      | refine cg_peel_setInstType _ _ _ _ ?_
      | refine cg_peel_allocBlocks _ _ _ ?_
      | refine cg_peel_attach _ _ _ ?_
      | refine cg_peel_fail _ _ ?_
      | refine cg_peel_ir_branch _ _ _ ?_
      | refine cg_peel_ir_branch_conditional _ _ _ _ _ ?_
      | refine cg_peel_ir_return _ _ _ ?_
      | refine cg_peel_setIr _ _ _ _ ?_
      | refine cg_peel_setAddress _ _ _ _ ?_
  | FUNCTION_REFERENCE =>
    try dsimp only
    repeat'
      first
      | exact cg_keep_refl _
      | split
      | refine cg_keep_trans _ _ _ ?_ (ihE _ _)
      | refine cg_keep_trans _ _ _ ?_ (ihL _ _)
      | refine cg_keep_trans _ _ _ ?_ (cg_keep_foldl _ (fun s9 c9 => ?_) _ _)
      | refine cg_keep_trans _ _ _ ?_
          (cg_keep_foldl_fst _ (fun q9 c9 => ?_) _ _)
      | refine cg_keep_foldl _ (fun s9 c9 => ?_) _ _
      | refine cg_keep_foldl_fst _ (fun q9 c9 => ?_) _ _
      | refine cg_peel_emitI _ _ _ _ ?_
      | refine cg_peel_noteEv _ _ _ ?_
      | refine cg_peel_setInstType _ _ _ _ ?_
      | refine cg_peel_allocBlocks _ _ _ ?_
      | refine cg_peel_attach _ _ _ ?_
      | refine cg_peel_fail _ _ ?_
      | refine cg_peel_ir_branch _ _ _ ?_
      | refine cg_peel_ir_branch_conditional _ _ _ _ _ ?_
      | refine cg_peel_ir_return _ _ _ ?_
      | refine cg_peel_setIr _ _ _ _ ?_
      | refine cg_peel_setAddress _ _ _ _ ?_
  | BINARY op lhs rhs =>
    exact cg_step_binary m ihE ihL _ e lhs rhs op

/-- The emission invariants hold of every `codegen_expr` /
`codegen_lvalue` run, at every fuel. -/
theorem codegen_keep : ∀ fuel : Nat,
    (∀ st e, (∀ n, (getNode st n).emitted = true →
        (getNode (codegen_expr fuel st e) n).emitted = true) ∧
      ((∀ n ∈ st.bodies, (getNode st n).emitted = true) →
        ∀ n ∈ (codegen_expr fuel st e).bodies,
          (getNode (codegen_expr fuel st e) n).emitted = true) ∧
      ((∀ n ∈ st.bodies, (getNode st n).emitted = true) → st.bodies.Nodup →
        (codegen_expr fuel st e).bodies.Nodup)) ∧
    (∀ st l, (∀ n, (getNode st n).emitted = true →
        (getNode (codegen_lvalue fuel st l) n).emitted = true) ∧
      ((∀ n ∈ st.bodies, (getNode st n).emitted = true) →
        ∀ n ∈ (codegen_lvalue fuel st l).bodies,
          (getNode (codegen_lvalue fuel st l) n).emitted = true) ∧
      ((∀ n ∈ st.bodies, (getNode st n).emitted = true) → st.bodies.Nodup →
        (codegen_lvalue fuel st l).bodies.Nodup))
  | 0 => by
    constructor
    · intro st e
      unfold codegen_expr
      by_cases hg : (getNode st e).emitted = true
      · rw [if_pos hg]
        exact cg_keep_refl st
      · rw [if_neg hg]
        exact cg_peel_fail st st (cg_keep_refl st)
    · intro st l
      unfold codegen_lvalue
      by_cases hga : (getNode st l).address.isSome = true
      · rw [if_pos hga]
        exact cg_keep_refl st
      · rw [if_neg hga]
        exact cg_peel_fail st st (cg_keep_refl st)
  | fuel + 1 => by
    obtain ⟨ihE, ihL⟩ := codegen_keep fuel
    constructor
    · intro st e
      by_cases hg : (getNode st e).emitted = true
      · have hid : codegen_expr (fuel+1) st e = st := by
          unfold codegen_expr
          rw [if_pos hg]
        rw [hid]
        exact cg_keep_refl st
      · exact (cg_step_expr fuel ihE ihL st e hg).1
    · intro st l
      by_cases hga : (getNode st l).address.isSome = true
      · have hid : codegen_lvalue (fuel+1) st l = st := by
          unfold codegen_lvalue
          rw [if_pos hga]
        rw [hid]
        exact cg_keep_refl st
      · exact cg_step_lvalue fuel ihE ihL st l hga

/-- A first invocation with fuel to enter the body marks the node. -/
theorem codegen_marks (fuel : Nat) (st : EmitState) (e : Nat)
    (hg : (getNode st e).emitted = false) :
    (getNode (codegen_expr (fuel + 1) st e) e).emitted = true :=
  (cg_step_expr fuel (codegen_keep fuel).1 (codegen_keep fuel).2 st e
    (by simp [hg])).2

/-- C10: IR emission is idempotent per AST node.  `codegen_expr` is
guarded by `expr->emitted` (codegen.c lines 216–221): (1) whenever the
node is already marked the call returns immediately with the state
untouched; (2) a first invocation (with fuel to enter the body) marks the
node; (3) hence a repeated call on the same node is the identity — in
particular the node's stored `ir` is never overwritten by the repeated
call; and (4) the ghost body log, which records one entry per body run
(i.e. per set of IR instructions emitted for a node), stays
duplicate-free from any state whose log is duplicate-free with every
logged node marked: at most one set of IR instructions is ever emitted
per node. -/
theorem C10_emission_idempotent :
    (∀ (fuel : Nat) (st : EmitState) (e : Nat),
      (getNode st e).emitted = true → codegen_expr fuel st e = st) ∧
    (∀ (fuel : Nat) (st : EmitState) (e : Nat),
      (getNode st e).emitted = false →
      (getNode (codegen_expr (fuel + 1) st e) e).emitted = true) ∧
    (∀ (fuel fuel2 : Nat) (st : EmitState) (e : Nat),
      (getNode st e).emitted = false →
      codegen_expr fuel2 (codegen_expr (fuel + 1) st e) e =
        codegen_expr (fuel + 1) st e ∧
      (getNode (codegen_expr fuel2 (codegen_expr (fuel + 1) st e) e) e).ir =
        (getNode (codegen_expr (fuel + 1) st e) e).ir) ∧
    (∀ (fuel : Nat) (st : EmitState) (e : Nat),
      (∀ n ∈ st.bodies, (getNode st n).emitted = true) → st.bodies.Nodup →
      (codegen_expr fuel st e).bodies.Nodup) := by
  have hguard : ∀ (fuel : Nat) (st : EmitState) (e : Nat),
      (getNode st e).emitted = true → codegen_expr fuel st e = st := by
    intro fuel st e h
    cases fuel with
    | zero =>
      unfold codegen_expr
      rw [if_pos h]
    | succ m =>
      unfold codegen_expr
      rw [if_pos h]
  refine ⟨hguard, codegen_marks, ?_, ?_⟩
  · intro fuel fuel2 st e hg
    have hm := codegen_marks fuel st e hg
    have hid := hguard fuel2 (codegen_expr (fuel + 1) st e) e hm
    exact ⟨hid, by rw [hid]⟩
  · intro fuel st e hinv hnd
    exact ((codegen_keep fuel).1 st e).2.2 hinv hnd

/-- Witness: at the concrete store `stW` (node 0 an unemitted number
literal), the first call marks node 0, a repeated call is the identity,
and the body log stays duplicate-free. -/
theorem C10_emission_idempotent_witness :
    (getNode stW 0).emitted = false ∧
    (getNode (codegen_expr 1 stW 0) 0).emitted = true ∧
    codegen_expr 3 (codegen_expr 1 stW 0) 0 = codegen_expr 1 stW 0 ∧
    (codegen_expr 1 stW 0).bodies.Nodup :=
  ⟨rfl,
    C10_emission_idempotent.2.1 0 stW 0 rfl,
    (C10_emission_idempotent.2.2.1 0 3 stW 0 rfl).1,
    C10_emission_idempotent.2.2.2 1 stW 0
      (fun n hn => absurd hn (List.not_mem_nil n)) List.nodup_nil⟩

end Codegen
